import Mathlib

/-!
# vtkvmtkBoundaryLayerGenerator

A shallow embedding of `vtkVmtk/Misc/vtkvmtkBoundaryLayerGenerator.cxx`:
`WarpPoints`, `UnwrapSublayers` and `RequestData`, with the VTK containers
they use (`vtkPoints`, `vtkIdList`, `vtkCellArray`, `vtkUnstructuredGrid`)
modelled as lists.

Arithmetic is exact: `double` is an arbitrary linearly ordered field `K`, and
the square root used by `vtkMath::Norm`, `vtkMath::Normalize` and `sqrt` is a
parameter `sqrt : K → K`, so that every definition can be run over `ℚ` and
every theorem also holds over `ℝ` with `Real.sqrt`.
-/

set_option autoImplicit false
set_option linter.unusedSectionVars false
set_option linter.unusedVariables false

namespace Vmtk

/-! ## Points and `vtkMath` -/

/-- A `double[3]`. -/
structure Vec3 (K : Type) where
  x : K
  y : K
  z : K
deriving DecidableEq

namespace Vec3

variable {K : Type} [LinearOrderedField K]

instance : Zero (Vec3 K) := ⟨⟨0, 0, 0⟩⟩
instance : Add (Vec3 K) := ⟨fun a b => ⟨a.x + b.x, a.y + b.y, a.z + b.z⟩⟩
instance : Sub (Vec3 K) := ⟨fun a b => ⟨a.x - b.x, a.y - b.y, a.z - b.z⟩⟩
instance : Neg (Vec3 K) := ⟨fun a => ⟨-a.x, -a.y, -a.z⟩⟩

/-- Componentwise product with a scalar, `s * v[c]` for `c = 0, 1, 2`. -/
def smul (s : K) (v : Vec3 K) : Vec3 K := ⟨s * v.x, s * v.y, s * v.z⟩

/-- Componentwise division by a scalar, `v[c] /= s`. -/
def sdiv (v : Vec3 K) (s : K) : Vec3 K := ⟨v.x / s, v.y / s, v.z / s⟩

end Vec3

section Math

variable {K : Type} [LinearOrderedField K]

/-- `vtkMath::Dot`. -/
def Dot (a b : Vec3 K) : K := a.x * b.x + a.y * b.y + a.z * b.z

/-- `vtkMath::Distance2BetweenPoints`. -/
def Distance2BetweenPoints (a b : Vec3 K) : K :=
  (a.x - b.x) * (a.x - b.x) + (a.y - b.y) * (a.y - b.y) + (a.z - b.z) * (a.z - b.z)

/-- `vtkMath::Norm`: the square root of `v·v`. -/
def Norm (sqrt : K → K) (v : Vec3 K) : K := sqrt (v.x * v.x + v.y * v.y + v.z * v.z)

/-- `vtkMath::Normalize`: divides `v` by its norm when the norm is not zero,
and returns the norm. The pair is (the vector after the call, the value returned). -/
def Normalize (sqrt : K → K) (v : Vec3 K) : Vec3 K × K :=
  let den := Norm sqrt v
  if den ≠ 0 then (v.sdiv den, den) else (v, den)

end Math

/-! ## `WarpPoints`: the sub-layer grading -/

section Grading

variable {K : Type} [LinearOrderedField K]

/-- The first loop of `WarpPoints`:
`for (i=0; i<NumberOfSubLayers; i++) total += pow(SubLayerRatio, NumberOfSubLayers-i-1)`. -/
def totalLayerZeroSubLayerRatio (SubLayerRatio : K) (NumberOfSubLayers : Nat) : K :=
  (List.range NumberOfSubLayers).foldl
    (fun acc i => acc + SubLayerRatio ^ (NumberOfSubLayers - i - 1)) 0

/-- The second loop of `WarpPoints` and the division after it:
`for (i=0; i<subLayerId; i++) offset += pow(SubLayerRatio, NumberOfSubLayers-i-1)`,
then `offset /= total`. -/
def subLayerOffsetRatio (SubLayerRatio : K) (NumberOfSubLayers subLayerId : Nat) : K :=
  (List.range subLayerId).foldl
    (fun acc i => acc + SubLayerRatio ^ (NumberOfSubLayers - i - 1)) 0
    / totalLayerZeroSubLayerRatio SubLayerRatio NumberOfSubLayers

/-- `pow(SubLayerRatio, NumberOfSubLayers-subLayerId-1) / total`. -/
def subLayerThicknessRatio (SubLayerRatio : K) (NumberOfSubLayers subLayerId : Nat) : K :=
  SubLayerRatio ^ (NumberOfSubLayers - subLayerId - 1)
    / totalLayerZeroSubLayerRatio SubLayerRatio NumberOfSubLayers

end Grading


/-! ## The VTK containers -/

/-- The cell type codes of `vtkCellType.h` that the generator names. -/
def VTK_EMPTY_CELL : Nat := 0
/-- Linear triangle, 3 nodes. -/
def VTK_TRIANGLE : Nat := 5
/-- Linear quadrilateral, 4 nodes. -/
def VTK_QUAD : Nat := 9
/-- Hexahedron, 8 nodes. -/
def VTK_HEXAHEDRON : Nat := 12
/-- Wedge, 6 nodes. -/
def VTK_WEDGE : Nat := 13
/-- Quadratic triangle, 6 nodes. -/
def VTK_QUADRATIC_TRIANGLE : Nat := 22
/-- Quadratic wedge, 15 nodes. -/
def VTK_QUADRATIC_WEDGE : Nat := 26

/-- A `vtkDataArray` of point data: tuple index, then component index. -/
abbrev DataArray (K : Type) := Nat → Nat → K

/-- `vtkDataArray::GetTuple(i, double[3])`. -/
def DataArray.GetTuple {K : Type} (a : DataArray K) (i : Nat) : Vec3 K := ⟨a i 0, a i 1, a i 2⟩

/-- `vtkDataArray::GetComponent(i, c)`. -/
def DataArray.GetComponent {K : Type} (a : DataArray K) (i c : Nat) : K := a i c

/-- One cell of a grid: its type code and its connectivity. -/
structure Cell where
  cellType : Nat
  pts : List Nat
deriving DecidableEq

/-- A `vtkUnstructuredGrid`: points, typed cells, named point-data arrays and named
integer cell-data arrays. -/
structure vtkUnstructuredGrid (K : Type) where
  Points : List (Vec3 K)
  Cells : List Cell
  PointData : List (String × DataArray K)
  CellData : List (String × List Int)

section Containers

variable {K : Type} [LinearOrderedField K]

/-- `vtkPoints::GetPoint(i, double[3])`. -/
def GetPoint (points : List (Vec3 K)) (i : Nat) : Vec3 K := points.getD i 0

/-- `vtkPoints::SetPoint(i, double[3])`. -/
def SetPoint (points : List (Vec3 K)) (i : Nat) (p : Vec3 K) : List (Vec3 K) := points.set i p

/-- `vtkPoints::SetNumberOfPoints(n)` on a fresh `vtkPoints`: `n` slots whose contents
are unspecified until written (here zero). -/
def SetNumberOfPoints (n : Nat) : List (Vec3 K) := List.replicate n 0

/-- `new vtkIdType[n]`: contents unspecified until written (here zero). -/
def newIdArray (n : Nat) : List Nat := List.replicate n 0

/-- `vtkIdList::InsertUniqueId`. -/
def InsertUniqueId (l : List Nat) (id : Nat) : List Nat := if id ∈ l then l else l ++ [id]

/-- `vtkFieldData::GetArray(name)`: the first array of that name, if any. -/
def GetArray {α : Type} (data : List (String × α)) (name : String) : Option α := data.lookup name

/-- `vtkFieldData::AddArray`: an array of the same name is replaced. -/
def AddArray {α : Type} (data : List (String × α)) (name : String) (a : α) : List (String × α) :=
  data.filter (fun e => e.1 ≠ name) ++ [(name, a)]

namespace vtkUnstructuredGrid

/-- `GetNumberOfPoints`. -/
def GetNumberOfPoints (g : vtkUnstructuredGrid K) : Nat := g.Points.length

/-- `GetNumberOfCells`. -/
def GetNumberOfCells (g : vtkUnstructuredGrid K) : Nat := g.Cells.length

/-- `GetCellType(i)`. -/
def GetCellType (g : vtkUnstructuredGrid K) (i : Nat) : Nat :=
  match g.Cells[i]? with
  | some c => c.cellType
  | none => VTK_EMPTY_CELL

/-- `GetCellPoints(i, npts, pts)`: `pts`, with `npts` its length. -/
def GetCellPoints (g : vtkUnstructuredGrid K) (i : Nat) : List Nat :=
  match g.Cells[i]? with
  | some c => c.pts
  | none => []

/-- `GetPointCells(j, cellIds)`: the cells that use point `j`. -/
def GetPointCells (g : vtkUnstructuredGrid K) (j : Nat) : List Nat :=
  (List.range g.GetNumberOfCells).filter (fun c => decide (j ∈ g.GetCellPoints c))

/-- `GetCellNeighbors(cellId, ptIds, cellIds)`: the cells other than `cellId` that use
every point of `ptIds`. -/
def GetCellNeighbors (g : vtkUnstructuredGrid K) (cellId : Nat) (ptIds : List Nat) : List Nat :=
  (List.range g.GetNumberOfCells).filter
    (fun c => decide (c ≠ cellId) && ptIds.all (fun p => decide (p ∈ g.GetCellPoints c)))

end vtkUnstructuredGrid

end Containers

/-! ## The generator -/

/-- The members of `vtkvmtkBoundaryLayerGenerator`. A `NULL` name or object is `none`, an
`int` used as a flag is a `Bool`, and `NumberOfSubLayers` (an `int`) is a natural number:
with a negative value no loop over the sub-layers runs, and the claims are about `N ≥ 1`. -/
structure vtkvmtkBoundaryLayerGenerator (K : Type) where
  WarpVectorsArrayName : Option String
  LayerThicknessArrayName : Option String
  WarpVectorsArray : Option (DataArray K)
  LayerThicknessArray : Option (DataArray K)
  UseWarpVectorMagnitudeAsThickness : Bool
  ConstantThickness : Bool
  LayerThickness : K
  LayerThicknessRatio : K
  MaximumLayerThickness : K
  NumberOfSubLayers : Nat
  SubLayerRatio : K
  IncludeSurfaceCells : Bool
  IncludeSidewallCells : Bool
  NegateWarpVectors : Bool
  CellEntityIdsArrayName : Option String
  InnerSurfaceCellEntityId : Int
  OuterSurfaceCellEntityId : Int
  SidewallCellEntityId : Int
  VolumeCellEntityId : Int
  InnerSurface : Option (vtkUnstructuredGrid K)

namespace vtkvmtkBoundaryLayerGenerator

/-- The constructor. `VTK_VMTK_LARGE_DOUBLE` comes from `vtkvmtkConstants.h` and is a
parameter here. -/
def New {K : Type} [LinearOrderedField K] (VTK_VMTK_LARGE_DOUBLE : K) :
    vtkvmtkBoundaryLayerGenerator K :=
  { WarpVectorsArrayName := none
    LayerThicknessArrayName := none
    WarpVectorsArray := none
    LayerThicknessArray := none
    UseWarpVectorMagnitudeAsThickness := false
    ConstantThickness := false
    LayerThickness := 1
    LayerThicknessRatio := 1
    MaximumLayerThickness := VTK_VMTK_LARGE_DOUBLE
    NumberOfSubLayers := 1
    SubLayerRatio := 1
    IncludeSurfaceCells := false
    IncludeSidewallCells := false
    NegateWarpVectors := false
    CellEntityIdsArrayName := none
    InnerSurfaceCellEntityId := 0
    OuterSurfaceCellEntityId := 0
    SidewallCellEntityId := 0
    VolumeCellEntityId := 0
    InnerSurface := none }

section WarpPoints

variable {K : Type} [LinearOrderedField K]

/-- The array behind a member pointer; reading through `NULL` is undefined in the
source and yields zeros here. `RequestData` sets every pointer it lets `WarpPoints` read. -/
def deref (a : Option (DataArray K)) : DataArray K := a.getD (fun _ _ => 0)

/-- The warp vector of vertex `i` as `WarpPoints` uses it: the tuple of
`WarpVectorsArray`, multiplied by `-1.0` when `NegateWarpVectors` is set. -/
def warpVector (self : vtkvmtkBoundaryLayerGenerator K) (i : Nat) : Vec3 K :=
  let w := (deref self.WarpVectorsArray).GetTuple i
  if self.NegateWarpVectors then ⟨w.x * -1, w.y * -1, w.z * -1⟩ else w

/-- The `layerThickness` of vertex `i` in `WarpPoints`, after the clamp to
`MaximumLayerThickness`. -/
def layerThickness (sqrt : K → K) (self : vtkvmtkBoundaryLayerGenerator K) (i : Nat) : K :=
  let layerThickness :=
    if self.ConstantThickness then self.LayerThickness
    else if self.UseWarpVectorMagnitudeAsThickness then Norm sqrt (self.warpVector i)
    else (deref self.LayerThicknessArray).GetComponent i 0 * self.LayerThicknessRatio
  if layerThickness > self.MaximumLayerThickness then self.MaximumLayerThickness
  else layerThickness

/-- The `warpedPoint` that `WarpPoints` computes for vertex `i`, as a function of the
factor in front of the normalised warp vector (`1` or `0.5`):
`warpedPoint[c] = point[c] + factor * warpVector[c] * (subLayerOffset + subLayerThickness)`. -/
def warpedPoint (sqrt : K → K) (self : vtkvmtkBoundaryLayerGenerator K)
    (inputPoints : List (Vec3 K)) (subLayerId : Nat) (factor : K) (i : Nat) : Vec3 K :=
  let point := GetPoint inputPoints i
  let layerThickness := self.layerThickness sqrt i
  let warpVector := (Normalize sqrt (self.warpVector i)).1
  let subLayerOffset :=
    subLayerOffsetRatio self.SubLayerRatio self.NumberOfSubLayers subLayerId * layerThickness
  let subLayerThickness :=
    subLayerThicknessRatio self.SubLayerRatio self.NumberOfSubLayers subLayerId * layerThickness
  ⟨point.x + factor * warpVector.x * (subLayerOffset + subLayerThickness),
   point.y + factor * warpVector.y * (subLayerOffset + subLayerThickness),
   point.z + factor * warpVector.z * (subLayerOffset + subLayerThickness)⟩

/-- The body of the vertex loop of `WarpPoints` for vertex `i`. -/
def warpPointsBody (sqrt : K → K) (self : vtkvmtkBoundaryLayerGenerator K)
    (inputPoints : List (Vec3 K)) (subLayerId : Nat) (quadratic : Bool)
    (warpedPoints : List (Vec3 K)) (i : Nat) : List (Vec3 K) :=
  let numberOfInputPoints := inputPoints.length
  if quadratic then
    let warpedPoints := SetPoint warpedPoints i
      (warpedPoint sqrt self inputPoints subLayerId (1 / 2) i)
    SetPoint warpedPoints (i + numberOfInputPoints)
      (warpedPoint sqrt self inputPoints subLayerId 1 i)
  else
    SetPoint warpedPoints i (warpedPoint sqrt self inputPoints subLayerId 1 i)

/-- `WarpPoints(inputPoints, warpedPoints, subLayerId, quadratic)`, returning
`warpedPoints` (which the caller has emptied with `Initialize`). -/
def WarpPoints (sqrt : K → K) (self : vtkvmtkBoundaryLayerGenerator K)
    (inputPoints : List (Vec3 K)) (subLayerId : Nat) (quadratic : Bool) : List (Vec3 K) :=
  let numberOfInputPoints := inputPoints.length
  let warpedPoints : List (Vec3 K) :=
    if !quadratic then SetNumberOfPoints numberOfInputPoints
    else SetNumberOfPoints (2 * numberOfInputPoints)
  (List.range numberOfInputPoints).foldl
    (warpPointsBody sqrt self inputPoints subLayerId quadratic) warpedPoints

end WarpPoints

section UnwrapSublayers

variable {K : Type} [LinearOrderedField K]

/-- The loops of `UnwrapSublayers` over the cells incident to base vertex `j` and over the
points of each such cell, for sub-layer `i`: the pair
(`horizontalNeighborIds`, `onEdgeHorizontalNeighborIds`). -/
def neighborIds (input : vtkUnstructuredGrid K) (i j : Nat) : List Nat × List Nat :=
  let numberOfInputPoints := input.GetNumberOfPoints
  (input.GetPointCells j).foldl
    (fun acc cellId =>
      (input.GetCellPoints cellId).foldl
        (fun acc ptsp =>
          if ptsp = j then acc
          else
            let edgePointIds := [j, ptsp]
            let horizontalNeighborId := ptsp + i * numberOfInputPoints
            let edgeNeighborCellIds := input.GetCellNeighbors cellId edgePointIds
            let onEdge :=
              if edgeNeighborCellIds.length = 0 then InsertUniqueId acc.2 horizontalNeighborId
              else acc.2
            (InsertUniqueId acc.1 horizontalNeighborId, onEdge))
        acc)
    ([], [])

/-- The `barycenter` of the points with the given ids: their sum divided by their number,
with the division of the field `K`. For an empty list of ids the code divides by zero;
`relaxPointChecked` is the update with that division checked. -/
def barycenter (outputPoints : List (Vec3 K)) (horizontalNeighborIds : List Nat) : Vec3 K :=
  (horizontalNeighborIds.foldl (fun b h => b + GetPoint outputPoints h) 0).sdiv
    (horizontalNeighborIds.length : K)

/-- The single-vertex update of `UnwrapSublayers`: from the current `point`, its
`verticalNeighborPoint` and the `barycenter` of its horizontal neighbours to the final
`newPoint`. -/
def relaxedPoint (sqrt : K → K) (point verticalNeighborPoint barycenter : Vec3 K) : Vec3 K :=
  let horizontalRelaxation : K := 1 / 10
  let verticalRelaxation : K := 1
  let nominalVerticalLength := sqrt (Distance2BetweenPoints point verticalNeighborPoint)
  let newPoint := point + Vec3.smul horizontalRelaxation (barycenter - point)
  let direction := (Normalize sqrt (point - verticalNeighborPoint)).1
  let normalized := Normalize sqrt (newPoint - verticalNeighborPoint)
  let newDirection := normalized.1
  let verticalLength := normalized.2
  let verticalLength := verticalLength + verticalRelaxation * (nominalVerticalLength - verticalLength)
  let newDirection :=
    if Dot newDirection direction < 0 then
      ⟨newDirection.x * -1, newDirection.y * -1, newDirection.z * -1⟩
    else newDirection
  verticalNeighborPoint + Vec3.smul verticalLength newDirection

/-- The body of the innermost loop of `UnwrapSublayers`, for sub-layer `i` and base
vertex `j`. -/
def relaxPoint (sqrt : K → K) (input : vtkUnstructuredGrid K) (outputPoints : List (Vec3 K))
    (i j : Nat) : List (Vec3 K) :=
  let numberOfInputPoints := input.GetNumberOfPoints
  let pointId := j + i * numberOfInputPoints
  let point := GetPoint outputPoints pointId
  let verticalNeighborId := pointId - numberOfInputPoints
  let verticalNeighborPoint := GetPoint outputPoints verticalNeighborId
  let ids := neighborIds input i j
  let newPoint := relaxedPoint sqrt point verticalNeighborPoint (barycenter outputPoints ids.1)
  if ids.2.length ≥ 2 then outputPoints
  else SetPoint outputPoints pointId newPoint

/-- The value of `numberOfIterations` in `UnwrapSublayers`. -/
def numberOfIterations : Nat := 1000

/-- One pass of `UnwrapSublayers` over every sub-layer `i = 1..NumberOfSubLayers` and every
base vertex `j`. -/
def unwrapPass (sqrt : K → K) (self : vtkvmtkBoundaryLayerGenerator K)
    (input : vtkUnstructuredGrid K) (outputPoints : List (Vec3 K)) : List (Vec3 K) :=
  (List.range' 1 self.NumberOfSubLayers).foldl
    (fun pts i => (List.range input.GetNumberOfPoints).foldl
      (fun pts j => relaxPoint sqrt input pts i j) pts)
    outputPoints

/-- `UnwrapSublayers(input, outputPoints)`, returning `outputPoints`. -/
def UnwrapSublayers (sqrt : K → K) (self : vtkvmtkBoundaryLayerGenerator K)
    (input : vtkUnstructuredGrid K) (outputPoints : List (Vec3 K)) : List (Vec3 K) :=
  (List.range numberOfIterations).foldl (fun pts _ => unwrapPass sqrt self input pts) outputPoints

end UnwrapSublayers

end vtkvmtkBoundaryLayerGenerator

/-! ## `RequestData` -/

/-- The place in `RequestData` that emitted a cell. The source does not store it; it is
kept beside the cell arrays to tell the emitted cells apart when region ids coincide. -/
inductive Role where
  | innerSurface
  | outerSurface
  | sidewall
  | volume
deriving DecidableEq

/-- The containers `RequestData` appends cells to: `boundaryLayerCellArray`,
`boundaryLayerCellTypes`, `cellEntityIdsArray`, and the emitting place of each cell. -/
structure CellBuffers where
  boundaryLayerCellArray : List (List Nat)
  boundaryLayerCellTypes : List Nat
  cellEntityIdsArray : List Int
  roles : List Role
deriving DecidableEq

namespace CellBuffers

/-- `boundaryLayerCellArray->InsertNextCell(npts, pts)`. -/
def InsertNextCell (b : CellBuffers) (npts : Nat) (pts : List Nat) : CellBuffers :=
  { b with boundaryLayerCellArray := b.boundaryLayerCellArray ++ [pts.take npts] }

/-- `boundaryLayerCellTypes->InsertNextId(type)`. -/
def InsertNextId (b : CellBuffers) (cellType : Nat) : CellBuffers :=
  { b with boundaryLayerCellTypes := b.boundaryLayerCellTypes ++ [cellType] }

/-- `cellEntityIdsArray->InsertNextValue(id)`, noting the emitting place. -/
def InsertNextValue (b : CellBuffers) (id : Int) (role : Role) : CellBuffers :=
  { b with cellEntityIdsArray := b.cellEntityIdsArray ++ [id], roles := b.roles ++ [role] }

end CellBuffers

/-- A loop `for (i ...)` whose body may `return` from the enclosing function: `none` as
soon as one body does, else the state after the last body. -/
def forEach {S : Type} (body : Nat → S → Option S) : List Nat → S → Option S
  | [], s => some s
  | i :: rest, s =>
    match body i s with
    | none => none
    | some s' => forEach body rest s'

/-- What a call of `RequestData` leaves behind: the value returned, the message of the
`vtkErrorMacro` it raised if any, the generator's members, the output grid, and the
emitting place of each output cell. -/
structure Result (K : Type) where
  returnValue : Int
  error : Option String
  self : vtkvmtkBoundaryLayerGenerator K
  output : vtkUnstructuredGrid K
  roles : List Role

namespace vtkvmtkBoundaryLayerGenerator

section RequestData

variable {K : Type} [LinearOrderedField K]

/-- The `switch` of the surface-cell loops of `RequestData`: the type given to
`InsertNextId` and the array `surfacePts` (of `npts` slots) after the case has filled it.
`offset` is `0` for the layer-0 cells and `k*numberOfLayerPoints + numberOfLayerPoints`
for those of the last layer. `none` is the `default` case. -/
def surfaceSwitch (cellType : Nat) (pts : List Nat) (offset : Nat) : Option (Nat × List Nat) :=
  let npts := pts.length
  let surfacePts := newIdArray npts
  if cellType = VTK_TRIANGLE then
    some (VTK_TRIANGLE,
      ((surfacePts.set 0 (pts.getD 0 0 + offset)).set 1 (pts.getD 1 0 + offset)).set 2
        (pts.getD 2 0 + offset))
  else if cellType = VTK_QUAD then
    some (VTK_QUAD,
      (((surfacePts.set 0 (pts.getD 0 0 + offset)).set 1 (pts.getD 1 0 + offset)).set 2
        (pts.getD 2 0 + offset)).set 3 (pts.getD 3 0 + offset))
  else if cellType = VTK_QUADRATIC_TRIANGLE then
    some (VTK_QUADRATIC_TRIANGLE,
      (((((surfacePts.set 0 (pts.getD 0 0 + offset)).set 1 (pts.getD 1 0 + offset)).set 2
        (pts.getD 2 0 + offset)).set 3 (pts.getD 3 0 + offset)).set 4
        (pts.getD 4 0 + offset)).set 5 (pts.getD 5 0 + offset))
  else none

/-- The body of the surface-cell loops of `RequestData` for input cell `i`: the `switch`
on the cell type, then `InsertNextCell` and `InsertNextValue`. `none` is the `return` of
the `default` case. -/
def surfaceCellStep (input : vtkUnstructuredGrid K) (offset : Nat) (entityId : Int)
    (role : Role) (i : Nat) (b : CellBuffers) : Option CellBuffers :=
  let pts := input.GetCellPoints i
  let npts := pts.length
  let cellType := input.GetCellType i
  match surfaceSwitch cellType pts offset with
  | none => none
  | some (insertedType, surfacePts) =>
    some (((b.InsertNextId insertedType).InsertNextCell npts surfacePts).InsertNextValue
      entityId role)

/-- The sidewall loop of a Triangle or Quad cell `i` for transition `k`:
`for (j=0; j<npts; j++)`, skipping the edges that another cell shares. -/
def linearSidewalls (self : vtkvmtkBoundaryLayerGenerator K) (input : vtkUnstructuredGrid K)
    (i : Nat) (pts prismPts : List Nat) (b : CellBuffers) : CellBuffers :=
  let npts := pts.length
  (List.range npts).foldl
    (fun b j =>
      let jnext := (j + 1) % npts
      let edgePointIds := [pts.getD j 0, pts.getD jnext 0]
      let edgeNeighborCellIds := input.GetCellNeighbors i edgePointIds
      if edgeNeighborCellIds.length > 0 then b
      else
        let quadPts := [prismPts.getD j 0, prismPts.getD jnext 0,
          prismPts.getD (jnext + npts) 0, prismPts.getD (j + npts) 0]
        ((b.InsertNextCell 4 quadPts).InsertNextId VTK_QUAD).InsertNextValue
          self.SidewallCellEntityId Role.sidewall)
    b

/-- The sidewall loop of a QuadraticTriangle cell `i` for transition `k`:
`for (j=0; j<npts/2; j++)`, skipping the edges that another cell shares. -/
def quadraticSidewalls (self : vtkvmtkBoundaryLayerGenerator K) (input : vtkUnstructuredGrid K)
    (i : Nat) (pts prismPts : List Nat) (b : CellBuffers) : CellBuffers :=
  let npts := pts.length
  (List.range (npts / 2)).foldl
    (fun b j =>
      let jnext := (j + 1) % npts
      let edgePointIds := [pts.getD j 0, pts.getD jnext 0]
      let edgeNeighborCellIds := input.GetCellNeighbors i edgePointIds
      if edgeNeighborCellIds.length > 0 then b
      else
        let quadPts := [prismPts.getD j 0, prismPts.getD jnext 0,
          prismPts.getD (jnext + npts / 2) 0, prismPts.getD (j + npts / 2) 0,
          prismPts.getD (j + npts) 0, prismPts.getD (jnext + 2 * npts) 0,
          prismPts.getD (j + npts + npts / 2) 0, prismPts.getD (j + 2 * npts) 0]
        ((b.InsertNextCell 8 quadPts).InsertNextId VTK_QUAD).InsertNextValue
          self.SidewallCellEntityId Role.sidewall)
    b

/-- The 15 entries of `prismPts` that `RequestData` writes for a QuadraticTriangle cell,
into an array of `npts*3 - 3` slots. -/
def quadraticPrismPts (pts : List Nat) (k numberOfLayerPoints : Nat) : List Nat :=
  let npts := pts.length
  let a := newIdArray (npts * 3 - 3)
  let a := a.set 0 (pts.getD 0 0 + k * numberOfLayerPoints)
  let a := a.set 1 (pts.getD 1 0 + k * numberOfLayerPoints)
  let a := a.set 2 (pts.getD 2 0 + k * numberOfLayerPoints)
  let a := a.set 3 (pts.getD 0 0 + k * numberOfLayerPoints + numberOfLayerPoints)
  let a := a.set 4 (pts.getD 1 0 + k * numberOfLayerPoints + numberOfLayerPoints)
  let a := a.set 5 (pts.getD 2 0 + k * numberOfLayerPoints + numberOfLayerPoints)
  let a := a.set 6 (pts.getD 3 0 + k * numberOfLayerPoints)
  let a := a.set 7 (pts.getD 4 0 + k * numberOfLayerPoints)
  let a := a.set 8 (pts.getD 5 0 + k * numberOfLayerPoints)
  let a := a.set 9 (pts.getD 3 0 + k * numberOfLayerPoints + numberOfLayerPoints)
  let a := a.set 10 (pts.getD 4 0 + k * numberOfLayerPoints + numberOfLayerPoints)
  let a := a.set 11 (pts.getD 5 0 + k * numberOfLayerPoints + numberOfLayerPoints)
  let a := a.set 12 (pts.getD 0 0 + k * numberOfLayerPoints + numberOfLayerPoints / 2)
  let a := a.set 13 (pts.getD 1 0 + k * numberOfLayerPoints + numberOfLayerPoints / 2)
  let a := a.set 14 (pts.getD 2 0 + k * numberOfLayerPoints + numberOfLayerPoints / 2)
  a

/-- The body of the cell loop of transition `k` for input cell `i`: the volume cell and
the sidewall cells. `none` is the `return` of the final `else`. -/
def volumeCellStep (self : vtkvmtkBoundaryLayerGenerator K) (input : vtkUnstructuredGrid K)
    (numberOfLayerPoints k i : Nat) (b : CellBuffers) : Option CellBuffers :=
  let pts := input.GetCellPoints i
  let npts := pts.length
  let cellType := input.GetCellType i
  if cellType = VTK_TRIANGLE ∨ cellType = VTK_QUAD then
    let prismNPts := npts * 2
    let prismPts := pts.map (fun p => p + k * numberOfLayerPoints)
      ++ pts.map (fun p => p + (k + 1) * numberOfLayerPoints)
    let b := (b.InsertNextCell prismNPts prismPts).InsertNextValue
      self.VolumeCellEntityId Role.volume
    let b :=
      if cellType = VTK_TRIANGLE then b.InsertNextId VTK_WEDGE
      else if cellType = VTK_QUAD then b.InsertNextId VTK_HEXAHEDRON
      else b
    some (if self.IncludeSidewallCells then linearSidewalls self input i pts prismPts b else b)
  else if cellType = VTK_QUADRATIC_TRIANGLE then
    let prismNPts := npts * 3 - 3
    let b := b.InsertNextId VTK_QUADRATIC_WEDGE
    let prismPts := quadraticPrismPts pts k numberOfLayerPoints
    let b := (b.InsertNextCell prismNPts prismPts).InsertNextValue
      self.VolumeCellEntityId Role.volume
    some (if self.IncludeSidewallCells then quadraticSidewalls self input i pts prismPts b else b)
  else none

/-- The body of the sub-layer loop `for (k=0; k<NumberOfSubLayers; k++)`: warp the points,
copy them into block `k+1` of `outputPoints`, emit the cells of transition `k`, and after
the last transition the surface cells of layer `N`. -/
def subLayerStep (sqrt : K → K) (self : vtkvmtkBoundaryLayerGenerator K)
    (input : vtkUnstructuredGrid K) (numberOfLayerPoints : Nat) (warpQuadratic : Bool)
    (k : Nat) (state : List (Vec3 K) × CellBuffers) : Option (List (Vec3 K) × CellBuffers) :=
  let inputPoints := input.Points
  let numberOfInputPoints := inputPoints.length
  let numberOfInputCells := input.GetNumberOfCells
  let warpedPoints := self.WarpPoints sqrt inputPoints k warpQuadratic
  let outputPoints := (List.range numberOfLayerPoints).foldl
    (fun out i => SetPoint out (i + numberOfInputPoints + k * numberOfLayerPoints)
      (GetPoint warpedPoints i))
    state.1
  match forEach (volumeCellStep self input numberOfLayerPoints k)
      (List.range numberOfInputCells) state.2 with
  | none => none
  | some b =>
    if self.IncludeSurfaceCells then
      if k = self.NumberOfSubLayers - 1 then
        match forEach
            (surfaceCellStep input (k * numberOfLayerPoints + numberOfLayerPoints)
              self.OuterSurfaceCellEntityId Role.outerSurface)
            (List.range numberOfInputCells) b with
        | none => none
        | some b => some (outputPoints, b)
      else some (outputPoints, b)
    else some (outputPoints, b)

/-- Lines 110-145 of `RequestData`: the checks of the array names and arrays. The
generator as these lines leave it (with `WarpVectorsArray`, and `LayerThicknessArray` when
it is needed, set as far as the checks got), and the message of the error raised, if any. -/
def checkArrays (self : vtkvmtkBoundaryLayerGenerator K) (input : vtkUnstructuredGrid K) :
    vtkvmtkBoundaryLayerGenerator K × Option String :=
  match self.WarpVectorsArrayName with
  | none => (self, some "WarpVectors array name not specified.")
  | some warpName =>
    match self.CellEntityIdsArrayName with
    | none => (self, some "CellEntityIds array name not specified.")
    | some _ =>
      match GetArray input.PointData warpName with
      | none => (self, some "WarpVectors array with name specified does not exist!")
      | some warpArray =>
        let self := { self with WarpVectorsArray := some warpArray }
        if (!self.UseWarpVectorMagnitudeAsThickness) && (!self.ConstantThickness) then
          match self.LayerThicknessArrayName with
          | none => (self, some "LayerThickness array name not specified.")
          | some thicknessName =>
            match GetArray input.PointData thicknessName with
            | none => (self, some "LayerThickness array with name specified does not exist!")
            | some thicknessArray =>
              ({ self with LayerThicknessArray := some thicknessArray }, none)
        else (self, none)

/-- Lines 147-433 of `RequestData`: the output points before relaxation and the cell
buffers, or `none` when an unsupported element made `RequestData` return. -/
def buildLayers (sqrt : K → K) (self : vtkvmtkBoundaryLayerGenerator K)
    (input : vtkUnstructuredGrid K) : Option (List (Vec3 K) × CellBuffers) :=
  let inputPoints := input.Points
  let numberOfInputPoints := inputPoints.length
  let numberOfInputCells := input.GetNumberOfCells
  let cellType := input.GetCellType 0
  let warpQuadratic : Bool := decide (cellType = VTK_QUADRATIC_TRIANGLE)
  let numberOfLayerPoints :=
    if warpQuadratic then 2 * numberOfInputPoints else numberOfInputPoints
  let numberOfOutputPoints := numberOfInputPoints + numberOfLayerPoints * self.NumberOfSubLayers
  let outputPoints : List (Vec3 K) := SetNumberOfPoints numberOfOutputPoints
  let outputPoints := (List.range numberOfInputPoints).foldl
    (fun out i => SetPoint out i (GetPoint inputPoints i)) outputPoints
  let b : CellBuffers := ⟨[], [], [], []⟩
  let capped : Option CellBuffers :=
    if self.IncludeSurfaceCells then
      forEach (surfaceCellStep input 0 self.InnerSurfaceCellEntityId Role.innerSurface)
        (List.range numberOfInputCells) b
    else some b
  match capped with
  | none => none
  | some b =>
    forEach (subLayerStep sqrt self input numberOfLayerPoints warpQuadratic)
      (List.range self.NumberOfSubLayers) (outputPoints, b)

/-- `vtkUnstructuredGrid::SetCells(types, cells)`. -/
def SetCells (types : List Nat) (cells : List (List Nat)) : List Cell :=
  List.zipWith Cell.mk types cells

/-- `RequestData`, for the generator `self`, the input grid and the output grid as it is
before the call. -/
def RequestData (sqrt : K → K) (self : vtkvmtkBoundaryLayerGenerator K)
    (input output : vtkUnstructuredGrid K) : Result K :=
  match checkArrays self input with
  | (self, some message) => ⟨1, some message, self, output, []⟩
  | (self, none) =>
    match buildLayers sqrt self input with
    | none => ⟨1, some "Unsupported surface element.", self, output, []⟩
    | some (outputPoints, b) =>
      let numberOfInputPoints := input.Points.length
      let outputPoints := self.UnwrapSublayers sqrt input outputPoints
      let entityName := self.CellEntityIdsArrayName.getD ""
      let output : vtkUnstructuredGrid K :=
        { output with
          Points := outputPoints
          Cells := SetCells b.boundaryLayerCellTypes b.boundaryLayerCellArray
          CellData := AddArray output.CellData entityName b.cellEntityIdsArray }
      let innerSurfacePoints := (List.range numberOfInputPoints).foldl
        (fun pts i =>
          SetPoint pts i (GetPoint output.Points (i + numberOfInputPoints * self.NumberOfSubLayers)))
        (SetNumberOfPoints numberOfInputPoints)
      let innerSurface : vtkUnstructuredGrid K :=
        { input with
          Points := innerSurfacePoints
          CellData := AddArray input.CellData entityName
            (List.replicate input.GetNumberOfCells self.InnerSurfaceCellEntityId) }
      ⟨1, none, { self with InnerSurface := some innerSurface }, output, b.roles⟩

end RequestData

end vtkvmtkBoundaryLayerGenerator

/-! ## Specification-side definitions -/

/-- The function `sqrt` is the non-negative square root at the value `x`. -/
def IsSqrtAt {K : Type} [LinearOrderedField K] (sqrt : K → K) (x : K) : Prop :=
  0 ≤ sqrt x ∧ sqrt x * sqrt x = x

/-- The rational square root, exact on the squares of rationals. -/
def qsqrt (q : ℚ) : ℚ := (Nat.sqrt q.num.toNat : ℚ) / (Nat.sqrt q.den : ℚ)

/-- An output cell with its region tag and its emitting place. -/
structure Emitted where
  role : Role
  cell : Cell
  entityId : Int
deriving DecidableEq

/-- The cells of the output grid of a run, each with the region tag that the cell-data
array named by `CellEntityIdsArrayName` gives it and with its emitting place. -/
def Result.emitted {K : Type} (r : Result K) : List Emitted :=
  List.zipWith (fun role (ct : Cell × Int) => Emitted.mk role ct.1 ct.2) r.roles
    (List.zip r.output.Cells
      ((GetArray r.output.CellData (r.self.CellEntityIdsArrayName.getD "")).getD []))

/-- The messages of the errors that `RequestData` raises on configuration or missing-data
grounds. -/
def configurationErrors : List String :=
  ["WarpVectors array name not specified.",
   "CellEntityIds array name not specified.",
   "WarpVectors array with name specified does not exist!",
   "LayerThickness array name not specified.",
   "LayerThickness array with name specified does not exist!"]

/-- The message of the unsupported-element error. -/
def unsupportedElementError : String := "Unsupported surface element."

section SpecSide

variable {K : Type} [LinearOrderedField K]

/-- The configuration or the input data lacks something `RequestData` requires: the
warp-vectors array name is unset, or the cell-entity-ids array name is unset, or the input
has no point array of the warp name, or neither constant-thickness nor
magnitude-as-thickness mode is active and the thickness array name is unset or the input
has no point array of that name. -/
def ConfigurationMissing (self : vtkvmtkBoundaryLayerGenerator K)
    (input : vtkUnstructuredGrid K) : Prop :=
  self.WarpVectorsArrayName = none
  ∨ self.CellEntityIdsArrayName = none
  ∨ (∃ name, self.WarpVectorsArrayName = some name ∧ GetArray input.PointData name = none)
  ∨ (self.UseWarpVectorMagnitudeAsThickness = false ∧ self.ConstantThickness = false
      ∧ (self.LayerThicknessArrayName = none
        ∨ ∃ name, self.LayerThicknessArrayName = some name
            ∧ GetArray input.PointData name = none))

/-- The warped point of the specification for sub-layer `k` and vertex `i`:
`p_i + d_i * T_i * (Σ_{m≤k} r^(N-1-m)) / (Σ_{m<N} r^(N-1-m))`, with `d_i` the warp vector
`w_i` (negated first if `NegateWarpVectors`) divided by its norm, and
`T_i = min(T0_i, MaximumLayerThickness)` where `T0_i` is `LayerThickness` in
constant-thickness mode, else `|w_i|` in magnitude-as-thickness mode, else
`thicknessField(i) * LayerThicknessRatio`. -/
def specWarpedPoint (sqrt : K → K) (self : vtkvmtkBoundaryLayerGenerator K)
    (inputPoints : List (Vec3 K)) (k i : Nat) : Vec3 K :=
  let r := self.SubLayerRatio
  let N := self.NumberOfSubLayers
  let w := (vtkvmtkBoundaryLayerGenerator.deref self.WarpVectorsArray).GetTuple i
  let norm := sqrt (Dot w w)
  let d := (if self.NegateWarpVectors then -w else w).sdiv norm
  let T0 :=
    if self.ConstantThickness then self.LayerThickness
    else if self.UseWarpVectorMagnitudeAsThickness then norm
    else (vtkvmtkBoundaryLayerGenerator.deref self.LayerThicknessArray).GetComponent i 0
      * self.LayerThicknessRatio
  let T := min T0 self.MaximumLayerThickness
  GetPoint inputPoints i + Vec3.smul
    (T * ((∑ m in Finset.range (k + 1), r ^ (N - 1 - m)) / (∑ m in Finset.range N, r ^ (N - 1 - m))))
    d

/-- Every cell of the input is a Triangle, a Quad or a QuadraticTriangle. -/
def Supported (input : vtkUnstructuredGrid K) : Prop :=
  ∀ c ∈ input.Cells,
    c.cellType = VTK_TRIANGLE ∨ c.cellType = VTK_QUAD ∨ c.cellType = VTK_QUADRATIC_TRIANGLE

/-- Every cell of the input is a Triangle or a Quad. -/
def Linear (input : vtkUnstructuredGrid K) : Prop :=
  ∀ c ∈ input.Cells, c.cellType = VTK_TRIANGLE ∨ c.cellType = VTK_QUAD

/-- Every Triangle of the input has 3 vertices, every Quad 4, every QuadraticTriangle 6. -/
def WellFormed (input : vtkUnstructuredGrid K) : Prop :=
  ∀ c ∈ input.Cells,
    (c.cellType = VTK_TRIANGLE → c.pts.length = 3)
    ∧ (c.cellType = VTK_QUAD → c.pts.length = 4)
    ∧ (c.cellType = VTK_QUADRATIC_TRIANGLE → c.pts.length = 6)

/-- The layer block size `L` of `RequestData`: the number of input points, doubled when
the first input cell is a QuadraticTriangle. -/
def layerBlockSize (input : vtkUnstructuredGrid K) : Nat :=
  if input.GetCellType 0 = VTK_QUADRATIC_TRIANGLE then 2 * input.Points.length
  else input.Points.length

/-- The edges of a cell: its consecutive vertex pairs, wrapping. -/
def Cell.edges (c : Cell) : List (Nat × Nat) :=
  (List.range c.pts.length).map
    (fun j => (c.pts.getD j 0, c.pts.getD ((j + 1) % c.pts.length) 0))

/-- The cell `d` shares the edge `e`: both end points of `e` are vertices of `d`. -/
def Cell.shares (d : Cell) (e : Nat × Nat) : Bool := decide (e.1 ∈ d.pts) && decide (e.2 ∈ d.pts)

/-- The edge `e` of the cell with index `i` is shared by no other cell of `cells`. -/
def isBoundaryEdge (cells : List Cell) (i : Nat) (e : Nat × Nat) : Bool :=
  (List.range cells.length).all
    (fun i' => decide (i' = i) || !(Cell.shares (cells.getD i' ⟨VTK_EMPTY_CELL, []⟩) e))

/-- The number `B` of cell edges shared by no other cell. -/
def boundaryEdgeCount (cells : List Cell) : Nat :=
  ((List.range cells.length).map
    (fun i => ((cells.getD i ⟨VTK_EMPTY_CELL, []⟩).edges.filter (isBoundaryEdge cells i)).length)).sum

end SpecSide

/-! ## Emission lists

The cells that each loop of `RequestData` appends, as lists: the loops are shown below to
append exactly these. -/

namespace CellBuffers

/-- The buffers holding exactly the given cells. -/
def ofEmitted (es : List Emitted) : CellBuffers :=
  ⟨es.map (fun e => e.cell.pts), es.map (fun e => e.cell.cellType),
    es.map (fun e => e.entityId), es.map (fun e => e.role)⟩

/-- The buffers `b` followed by the given cells. -/
def extend (b : CellBuffers) (es : List Emitted) : CellBuffers :=
  ⟨b.boundaryLayerCellArray ++ es.map (fun e => e.cell.pts),
    b.boundaryLayerCellTypes ++ es.map (fun e => e.cell.cellType),
    b.cellEntityIdsArray ++ es.map (fun e => e.entityId),
    b.roles ++ es.map (fun e => e.role)⟩

end CellBuffers

section Emissions

variable {K : Type} [LinearOrderedField K]

/-- The cell of index `i` as `GetCellType` and `GetCellPoints` give it. -/
def cellAt (input : vtkUnstructuredGrid K) (i : Nat) : Cell :=
  ⟨input.GetCellType i, input.GetCellPoints i⟩

/-- The surface cell that `surfaceCellStep` appends for input cell `i`, if any. -/
def surfaceEmission (input : vtkUnstructuredGrid K) (offset : Nat) (entityId : Int)
    (role : Role) (i : Nat) : List Emitted :=
  match vtkvmtkBoundaryLayerGenerator.surfaceSwitch (input.GetCellType i)
      (input.GetCellPoints i) offset with
  | none => []
  | some (insertedType, surfacePts) =>
    [⟨role, ⟨insertedType, surfacePts.take (input.GetCellPoints i).length⟩, entityId⟩]

/-- The sidewall cells that `linearSidewalls` appends. -/
def linearSidewallEmissions (self : vtkvmtkBoundaryLayerGenerator K)
    (input : vtkUnstructuredGrid K) (i : Nat) (pts prismPts : List Nat) : List Emitted :=
  (List.range pts.length).flatMap
    (fun j =>
      if (input.GetCellNeighbors i
          [pts.getD j 0, pts.getD ((j + 1) % pts.length) 0]).length > 0 then []
      else
        [⟨Role.sidewall,
          ⟨VTK_QUAD, [prismPts.getD j 0, prismPts.getD ((j + 1) % pts.length) 0,
            prismPts.getD ((j + 1) % pts.length + pts.length) 0,
            prismPts.getD (j + pts.length) 0]⟩,
          self.SidewallCellEntityId⟩])

/-- The sidewall cells that `quadraticSidewalls` appends. -/
def quadraticSidewallEmissions (self : vtkvmtkBoundaryLayerGenerator K)
    (input : vtkUnstructuredGrid K) (i : Nat) (pts prismPts : List Nat) : List Emitted :=
  (List.range (pts.length / 2)).flatMap
    (fun j =>
      if (input.GetCellNeighbors i
          [pts.getD j 0, pts.getD ((j + 1) % pts.length) 0]).length > 0 then []
      else
        [⟨Role.sidewall,
          ⟨VTK_QUAD, [prismPts.getD j 0, prismPts.getD ((j + 1) % pts.length) 0,
            prismPts.getD ((j + 1) % pts.length + pts.length / 2) 0,
            prismPts.getD (j + pts.length / 2) 0,
            prismPts.getD (j + pts.length) 0,
            prismPts.getD ((j + 1) % pts.length + 2 * pts.length) 0,
            prismPts.getD (j + pts.length + pts.length / 2) 0,
            prismPts.getD (j + 2 * pts.length) 0]⟩,
          self.SidewallCellEntityId⟩])

/-- The prism connectivity of a Triangle or Quad cell for transition `k`. -/
def linearPrismPts (pts : List Nat) (k numberOfLayerPoints : Nat) : List Nat :=
  pts.map (fun p => p + k * numberOfLayerPoints)
    ++ pts.map (fun p => p + (k + 1) * numberOfLayerPoints)

/-- The cells that `volumeCellStep` appends for input cell `i` and transition `k`. -/
def volumeEmissions (self : vtkvmtkBoundaryLayerGenerator K) (input : vtkUnstructuredGrid K)
    (numberOfLayerPoints k i : Nat) : List Emitted :=
  let pts := input.GetCellPoints i
  let cellType := input.GetCellType i
  if cellType = VTK_TRIANGLE ∨ cellType = VTK_QUAD then
    ⟨Role.volume,
      ⟨if cellType = VTK_TRIANGLE then VTK_WEDGE else VTK_HEXAHEDRON,
        linearPrismPts pts k numberOfLayerPoints⟩,
      self.VolumeCellEntityId⟩
    :: (if self.IncludeSidewallCells then
          linearSidewallEmissions self input i pts (linearPrismPts pts k numberOfLayerPoints)
        else [])
  else if cellType = VTK_QUADRATIC_TRIANGLE then
    ⟨Role.volume,
      ⟨VTK_QUADRATIC_WEDGE,
        (vtkvmtkBoundaryLayerGenerator.quadraticPrismPts pts k numberOfLayerPoints).take
          (pts.length * 3 - 3)⟩,
      self.VolumeCellEntityId⟩
    :: (if self.IncludeSidewallCells then
          quadraticSidewallEmissions self input i pts
            (vtkvmtkBoundaryLayerGenerator.quadraticPrismPts pts k numberOfLayerPoints)
        else [])
  else []

/-- The cells that `subLayerStep` appends for transition `k`. -/
def layerEmissions (self : vtkvmtkBoundaryLayerGenerator K) (input : vtkUnstructuredGrid K)
    (numberOfLayerPoints k : Nat) : List Emitted :=
  (List.range input.GetNumberOfCells).flatMap (volumeEmissions self input numberOfLayerPoints k)
  ++ (if self.IncludeSurfaceCells = true ∧ k = self.NumberOfSubLayers - 1 then
        (List.range input.GetNumberOfCells).flatMap
          (surfaceEmission input (k * numberOfLayerPoints + numberOfLayerPoints)
            self.OuterSurfaceCellEntityId Role.outerSurface)
      else [])

/-- The cells that `RequestData` emits on a supported input, in order. -/
def allEmissions (self : vtkvmtkBoundaryLayerGenerator K) (input : vtkUnstructuredGrid K) :
    List Emitted :=
  (if self.IncludeSurfaceCells then
      (List.range input.GetNumberOfCells).flatMap
        (surfaceEmission input 0 self.InnerSurfaceCellEntityId Role.innerSurface)
    else [])
  ++ (List.range self.NumberOfSubLayers).flatMap (layerEmissions self input (layerBlockSize input))

/-- The volume cell of input cell `c` for transition `k`, with layer block size `L`. -/
def linearVolumeCell (self : vtkvmtkBoundaryLayerGenerator K) (L k : Nat) (c : Cell) : Emitted :=
  ⟨Role.volume,
    ⟨if c.cellType = VTK_TRIANGLE then VTK_WEDGE else VTK_HEXAHEDRON,
      c.pts.map (fun p => p + k * L) ++ c.pts.map (fun p => p + (k + 1) * L)⟩,
    self.VolumeCellEntityId⟩

/-- The surface cell of input cell `c` at vertex offset `offset`. -/
def surfaceCell (offset : Nat) (entityId : Int) (role : Role) (c : Cell) : Emitted :=
  ⟨role, ⟨c.cellType, c.pts.map (fun p => p + offset)⟩, entityId⟩

/-- The volume and sidewall cells of all transitions. -/
def middleEmissions (self : vtkvmtkBoundaryLayerGenerator K) (input : vtkUnstructuredGrid K) :
    List Emitted :=
  (List.range self.NumberOfSubLayers).flatMap
    (fun k => (List.range input.Cells.length).flatMap
      (volumeEmissions self input (layerBlockSize input) k))

/-- The point writes of `subLayerStep` for transition `k`: the warped points copied into
block `k+1` of `outputPoints`. -/
def copyWarpedPoints (sqrt : K → K) (self : vtkvmtkBoundaryLayerGenerator K)
    (input : vtkUnstructuredGrid K) (k : Nat) (outputPoints : List (Vec3 K)) : List (Vec3 K) :=
  (List.range (layerBlockSize input)).foldl
    (fun out i => SetPoint out (i + input.Points.length + k * layerBlockSize input)
      (GetPoint (self.WarpPoints sqrt input.Points k
        (decide (input.GetCellType 0 = VTK_QUADRATIC_TRIANGLE))) i))
    outputPoints

/-- The output points of `RequestData` on a supported input as they are before
`UnwrapSublayers`: the input points, then the warped block of every sub-layer. -/
def extrudedPoints (sqrt : K → K) (self : vtkvmtkBoundaryLayerGenerator K)
    (input : vtkUnstructuredGrid K) : List (Vec3 K) :=
  (List.range self.NumberOfSubLayers).foldl
    (fun out k => copyWarpedPoints sqrt self input k out)
    ((List.range input.Points.length).foldl
      (fun out i => SetPoint out i (GetPoint input.Points i))
      (SetNumberOfPoints (input.Points.length + layerBlockSize input * self.NumberOfSubLayers)))

end Emissions

/-! ## Example inputs -/

/-- A warp-vectors array that is `(0, 0, 1)` at every vertex. -/
def upwardWarp : DataArray ℚ := fun _ c => if c = 2 then 1 else 0

/-- A warp-vectors array that is `(3, 4, 0)` at every vertex. -/
def slantedWarp : DataArray ℚ := fun _ c => if c = 0 then 3 else if c = 1 then 4 else 0

/-- A grid without points, cells or data, as the output is before a run. -/
def emptyGrid : vtkUnstructuredGrid ℚ := ⟨[], [], [], []⟩

/-- One flat triangle with the warp vector `(0, 0, 1)` at every vertex. -/
def triangleInput : vtkUnstructuredGrid ℚ :=
  ⟨[⟨0, 0, 0⟩, ⟨1, 0, 0⟩, ⟨0, 1, 0⟩], [⟨VTK_TRIANGLE, [0, 1, 2]⟩], [("Normals", upwardWarp)], []⟩

/-- Two flat triangles sharing the edge `1-2`. -/
def twoTrianglesInput : vtkUnstructuredGrid ℚ :=
  ⟨[⟨0, 0, 0⟩, ⟨1, 0, 0⟩, ⟨0, 1, 0⟩, ⟨1, 1, 0⟩],
    [⟨VTK_TRIANGLE, [0, 1, 2]⟩, ⟨VTK_TRIANGLE, [1, 3, 2]⟩], [("Normals", upwardWarp)], []⟩

/-- One flat quadratic triangle: three corners, then the three mid-edge nodes. -/
def quadraticInput : vtkUnstructuredGrid ℚ :=
  ⟨[⟨0, 0, 0⟩, ⟨2, 0, 0⟩, ⟨0, 2, 0⟩, ⟨1, 0, 0⟩, ⟨1, 1, 0⟩, ⟨0, 1, 0⟩],
    [⟨VTK_QUADRATIC_TRIANGLE, [0, 1, 2, 3, 4, 5]⟩], [("Normals", upwardWarp)], []⟩

/-- One polygon with 5 vertices (`VTK_POLYGON` is 7). -/
def pentagonInput : vtkUnstructuredGrid ℚ :=
  ⟨[⟨0, 0, 0⟩, ⟨1, 0, 0⟩, ⟨2, 1, 0⟩, ⟨1, 2, 0⟩, ⟨0, 1, 0⟩], [⟨7, [0, 1, 2, 3, 4]⟩],
    [("Normals", upwardWarp)], []⟩

/-- The generator of the single-triangle scenario: a freshly constructed generator (one
sub-layer, warp vectors not negated, maximum thickness `10^299`) with the array names set,
constant thickness 2, surface cells included, sidewall cells not, and four distinct
region ids. -/
def scenarioGenerator : vtkvmtkBoundaryLayerGenerator ℚ :=
  { vtkvmtkBoundaryLayerGenerator.New (10 ^ 299 : ℚ) with
    WarpVectorsArrayName := some "Normals"
    ConstantThickness := true
    LayerThickness := 2
    IncludeSurfaceCells := true
    CellEntityIdsArrayName := some "CellEntityIds"
    InnerSurfaceCellEntityId := 1
    OuterSurfaceCellEntityId := 2
    SidewallCellEntityId := 3
    VolumeCellEntityId := 4 }

/-- The generator of the single-triangle scenario after the checks of `RequestData`: its
`WarpVectorsArray` points to the array of the input. -/
def checkedScenarioGenerator : vtkvmtkBoundaryLayerGenerator ℚ :=
  { scenarioGenerator with WarpVectorsArray := some upwardWarp }

/-- A generator with two graded sub-layers, surface and sidewall cells included. -/
def gradedGenerator : vtkvmtkBoundaryLayerGenerator ℚ :=
  { scenarioGenerator with
    NumberOfSubLayers := 2
    SubLayerRatio := 2
    IncludeSidewallCells := true }

/-- A generator in magnitude-as-thickness mode with negated warp vectors `(3, 4, 0)`, as
`RequestData` hands it to `WarpPoints`. -/
def slantedGenerator : vtkvmtkBoundaryLayerGenerator ℚ :=
  { gradedGenerator with
    WarpVectorsArray := some slantedWarp
    UseWarpVectorMagnitudeAsThickness := true
    ConstantThickness := false
    MaximumLayerThickness := 4
    NegateWarpVectors := true }

/-! ## The region tags -/

section Tags

variable {K : Type} [LinearOrderedField K]

/-- The region tag configured for an emitting place. -/
def tagOf (self : vtkvmtkBoundaryLayerGenerator K) : Role → Int
  | Role.innerSurface => self.InnerSurfaceCellEntityId
  | Role.outerSurface => self.OuterSurfaceCellEntityId
  | Role.sidewall => self.SidewallCellEntityId
  | Role.volume => self.VolumeCellEntityId

/-- The cell, type and tag sequences have the same length, and the tag at each position
is the id configured for the place that emitted the cell at that position. -/
def Tagged (self : vtkvmtkBoundaryLayerGenerator K) (b : CellBuffers) : Prop :=
  b.boundaryLayerCellArray.length = b.boundaryLayerCellTypes.length
    ∧ b.boundaryLayerCellTypes.length = b.cellEntityIdsArray.length
    ∧ b.cellEntityIdsArray = b.roles.map (tagOf self)

end Tags

/-! ## The updates of `UnwrapSublayers` one by one -/

section Updates

variable {K : Type} [LinearOrderedField K]

open vtkvmtkBoundaryLayerGenerator

/-- The single-vertex updates of `UnwrapSublayers` in the order of its three nested loops:
the pairs (sub-layer `i`, base vertex `j`). -/
def updateSites (self : vtkvmtkBoundaryLayerGenerator K) (input : vtkUnstructuredGrid K) :
    List (Nat × Nat) :=
  (List.range numberOfIterations).flatMap (fun _ =>
    (List.range' 1 self.NumberOfSubLayers).flatMap (fun i =>
      (List.range input.GetNumberOfPoints).map (fun j => (i, j))))

/-- The output points after the first `m` single-vertex updates of `UnwrapSublayers`. -/
def relaxedAfter (sqrt : K → K) (self : vtkvmtkBoundaryLayerGenerator K)
    (input : vtkUnstructuredGrid K) (outputPoints : List (Vec3 K)) (m : Nat) : List (Vec3 K) :=
  ((updateSites self input).take m).foldl
    (fun pts site => relaxPoint sqrt input pts site.1 site.2) outputPoints

end Updates

/-! ## Example inputs for the relaxation -/

/-- A fan of three triangles around vertex 0, whose rim 1, 2, 3 has its barycenter at
vertex 0. -/
def symmetricFan : vtkUnstructuredGrid ℚ :=
  ⟨[⟨0, 0, 0⟩, ⟨2, 0, 0⟩, ⟨-1, 1, 0⟩, ⟨-1, -1, 0⟩],
    [⟨VTK_TRIANGLE, [0, 1, 2]⟩, ⟨VTK_TRIANGLE, [0, 2, 3]⟩, ⟨VTK_TRIANGLE, [0, 3, 1]⟩],
    [("Normals", upwardWarp)], []⟩

/-- The points of `symmetricFan` and their copies at height 2. -/
def symmetricFanPoints : List (Vec3 ℚ) :=
  [⟨0, 0, 0⟩, ⟨2, 0, 0⟩, ⟨-1, 1, 0⟩, ⟨-1, -1, 0⟩,
   ⟨0, 0, 2⟩, ⟨2, 0, 2⟩, ⟨-1, 1, 2⟩, ⟨-1, -1, 2⟩]

/-- A fan of three triangles around vertex 0, whose rim 1, 2, 3 has its barycenter at
`(240, 0, 0)`. -/
def skewFan : vtkUnstructuredGrid ℚ :=
  ⟨[⟨0, 0, 0⟩, ⟨800, 0, 0⟩, ⟨-40, 100, 0⟩, ⟨-40, -100, 0⟩],
    [⟨VTK_TRIANGLE, [0, 1, 2]⟩, ⟨VTK_TRIANGLE, [0, 2, 3]⟩, ⟨VTK_TRIANGLE, [0, 3, 1]⟩],
    [("Normals", upwardWarp)], []⟩

/-- A generator with two sub-layers of ratio `7/18` and constant thickness 25: the nominal
sub-layer thicknesses are 7 and 18. -/
def driftGenerator : vtkvmtkBoundaryLayerGenerator ℚ :=
  { scenarioGenerator with
    NumberOfSubLayers := 2
    SubLayerRatio := 7 / 18
    LayerThickness := 25 }

/-- The generator `driftGenerator` after the checks of `RequestData`. -/
def checkedDriftGenerator : vtkvmtkBoundaryLayerGenerator ℚ :=
  { driftGenerator with WarpVectorsArray := some upwardWarp }

/-! ## The sidewalls of the specification -/

section SpecSidewalls

variable {K : Type} [LinearOrderedField K]

/-- The sidewall of the specification for edge `j` of cell `c` and transition `k`: the
4-node Quad `[pts[j]+k*L, pts[jnext]+k*L, pts[jnext]+(k+1)*L, pts[j]+(k+1)*L]` with
`jnext = (j+1) mod npts`, tagged with the sidewall id. -/
def specSidewall (self : vtkvmtkBoundaryLayerGenerator K) (L k : Nat) (c : Cell) (j : Nat) :
    Emitted :=
  ⟨Role.sidewall,
    ⟨VTK_QUAD, [c.pts.getD j 0 + k * L, c.pts.getD ((j + 1) % c.pts.length) 0 + k * L,
      c.pts.getD ((j + 1) % c.pts.length) 0 + (k + 1) * L, c.pts.getD j 0 + (k + 1) * L]⟩,
    self.SidewallCellEntityId⟩

/-- The cells of the specification for input cell `c` of index `i` and transition `k`:
the volume cell, then one sidewall per edge of `c` that no other cell shares, in the order
of the edges. -/
def specCellBlock (self : vtkvmtkBoundaryLayerGenerator K) (cells : List Cell) (L k i : Nat)
    (c : Cell) : List Emitted :=
  linearVolumeCell self L k c
    :: ((List.range c.pts.length).filter
          (fun j => isBoundaryEdge cells i
            (c.pts.getD j 0, c.pts.getD ((j + 1) % c.pts.length) 0))).map
        (specSidewall self L k c)

end SpecSidewalls

/-! ## Neighbours across a mesh-boundary edge -/

section BoundaryNeighbors

variable {K : Type} [LinearOrderedField K]

/-- The vertex `p` is a neighbour of `j` across a mesh-boundary edge, in the words of the
specification: `p` is another vertex, and `{j, p}` is an edge of a cell incident to `j`
that no other cell shares. -/
def IsBoundaryNeighbor (input : vtkUnstructuredGrid K) (j p : Nat) : Prop :=
  p ≠ j ∧ ∃ cellId, cellId < input.Cells.length ∧ j ∈ input.GetCellPoints cellId
    ∧ ((j, p) ∈ (cellAt input cellId).edges ∨ (p, j) ∈ (cellAt input cellId).edges)
    ∧ isBoundaryEdge input.Cells cellId (j, p) = true

/-- One flat quad. -/
def quadInput : vtkUnstructuredGrid ℚ :=
  ⟨[⟨0, 0, 0⟩, ⟨1, 0, 0⟩, ⟨1, 1, 0⟩, ⟨0, 1, 0⟩], [⟨VTK_QUAD, [0, 1, 2, 3]⟩],
    [("Normals", upwardWarp)], []⟩

/-- A flat patch of 2 x 2 quads on 3 x 3 vertices; vertex 4 is the interior vertex. -/
def quadPatch : vtkUnstructuredGrid ℚ :=
  ⟨[⟨0, 0, 0⟩, ⟨1, 0, 0⟩, ⟨2, 0, 0⟩, ⟨0, 1, 0⟩, ⟨1, 1, 0⟩, ⟨2, 1, 0⟩,
    ⟨0, 2, 0⟩, ⟨1, 2, 0⟩, ⟨2, 2, 0⟩],
    [⟨VTK_QUAD, [0, 1, 4, 3]⟩, ⟨VTK_QUAD, [1, 2, 5, 4]⟩, ⟨VTK_QUAD, [3, 4, 7, 6]⟩,
     ⟨VTK_QUAD, [4, 5, 8, 7]⟩],
    [("Normals", upwardWarp)], []⟩

end BoundaryNeighbors

/-! ## Example inputs for the quadratic sidewalls -/

/-- Two flat quadratic triangles sharing the corner-to-corner edge `2-0` (mid-edge node
5): corners `0, 1, 2` with mid-edge nodes `3, 4, 5`, and corners `2, 0, 6` with mid-edge
nodes `5, 7, 8`. -/
def twoQuadraticInput : vtkUnstructuredGrid ℚ :=
  ⟨[⟨0, 0, 0⟩, ⟨2, 0, 0⟩, ⟨0, 2, 0⟩, ⟨1, 0, 0⟩, ⟨1, 1, 0⟩, ⟨0, 1, 0⟩,
    ⟨-2, 0, 0⟩, ⟨-1, 0, 0⟩, ⟨-1, 1, 0⟩],
    [⟨VTK_QUADRATIC_TRIANGLE, [0, 1, 2, 3, 4, 5]⟩, ⟨VTK_QUADRATIC_TRIANGLE, [2, 0, 6, 5, 7, 8]⟩],
    [("Normals", upwardWarp)], []⟩

/-- The generator of the single-triangle scenario with sidewall cells included. -/
def sidewallGenerator : vtkvmtkBoundaryLayerGenerator ℚ :=
  { scenarioGenerator with IncludeSidewallCells := true }

/-! ## The reads of the quadratic sidewall loop and the node counts -/

/-- The indices at which the sidewall loop of a QuadraticTriangle cell reads `prismPts`
for its edge `j`, in the order of `quadPts[0..7]`: `j`, `jnext`, `jnext+npts/2`,
`j+npts/2`, `j+npts`, `jnext+2*npts`, `j+npts+npts/2`, `j+2*npts`, with
`jnext = (j+1) % npts`. -/
def quadraticSidewallReads (npts j : Nat) : List Nat :=
  let jnext := (j + 1) % npts
  [j, jnext, jnext + npts / 2, j + npts / 2, j + npts, jnext + 2 * npts,
    j + npts + npts / 2, j + 2 * npts]

/-- The entries of `a` at the indices `idxs` with Option-returning indexing: `none` when
one of the indices is outside `a`. -/
def lookupAll (a : List Nat) : List Nat → Option (List Nat)
  | [] => some []
  | idx :: rest =>
    match a[idx]?, lookupAll a rest with
    | some v, some l => some (v :: l)
    | _, _ => none

/-- The array `quadPts` of the quadratic sidewall loop with Option-returning indexing:
`none` when one of the reads is outside `prismPts`. -/
def quadPtsChecked (prismPts : List Nat) (npts j : Nat) : Option (List Nat) :=
  lookupAll prismPts (quadraticSidewallReads npts j)

/-- The node count of the cell types that `RequestData` records. -/
def nodeCount (cellType : Nat) : Option Nat :=
  if cellType = VTK_TRIANGLE then some 3
  else if cellType = VTK_QUAD then some 4
  else if cellType = VTK_QUADRATIC_TRIANGLE then some 6
  else if cellType = VTK_WEDGE then some 6
  else if cellType = VTK_HEXAHEDRON then some 8
  else if cellType = VTK_QUADRATIC_WEDGE then some 15
  else none

/-! ## Example generator for the quadratic mid ring -/

/-- The generator of the single-triangle scenario with two sub-layers (ratio 1, constant
thickness 2: the layers are at heights 1 and 2). -/
def twoLayerGenerator : vtkvmtkBoundaryLayerGenerator ℚ :=
  { scenarioGenerator with NumberOfSubLayers := 2 }

/-- The generator `twoLayerGenerator` after the checks of `RequestData`. -/
def checkedTwoLayerGenerator : vtkvmtkBoundaryLayerGenerator ℚ :=
  { twoLayerGenerator with WarpVectorsArray := some upwardWarp }

/-! ## The relaxation with the division by the neighbour count checked -/

section Checked

variable {K : Type} [LinearOrderedField K]

open vtkvmtkBoundaryLayerGenerator

/-- The vertex `j` has a horizontal neighbour: a cell that uses `j` has another vertex. -/
def HasHorizontalNeighbor (input : vtkUnstructuredGrid K) (j : Nat) : Prop :=
  ∃ cellId ∈ input.GetPointCells j, ∃ p ∈ input.GetCellPoints cellId, p ≠ j

/-- The single-vertex update of `UnwrapSublayers` for the layer-`i` vertex of base vertex
`j` (the body of the loops over `i` and `j`), with the division
`barycenter[c] /= numberOfHorizontalNeighbors` checked: `none` when
`numberOfHorizontalNeighbors` is zero, where the code divides `0.0` by zero and goes on
with what that gives. The division comes before the test of the on-edge neighbours. -/
def relaxPointChecked (sqrt : K → K) (input : vtkUnstructuredGrid K)
    (outputPoints : List (Vec3 K)) (i j : Nat) : Option (List (Vec3 K)) :=
  let numberOfInputPoints := input.GetNumberOfPoints
  let pointId := j + i * numberOfInputPoints
  let point := GetPoint outputPoints pointId
  let verticalNeighborId := pointId - numberOfInputPoints
  let verticalNeighborPoint := GetPoint outputPoints verticalNeighborId
  let ids := neighborIds input i j
  let numberOfHorizontalNeighbors := ids.1.length
  let sum : Vec3 K := ids.1.foldl (fun b h => b + GetPoint outputPoints h) 0
  if numberOfHorizontalNeighbors = 0 then none
  else
    let barycenter := sum.sdiv (numberOfHorizontalNeighbors : K)
    let newPoint := relaxedPoint sqrt point verticalNeighborPoint barycenter
    if ids.2.length ≥ 2 then some outputPoints
    else some (SetPoint outputPoints pointId newPoint)

end Checked

/-- One flat triangle `[1, 2, 3]` and a vertex 0 that no cell uses. -/
def isolatedInput : vtkUnstructuredGrid ℚ :=
  ⟨[⟨3, 3, 0⟩, ⟨0, 0, 0⟩, ⟨1, 0, 0⟩, ⟨0, 1, 0⟩], [⟨VTK_TRIANGLE, [1, 2, 3]⟩],
    [("Normals", upwardWarp)], []⟩

/-! ## Lemmas on lists and loops -/

open vtkvmtkBoundaryLayerGenerator

section ListLemmas

variable {α β : Type}

theorem foldl_invariant (P : β → Prop) (body : β → α → β) (l : List α)
    (h : ∀ b a, a ∈ l → P b → P (body b a)) : ∀ (b : β), P b → P (l.foldl body b) := by
  induction l with
  | nil => intro b hb; exact hb
  | cons a l ih =>
    intro b hb
    rw [List.foldl_cons]
    exact ih (fun b' a' ha' => h b' a' (List.mem_cons_of_mem _ ha')) _
      (h b a (List.mem_cons_self _ _) hb)

theorem getD_foldl_set (f : Nat → α) (off : Nat) (d : α) (l : List α) (m j : Nat) :
    ((List.range m).foldl (fun acc i => acc.set (i + off) (f i)) l).getD j d
      = if off ≤ j ∧ j < off + m ∧ j < l.length then f (j - off) else l.getD j d := by
  induction m with
  | zero =>
    have : ¬ (off ≤ j ∧ j < off + 0 ∧ j < l.length) := by omega
    rw [if_neg this]; rfl
  | succ m ih =>
    have hlen : ((List.range m).foldl (fun acc i => acc.set (i + off) (f i)) l).length = l.length :=
      foldl_invariant (fun acc => acc.length = l.length) _ _
        (fun b a _ hb => by simp [hb]) l rfl
    rw [List.range_succ, List.foldl_append, List.foldl_cons, List.foldl_nil]
    rw [List.getD_eq_getElem?_getD, List.getElem?_set, hlen]
    by_cases hj : m + off = j
    · subst hj
      by_cases hl : m + off < l.length
      · have : off ≤ m + off ∧ m + off < off + (m + 1) ∧ m + off < l.length := ⟨by omega, by omega, hl⟩
        simp [hl, this]
      · have : ¬ (off ≤ m + off ∧ m + off < off + (m + 1) ∧ m + off < l.length) := by omega
        have hnone : l[m + off]? = none := List.getElem?_eq_none (by omega)
        simp [hl, this, hnone]
    · rw [if_neg hj, ← List.getD_eq_getElem?_getD, ih]
      by_cases hc : off ≤ j ∧ j < off + m ∧ j < l.length
      · have : off ≤ j ∧ j < off + (m + 1) ∧ j < l.length := by omega
        rw [if_pos hc, if_pos this]
      · have : ¬ (off ≤ j ∧ j < off + (m + 1) ∧ j < l.length) := by omega
        rw [if_neg hc, if_neg this]

end ListLemmas

section ForEach

variable {S : Type}

theorem forEach_none (body : Nat → S → Option S) (l : List Nat) (i : Nat) (hi : i ∈ l)
    (h : ∀ s, body i s = none) : ∀ s, forEach body l s = none := by
  induction l with
  | nil => cases hi
  | cons a rest ih =>
    intro s
    simp only [forEach]
    rcases List.mem_cons.mp hi with rfl | hmem
    · rw [h s]
    · cases body a s with
      | none => rfl
      | some s' => exact ih hmem s'

end ForEach

/-! ## The sub-layer grading -/

section GradingLemmas

variable {K : Type} [LinearOrderedField K]

theorem foldl_add_eq_sum (f : Nat → K) (n : Nat) :
    (List.range n).foldl (fun acc i => acc + f i) 0 = ∑ i in Finset.range n, f i := by
  induction n with
  | zero => simp
  | succ n ih => rw [List.range_succ, List.foldl_append, ih, Finset.sum_range_succ]; rfl

theorem sum_map_range (f : Nat → K) (n : Nat) :
    ((List.range n).map f).sum = ∑ i in Finset.range n, f i := by
  induction n with
  | zero => simp
  | succ n ih => rw [List.range_succ, List.map_append, List.sum_append, ih, Finset.sum_range_succ]; simp

theorem totalLayerZeroSubLayerRatio_eq (r : K) (N : Nat) :
    totalLayerZeroSubLayerRatio r N = ∑ i in Finset.range N, r ^ (N - i - 1) :=
  foldl_add_eq_sum (fun i => r ^ (N - i - 1)) N

theorem totalLayerZeroSubLayerRatio_pos (r : K) (N : Nat) (hN : 1 ≤ N) (hr : 0 < r) :
    0 < totalLayerZeroSubLayerRatio r N := by
  rw [totalLayerZeroSubLayerRatio_eq]
  apply Finset.sum_pos
  · intro i _; exact pow_pos hr _
  · exact ⟨0, Finset.mem_range.mpr hN⟩

theorem cumulative_ratio_eq (r : K) (N k : Nat) :
    subLayerOffsetRatio r N k + subLayerThicknessRatio r N k
      = (∑ m in Finset.range (k + 1), r ^ (N - m - 1)) / (∑ m in Finset.range N, r ^ (N - m - 1)) := by
  unfold subLayerOffsetRatio subLayerThicknessRatio
  rw [totalLayerZeroSubLayerRatio_eq, foldl_add_eq_sum (fun i => r ^ (N - i - 1)) k,
    Finset.sum_range_succ, add_div]

end GradingLemmas

/-! ## `WarpPoints` -/

section WarpLemmas

variable {K : Type} [LinearOrderedField K]

theorem Vec3.ext_iff' (a b : Vec3 K) : a = b ↔ a.x = b.x ∧ a.y = b.y ∧ a.z = b.z := by
  cases a; cases b; simp

theorem Dot_self_pos (w : Vec3 K) (hw : w ≠ 0) : 0 < Dot w w := by
  have h : w.x ≠ 0 ∨ w.y ≠ 0 ∨ w.z ≠ 0 := by
    by_contra hc
    push_neg at hc
    apply hw
    rw [Vec3.ext_iff']
    exact hc
  unfold Dot
  rcases h with h | h | h
  · have := mul_self_pos.mpr h
    nlinarith [mul_self_nonneg w.y, mul_self_nonneg w.z]
  · have := mul_self_pos.mpr h
    nlinarith [mul_self_nonneg w.x, mul_self_nonneg w.z]
  · have := mul_self_pos.mpr h
    nlinarith [mul_self_nonneg w.x, mul_self_nonneg w.y]

theorem sqrt_ne_zero_of_isSqrtAt (sqrt : K → K) (w : Vec3 K) (hw : w ≠ 0)
    (hs : IsSqrtAt sqrt (Dot w w)) : sqrt (Dot w w) ≠ 0 := by
  intro h0
  have := Dot_self_pos w hw
  rw [← hs.2, h0] at this
  simp at this

theorem WarpPoints_linear_getPoint (sqrt : K → K) (self : vtkvmtkBoundaryLayerGenerator K)
    (inputPoints : List (Vec3 K)) (k i : Nat) (hi : i < inputPoints.length) :
    GetPoint (self.WarpPoints sqrt inputPoints k false) i
      = warpedPoint sqrt self inputPoints k 1 i := by
  have hbody : warpPointsBody sqrt self inputPoints k false
      = fun acc i => acc.set (i + 0) (warpedPoint sqrt self inputPoints k 1 i) := by
    funext acc i
    simp [warpPointsBody, SetPoint]
  unfold WarpPoints GetPoint
  rw [hbody, getD_foldl_set]
  have hc : 0 ≤ i ∧ i < 0 + inputPoints.length
      ∧ i < (SetNumberOfPoints inputPoints.length : List (Vec3 K)).length := by
    simp [SetNumberOfPoints, hi]
  simp only [Bool.not_false, if_true]
  rw [if_pos hc]
  rfl

end WarpLemmas

/-! ## The cell loops of `RequestData` -/

namespace CellBuffers

theorem extend_nil (b : CellBuffers) : b.extend [] = b := by
  cases b; simp [extend]

theorem extend_extend (b : CellBuffers) (es fs : List Emitted) :
    (b.extend es).extend fs = b.extend (es ++ fs) := by
  simp [extend, List.append_assoc]

theorem empty_extend (es : List Emitted) :
    (⟨[], [], [], []⟩ : CellBuffers).extend es = ofEmitted es := by
  simp [extend, ofEmitted]

theorem insert_cell_id_value (b : CellBuffers) (n : Nat) (pts : List Nat) (t : Nat) (id : Int)
    (role : Role) :
    ((b.InsertNextCell n pts).InsertNextId t).InsertNextValue id role
      = b.extend [⟨role, ⟨t, pts.take n⟩, id⟩] := by
  simp [InsertNextCell, InsertNextId, InsertNextValue, extend]

theorem insert_id_cell_value (b : CellBuffers) (n : Nat) (pts : List Nat) (t : Nat) (id : Int)
    (role : Role) :
    ((b.InsertNextId t).InsertNextCell n pts).InsertNextValue id role
      = b.extend [⟨role, ⟨t, pts.take n⟩, id⟩] := by
  simp [InsertNextCell, InsertNextId, InsertNextValue, extend]

theorem insert_cell_value_id (b : CellBuffers) (n : Nat) (pts : List Nat) (t : Nat) (id : Int)
    (role : Role) :
    ((b.InsertNextCell n pts).InsertNextValue id role).InsertNextId t
      = b.extend [⟨role, ⟨t, pts.take n⟩, id⟩] := by
  simp [InsertNextCell, InsertNextId, InsertNextValue, extend]

theorem foldl_extend {α : Type} (g : α → List Emitted) (l : List α) (b : CellBuffers) :
    l.foldl (fun b a => b.extend (g a)) b = b.extend (l.flatMap g) := by
  induction l generalizing b with
  | nil => simp [extend_nil]
  | cons a rest ih => rw [List.foldl_cons, ih, extend_extend, List.flatMap_cons]

end CellBuffers

section Steps

variable {K : Type} [LinearOrderedField K]

theorem surfaceCellStep_eq (input : vtkUnstructuredGrid K) (offset : Nat) (entityId : Int)
    (role : Role) (i : Nat) (b : CellBuffers)
    (h : surfaceSwitch (input.GetCellType i) (input.GetCellPoints i) offset ≠ none) :
    surfaceCellStep input offset entityId role i b
      = some (b.extend (surfaceEmission input offset entityId role i)) := by
  unfold surfaceCellStep surfaceEmission
  cases hs : surfaceSwitch (input.GetCellType i) (input.GetCellPoints i) offset with
  | none => exact absurd hs h
  | some p =>
    obtain ⟨t, sp⟩ := p
    simp only [hs, CellBuffers.insert_id_cell_value]

theorem linearSidewalls_eq (self : vtkvmtkBoundaryLayerGenerator K)
    (input : vtkUnstructuredGrid K) (i : Nat) (pts prismPts : List Nat) (b : CellBuffers) :
    linearSidewalls self input i pts prismPts b
      = b.extend (linearSidewallEmissions self input i pts prismPts) := by
  unfold linearSidewalls linearSidewallEmissions
  rw [← CellBuffers.foldl_extend]
  dsimp only
  congr 1
  funext b j
  by_cases h : (input.GetCellNeighbors i [pts.getD j 0, pts.getD ((j + 1) % pts.length) 0]).length > 0
  · simp only [h, if_true, CellBuffers.extend_nil]
  · simp only [h, if_false, CellBuffers.insert_cell_id_value]
    rfl

theorem quadraticSidewalls_eq (self : vtkvmtkBoundaryLayerGenerator K)
    (input : vtkUnstructuredGrid K) (i : Nat) (pts prismPts : List Nat) (b : CellBuffers) :
    quadraticSidewalls self input i pts prismPts b
      = b.extend (quadraticSidewallEmissions self input i pts prismPts) := by
  unfold quadraticSidewalls quadraticSidewallEmissions
  rw [← CellBuffers.foldl_extend]
  dsimp only
  congr 1
  funext b j
  by_cases h : (input.GetCellNeighbors i [pts.getD j 0, pts.getD ((j + 1) % pts.length) 0]).length > 0
  · simp only [h, if_true, CellBuffers.extend_nil]
  · simp only [h, if_false, CellBuffers.insert_cell_id_value]
    rfl

theorem linearPrismPts_take (pts : List Nat) (k L : Nat) :
    (linearPrismPts pts k L).take (pts.length * 2) = linearPrismPts pts k L := by
  apply List.take_of_length_le
  simp [linearPrismPts]; omega

theorem volumeCellStep_eq (self : vtkvmtkBoundaryLayerGenerator K)
    (input : vtkUnstructuredGrid K) (L k i : Nat) (b : CellBuffers)
    (h : input.GetCellType i = VTK_TRIANGLE ∨ input.GetCellType i = VTK_QUAD
      ∨ input.GetCellType i = VTK_QUADRATIC_TRIANGLE) :
    volumeCellStep self input L k i b = some (b.extend (volumeEmissions self input L k i)) := by
  unfold volumeCellStep volumeEmissions
  dsimp only
  by_cases hlin : input.GetCellType i = VTK_TRIANGLE ∨ input.GetCellType i = VTK_QUAD
  · rw [if_pos hlin, if_pos hlin]
    congr 1
    have hv : ∀ t, (((b.InsertNextCell ((input.GetCellPoints i).length * 2)
          (List.map (fun p => p + k * L) (input.GetCellPoints i)
            ++ List.map (fun p => p + (k + 1) * L) (input.GetCellPoints i))).InsertNextValue
          self.VolumeCellEntityId Role.volume).InsertNextId t)
        = b.extend [⟨Role.volume, ⟨t, linearPrismPts (input.GetCellPoints i) k L⟩,
            self.VolumeCellEntityId⟩] := by
      intro t
      rw [CellBuffers.insert_cell_value_id]
      have := linearPrismPts_take (input.GetCellPoints i) k L
      unfold linearPrismPts at this ⊢
      rw [this]
    have hq : input.GetCellType i ≠ VTK_TRIANGLE → input.GetCellType i = VTK_QUAD := by
      intro hne; rcases hlin with h1 | h1
      · exact absurd h1 hne
      · exact h1
    by_cases ht : input.GetCellType i = VTK_TRIANGLE
    · simp only [ht, if_true, hv]
      by_cases hs : self.IncludeSidewallCells = true
      · simp only [hs, if_true, linearSidewalls_eq, CellBuffers.extend_extend]
        rfl
      · simp only [hs, CellBuffers.extend_extend]
        rfl
    · simp only [ht, if_false, if_pos (hq ht), hv]
      by_cases hs : self.IncludeSidewallCells = true
      · simp only [hs, if_true, linearSidewalls_eq, CellBuffers.extend_extend]
        rfl
      · simp only [hs, CellBuffers.extend_extend]
        rfl
  · have hquad : input.GetCellType i = VTK_QUADRATIC_TRIANGLE := by
      rcases h with h1 | h1 | h1
      · exact absurd (Or.inl h1) hlin
      · exact absurd (Or.inr h1) hlin
      · exact h1
    rw [if_neg hlin, if_neg hlin, if_pos hquad, if_pos hquad]
    congr 1
    by_cases hs : self.IncludeSidewallCells = true
    · simp only [hs, if_true, quadraticSidewalls_eq, CellBuffers.insert_id_cell_value,
        CellBuffers.extend_extend]
      rfl
    · simp only [hs, CellBuffers.insert_id_cell_value, CellBuffers.extend_extend]
      rfl

theorem forEach_extend (body : Nat → CellBuffers → Option CellBuffers)
    (g : Nat → List Emitted) (l : List Nat)
    (h : ∀ i ∈ l, ∀ b, body i b = some (b.extend (g i))) :
    ∀ b, forEach body l b = some (b.extend (l.flatMap g)) := by
  induction l with
  | nil => intro b; simp [forEach, CellBuffers.extend_nil]
  | cons a rest ih =>
    intro b
    simp only [forEach, h a (List.mem_cons_self _ _) b]
    rw [ih (fun i hi => h i (List.mem_cons_of_mem _ hi)), CellBuffers.extend_extend,
      List.flatMap_cons]

theorem forEach_pair {P : Type} (body : Nat → P × CellBuffers → Option (P × CellBuffers))
    (f : Nat → P → P) (g : Nat → List Emitted) (l : List Nat)
    (h : ∀ k ∈ l, ∀ s, body k s = some (f k s.1, s.2.extend (g k))) :
    ∀ s, forEach body l s
      = some (l.foldl (fun p k => f k p) s.1, s.2.extend (l.flatMap g)) := by
  induction l with
  | nil => intro s; simp [forEach, CellBuffers.extend_nil]
  | cons a rest ih =>
    intro s
    simp only [forEach, h a (List.mem_cons_self _ _) s]
    rw [ih (fun i hi => h i (List.mem_cons_of_mem _ hi)), CellBuffers.extend_extend,
      List.flatMap_cons, List.foldl_cons]

theorem GetCellType_of_lt (input : vtkUnstructuredGrid K) (i : Nat) (hi : i < input.Cells.length) :
    input.GetCellType i = (input.Cells[i]).cellType := by
  simp [vtkUnstructuredGrid.GetCellType, List.getElem?_eq_getElem hi]

theorem GetCellPoints_of_lt (input : vtkUnstructuredGrid K) (i : Nat) (hi : i < input.Cells.length) :
    input.GetCellPoints i = (input.Cells[i]).pts := by
  simp [vtkUnstructuredGrid.GetCellPoints, List.getElem?_eq_getElem hi]

theorem cellAt_of_lt (input : vtkUnstructuredGrid K) (i : Nat) (hi : i < input.Cells.length) :
    cellAt input i = input.Cells[i] := by
  simp [cellAt, GetCellType_of_lt input i hi, GetCellPoints_of_lt input i hi]

theorem map_cellAt (input : vtkUnstructuredGrid K) :
    (List.range input.Cells.length).map (cellAt input) = input.Cells := by
  apply List.ext_getElem
  · simp
  · intro i h₁ h₂
    simp [cellAt_of_lt input i h₂]

theorem supported_cellType (input : vtkUnstructuredGrid K) (hs : Supported input) (i : Nat)
    (hi : i < input.Cells.length) :
    input.GetCellType i = VTK_TRIANGLE ∨ input.GetCellType i = VTK_QUAD
      ∨ input.GetCellType i = VTK_QUADRATIC_TRIANGLE := by
  rw [GetCellType_of_lt input i hi]
  exact hs _ (List.getElem_mem _)

theorem surfaceSwitch_ne_none (cellType : Nat) (pts : List Nat) (offset : Nat)
    (h : cellType = VTK_TRIANGLE ∨ cellType = VTK_QUAD ∨ cellType = VTK_QUADRATIC_TRIANGLE) :
    surfaceSwitch cellType pts offset ≠ none := by
  unfold surfaceSwitch
  rcases h with h | h | h <;> simp [h, VTK_TRIANGLE, VTK_QUAD, VTK_QUADRATIC_TRIANGLE]

theorem surfaceSwitch_eq_none (cellType : Nat) (pts : List Nat) (offset : Nat)
    (h : ¬ (cellType = VTK_TRIANGLE ∨ cellType = VTK_QUAD ∨ cellType = VTK_QUADRATIC_TRIANGLE)) :
    surfaceSwitch cellType pts offset = none := by
  unfold surfaceSwitch
  push_neg at h
  simp [h.1, h.2.1, h.2.2]

theorem subLayerStep_eq (sqrt : K → K) (self : vtkvmtkBoundaryLayerGenerator K)
    (input : vtkUnstructuredGrid K) (hs : Supported input) (k : Nat)
    (s : List (Vec3 K) × CellBuffers) :
    subLayerStep sqrt self input (layerBlockSize input)
        (decide (input.GetCellType 0 = VTK_QUADRATIC_TRIANGLE)) k s
      = some (copyWarpedPoints sqrt self input k s.1,
          s.2.extend (layerEmissions self input (layerBlockSize input) k)) := by
  unfold subLayerStep
  dsimp only
  rw [forEach_extend _ (volumeEmissions self input (layerBlockSize input) k)]
  · dsimp only
    unfold layerEmissions
    by_cases hc : self.IncludeSurfaceCells = true
    · by_cases hk : k = self.NumberOfSubLayers - 1
      · rw [if_pos hc, if_pos hk, if_pos ⟨hc, hk⟩,
          forEach_extend _ (surfaceEmission input (k * layerBlockSize input + layerBlockSize input)
            self.OuterSurfaceCellEntityId Role.outerSurface)]
        · dsimp only
          rw [CellBuffers.extend_extend]
          rfl
        · intro i hi b
          apply surfaceCellStep_eq
          apply surfaceSwitch_ne_none
          exact supported_cellType input hs i (List.mem_range.mp hi)
      · rw [if_pos hc, if_neg hk, if_neg (fun h => hk h.2), List.append_nil]
        rfl
    · rw [if_neg hc, if_neg (fun h => hc h.1), List.append_nil]
      rfl
  · intro i hi b
    apply volumeCellStep_eq
    exact supported_cellType input hs i (List.mem_range.mp hi)

theorem buildLayers_eq (sqrt : K → K) (self : vtkvmtkBoundaryLayerGenerator K)
    (input : vtkUnstructuredGrid K) (hs : Supported input) :
    buildLayers sqrt self input
      = some (extrudedPoints sqrt self input, CellBuffers.ofEmitted (allEmissions self input)) := by
  unfold buildLayers
  dsimp only
  have hL : (if decide (input.GetCellType 0 = VTK_QUADRATIC_TRIANGLE) = true
      then 2 * input.Points.length else input.Points.length) = layerBlockSize input := by
    unfold layerBlockSize
    by_cases h : input.GetCellType 0 = VTK_QUADRATIC_TRIANGLE <;> simp [h]
  rw [hL]
  have hcap : (if self.IncludeSurfaceCells = true then
        forEach (surfaceCellStep input 0 self.InnerSurfaceCellEntityId Role.innerSurface)
          (List.range input.GetNumberOfCells) (⟨[], [], [], []⟩ : CellBuffers)
      else some ⟨[], [], [], []⟩)
      = some (CellBuffers.ofEmitted (if self.IncludeSurfaceCells = true then
          (List.range input.GetNumberOfCells).flatMap
            (surfaceEmission input 0 self.InnerSurfaceCellEntityId Role.innerSurface)
        else [])) := by
    by_cases hc : self.IncludeSurfaceCells = true
    · rw [if_pos hc, if_pos hc, forEach_extend _
        (surfaceEmission input 0 self.InnerSurfaceCellEntityId Role.innerSurface),
        CellBuffers.empty_extend]
      intro i hi b
      apply surfaceCellStep_eq
      apply surfaceSwitch_ne_none
      exact supported_cellType input hs i (List.mem_range.mp hi)
    · rw [if_neg hc, if_neg hc]; rfl
  rw [hcap]
  dsimp only
  rw [forEach_pair _ (fun k pts => copyWarpedPoints sqrt self input k pts)
    (layerEmissions self input (layerBlockSize input))]
  · dsimp only
    congr 1
    unfold allEmissions extrudedPoints
    congr 1
    simp [CellBuffers.extend, CellBuffers.ofEmitted]
  · intro k _ s
    exact subLayerStep_eq sqrt self input hs k s

end Steps

/-! ## The checks of `RequestData` -/

section Checks

variable {K : Type} [LinearOrderedField K]

theorem checkArrays_error (self : vtkvmtkBoundaryLayerGenerator K)
    (input : vtkUnstructuredGrid K) (message : String)
    (h : (checkArrays self input).2 = some message) :
    message ∈ configurationErrors ∧ ConfigurationMissing self input := by
  unfold checkArrays at h
  unfold ConfigurationMissing configurationErrors
  cases hw : self.WarpVectorsArrayName with
  | none => simp [hw] at h; subst h; simp
  | some warpName =>
    cases he : self.CellEntityIdsArrayName with
    | none => simp [hw, he] at h; subst h; simp
    | some entityName =>
      cases ha : GetArray input.PointData warpName with
      | none => simp [hw, he, ha] at h; subst h; simp [ha]
      | some warpArray =>
        simp only [hw, he, ha] at h
        by_cases hm : ((!self.UseWarpVectorMagnitudeAsThickness) && (!self.ConstantThickness)) = true
        · rw [if_pos hm] at h
          simp only [Bool.and_eq_true, Bool.not_eq_true'] at hm
          cases ht : self.LayerThicknessArrayName with
          | none => simp [ht] at h; subst h; simp [hm.1, hm.2]
          | some thicknessName =>
            cases hta : GetArray input.PointData thicknessName with
            | none => simp [ht, hta] at h; subst h; simp [hm.1, hm.2, hta]
            | some thicknessArray => simp [ht, hta] at h
        · rw [if_neg hm] at h
          cases h

theorem checkArrays_ok (self s : vtkvmtkBoundaryLayerGenerator K)
    (input : vtkUnstructuredGrid K) (h : checkArrays self input = (s, none)) :
    ¬ ConfigurationMissing self input
    ∧ s = { self with WarpVectorsArray := s.WarpVectorsArray,
                      LayerThicknessArray := s.LayerThicknessArray }
    ∧ (∃ name, self.WarpVectorsArrayName = some name
        ∧ s.WarpVectorsArray = GetArray input.PointData name)
    ∧ (self.UseWarpVectorMagnitudeAsThickness = false → self.ConstantThickness = false →
        ∃ name, self.LayerThicknessArrayName = some name
          ∧ s.LayerThicknessArray = GetArray input.PointData name) := by
  unfold checkArrays at h
  unfold ConfigurationMissing
  cases hw : self.WarpVectorsArrayName with
  | none => simp [hw] at h
  | some warpName =>
    cases he : self.CellEntityIdsArrayName with
    | none => simp [hw, he] at h
    | some entityName =>
      cases ha : GetArray input.PointData warpName with
      | none => simp [hw, he, ha] at h
      | some warpArray =>
        simp only [hw, he, ha] at h
        by_cases hm : ((!self.UseWarpVectorMagnitudeAsThickness) && (!self.ConstantThickness)) = true
        · rw [if_pos hm] at h
          simp only [Bool.and_eq_true, Bool.not_eq_true'] at hm
          cases ht : self.LayerThicknessArrayName with
          | none => simp [ht] at h
          | some thicknessName =>
            cases hta : GetArray input.PointData thicknessName with
            | none => simp [ht, hta] at h
            | some thicknessArray =>
              simp only [ht, hta] at h
              cases h
              simp [ha, hta, hm.1, hm.2, hw]
        · rw [if_neg hm] at h
          cases h
          simp only [Bool.and_eq_true, Bool.not_eq_true', not_and, Bool.not_eq_false] at hm
          refine ⟨?_, rfl, ⟨warpName, rfl, ha.symm⟩, ?_⟩
          · simp [ha]
            intro h1 h2
            rw [hm h1] at h2
            cases h2
          · intro h1 h2
            rw [hm h1] at h2
            cases h2

theorem checkArrays_of_not_missing (self : vtkvmtkBoundaryLayerGenerator K)
    (input : vtkUnstructuredGrid K) (h : ¬ ConfigurationMissing self input) :
    ∃ s, checkArrays self input = (s, none) := by
  cases hc : checkArrays self input with
  | mk s e =>
    cases e with
    | some message =>
      exact absurd (checkArrays_error self input message (by rw [hc])).2 h
    | none => exact ⟨s, rfl⟩

theorem checkArrays_innerSurface (self : vtkvmtkBoundaryLayerGenerator K)
    (input : vtkUnstructuredGrid K) :
    (checkArrays self input).1.InnerSurface = self.InnerSurface := by
  unfold checkArrays
  dsimp only
  repeat' split
  all_goals rfl

theorem RequestData_configuration (sqrt : K → K) (self : vtkvmtkBoundaryLayerGenerator K)
    (input output : vtkUnstructuredGrid K) :
    ((∃ message ∈ configurationErrors, (RequestData sqrt self input output).error = some message)
        ↔ ConfigurationMissing self input)
    ∧ (ConfigurationMissing self input →
        (RequestData sqrt self input output).output = output
        ∧ (RequestData sqrt self input output).self.InnerSurface = self.InnerSurface
        ∧ (RequestData sqrt self input output).roles = []) := by
  have hcases : ∀ s e, checkArrays self input = (s, e) →
      (e = none → ¬ ConfigurationMissing self input) ∧
      (∀ m, e = some m → m ∈ configurationErrors ∧ ConfigurationMissing self input) := by
    intro s e h
    constructor
    · intro he; subst he; exact (checkArrays_ok self s input h).1
    · intro m he; subst he; exact checkArrays_error self input m (by rw [h])
  have hinner := checkArrays_innerSurface self input
  unfold RequestData
  cases hc : checkArrays self input with
  | mk s e =>
    rw [hc] at hinner
    cases e with
    | some m =>
      obtain ⟨hmem, hmiss⟩ := (hcases s (some m) hc).2 m rfl
      dsimp only
      exact ⟨⟨fun _ => hmiss, fun _ => ⟨m, hmem, rfl⟩⟩, fun _ => ⟨rfl, hinner, rfl⟩⟩
    | none =>
      have hnot := (hcases s none hc).1 rfl
      dsimp only
      refine ⟨⟨?_, fun h => absurd h hnot⟩, fun h => absurd h hnot⟩
      rintro ⟨m, hmem, hm⟩
      exfalso
      cases hb : buildLayers sqrt s input with
      | none =>
        rw [hb] at hm
        dsimp only at hm
        cases hm
        revert hmem
        decide
      | some p =>
        rw [hb] at hm
        cases hm

theorem RequestData_unsupported (sqrt : K → K) (self : vtkvmtkBoundaryLayerGenerator K)
    (input output : vtkUnstructuredGrid K)
    (hconf : ¬ ConfigurationMissing self input)
    (hN : 1 ≤ self.NumberOfSubLayers)
    (hcell : ∃ c ∈ input.Cells,
      ¬ (c.cellType = VTK_TRIANGLE ∨ c.cellType = VTK_QUAD ∨ c.cellType = VTK_QUADRATIC_TRIANGLE)) :
    (RequestData sqrt self input output).error = some unsupportedElementError
    ∧ (RequestData sqrt self input output).output = output
    ∧ (RequestData sqrt self input output).self.InnerSurface = self.InnerSurface
    ∧ (RequestData sqrt self input output).roles = [] := by
  obtain ⟨s, hs⟩ := checkArrays_of_not_missing self input hconf
  obtain ⟨_, hsame, _, _⟩ := checkArrays_ok self s input hs
  have hNs : s.NumberOfSubLayers = self.NumberOfSubLayers := by rw [hsame]
  have hIs : s.InnerSurface = self.InnerSurface := by rw [hsame]
  obtain ⟨c, hc, hbad⟩ := hcell
  obtain ⟨i, hi, hci⟩ := List.getElem_of_mem hc
  have htype : ¬ (input.GetCellType i = VTK_TRIANGLE ∨ input.GetCellType i = VTK_QUAD
      ∨ input.GetCellType i = VTK_QUADRATIC_TRIANGLE) := by
    rw [GetCellType_of_lt input i hi, hci]; exact hbad
  have hmem : i ∈ List.range input.GetNumberOfCells := List.mem_range.mpr hi
  have hbuild : buildLayers sqrt s input = none := by
    unfold buildLayers
    dsimp only
    by_cases hcap : s.IncludeSurfaceCells = true
    · rw [if_pos hcap, forEach_none _ _ i hmem]
      intro b
      unfold surfaceCellStep
      dsimp only
      rw [surfaceSwitch_eq_none _ _ _ htype]
    · rw [if_neg hcap]
      dsimp only
      apply forEach_none _ _ 0 (List.mem_range.mpr (by omega))
      intro st
      unfold subLayerStep
      dsimp only
      rw [forEach_none _ _ i hmem]
      intro b
      unfold volumeCellStep
      dsimp only
      push_neg at htype
      rw [if_neg (by rintro (h | h); exact htype.1 h; exact htype.2.1 h), if_neg htype.2.2]
  unfold RequestData
  rw [hs]
  dsimp only
  rw [hbuild]
  exact ⟨rfl, rfl, hIs, rfl⟩

end Checks

/-! ## The successful run -/

section Run

variable {K : Type} [LinearOrderedField K]

theorem getArray_addArray {α : Type} (data : List (String × α)) (name : String) (a : α) :
    GetArray (AddArray data name a) name = some a := by
  unfold GetArray AddArray
  induction data with
  | nil => simp [List.lookup]
  | cons e rest ih =>
    by_cases h : e.1 = name
    · simpa [List.filter_cons, h] using ih
    · have hne : (name == e.1) = false := by
        simp only [beq_eq_false_iff_ne, ne_eq]
        exact fun h' => h h'.symm
      simp only [List.filter_cons, h, ne_eq, not_false_eq_true, decide_True, if_true,
        List.cons_append]
      rw [List.lookup_cons, hne]
      simpa using ih

theorem zip_emitted (es : List Emitted) :
    List.zipWith (fun role (ct : Cell × Int) => Emitted.mk role ct.1 ct.2)
      (es.map (fun e => e.role))
      (List.zip (SetCells (es.map (fun e => e.cell.cellType)) (es.map (fun e => e.cell.pts)))
        (es.map (fun e => e.entityId))) = es := by
  induction es with
  | nil => rfl
  | cons e rest ih =>
    simp only [SetCells, List.map_cons, List.zipWith_cons_cons, List.zip_cons_cons] at ih ⊢
    rw [ih]

theorem setCells_emitted (es : List Emitted) :
    SetCells (es.map (fun e => e.cell.cellType)) (es.map (fun e => e.cell.pts))
      = es.map (fun e => e.cell) := by
  induction es with
  | nil => rfl
  | cons e rest ih =>
    simp only [SetCells, List.map_cons, List.zipWith_cons_cons] at ih ⊢
    rw [ih]

theorem length_relaxPoint (sqrt : K → K) (input : vtkUnstructuredGrid K)
    (pts : List (Vec3 K)) (i j : Nat) : (relaxPoint sqrt input pts i j).length = pts.length := by
  unfold relaxPoint
  dsimp only
  split
  · rfl
  · simp [SetPoint]

theorem length_unwrapPass (sqrt : K → K) (self : vtkvmtkBoundaryLayerGenerator K)
    (input : vtkUnstructuredGrid K) (pts : List (Vec3 K)) :
    (unwrapPass sqrt self input pts).length = pts.length := by
  unfold unwrapPass
  apply foldl_invariant (fun p => p.length = pts.length) _ _ _ pts rfl
  intro b i _ hb
  apply foldl_invariant (fun p => p.length = pts.length) _ _ _ b hb
  intro b' j _ hb'
  rw [length_relaxPoint]; exact hb'

theorem length_UnwrapSublayers (sqrt : K → K) (self : vtkvmtkBoundaryLayerGenerator K)
    (input : vtkUnstructuredGrid K) (pts : List (Vec3 K)) :
    (self.UnwrapSublayers sqrt input pts).length = pts.length := by
  unfold UnwrapSublayers
  apply foldl_invariant (fun p => p.length = pts.length) _ _ _ pts rfl
  intro b _ _ hb
  rw [length_unwrapPass]; exact hb

theorem length_copyWarpedPoints (sqrt : K → K) (self : vtkvmtkBoundaryLayerGenerator K)
    (input : vtkUnstructuredGrid K) (k : Nat) (pts : List (Vec3 K)) :
    (copyWarpedPoints sqrt self input k pts).length = pts.length := by
  unfold copyWarpedPoints
  apply foldl_invariant (fun p => p.length = pts.length) _ _ _ pts rfl
  intro b _ _ hb
  simp [SetPoint, hb]

theorem length_extrudedPoints (sqrt : K → K) (self : vtkvmtkBoundaryLayerGenerator K)
    (input : vtkUnstructuredGrid K) :
    (extrudedPoints sqrt self input).length
      = input.Points.length + layerBlockSize input * self.NumberOfSubLayers := by
  unfold extrudedPoints
  apply foldl_invariant (fun p : List (Vec3 K) => p.length
    = input.Points.length + layerBlockSize input * self.NumberOfSubLayers) _ _ _
  · apply foldl_invariant (fun p : List (Vec3 K) => p.length
      = input.Points.length + layerBlockSize input * self.NumberOfSubLayers) _ _ _
    · simp [SetNumberOfPoints]
    · intro b _ _ hb
      simp [SetPoint, hb]
  · intro b k _ hb
    rw [length_copyWarpedPoints]; exact hb

theorem allEmissions_congr (self s : vtkvmtkBoundaryLayerGenerator K)
    (input : vtkUnstructuredGrid K)
    (h : s = { self with WarpVectorsArray := s.WarpVectorsArray,
                         LayerThicknessArray := s.LayerThicknessArray }) :
    allEmissions s input = allEmissions self input := by
  rw [h]; rfl

/-- The run of `RequestData` on a supported input with a complete configuration. -/
theorem RequestData_ok (sqrt : K → K) (self : vtkvmtkBoundaryLayerGenerator K)
    (input output : vtkUnstructuredGrid K)
    (hconf : ¬ ConfigurationMissing self input) (hs : Supported input) :
    ∃ s, checkArrays self input = (s, none)
      ∧ (RequestData sqrt self input output).error = none
      ∧ (RequestData sqrt self input output).output.Points
          = s.UnwrapSublayers sqrt input (extrudedPoints sqrt s input)
      ∧ (RequestData sqrt self input output).emitted = allEmissions self input
      ∧ (RequestData sqrt self input output).self.InnerSurface
          = some { input with
              Points := (List.range input.Points.length).foldl
                (fun pts i => SetPoint pts i
                  (GetPoint (s.UnwrapSublayers sqrt input (extrudedPoints sqrt s input))
                    (i + input.Points.length * self.NumberOfSubLayers)))
                (SetNumberOfPoints input.Points.length)
              CellData := AddArray input.CellData (self.CellEntityIdsArrayName.getD "")
                (List.replicate input.GetNumberOfCells self.InnerSurfaceCellEntityId) }
      ∧ (RequestData sqrt self input output).output.Cells
          = (allEmissions self input).map (fun e => e.cell)
      ∧ (RequestData sqrt self input output).output.CellData
          = AddArray output.CellData (self.CellEntityIdsArrayName.getD "")
              ((allEmissions self input).map (fun e => e.entityId))
      ∧ (RequestData sqrt self input output).roles
          = (allEmissions self input).map (fun e => e.role)
      ∧ (RequestData sqrt self input output).output.PointData = output.PointData := by
  obtain ⟨s, hc⟩ := checkArrays_of_not_missing self input hconf
  obtain ⟨_, hsame, _, _⟩ := checkArrays_ok self s input hc
  have hN : s.NumberOfSubLayers = self.NumberOfSubLayers := by rw [hsame]
  have hname : s.CellEntityIdsArrayName = self.CellEntityIdsArrayName := by rw [hsame]
  have hid : s.InnerSurfaceCellEntityId = self.InnerSurfaceCellEntityId := by rw [hsame]
  refine ⟨s, hc, ?_, ?_, ?_, ?_, ?_, ?_, ?_, ?_⟩
  all_goals unfold RequestData
  all_goals rw [hc]
  all_goals dsimp only
  all_goals rw [buildLayers_eq sqrt s input hs]
  all_goals dsimp only
  · unfold Result.emitted
    dsimp only
    rw [getArray_addArray]
    simp only [Option.getD_some, CellBuffers.ofEmitted]
    rw [zip_emitted, allEmissions_congr self s input hsame]
  · rw [hN, hname, hid]
  · rw [allEmissions_congr self s input hsame]
    exact setCells_emitted _
  · rw [allEmissions_congr self s input hsame, hname]
    rfl
  · rw [allEmissions_congr self s input hsame]
    rfl

theorem RequestData_success (sqrt : K → K) (self : vtkvmtkBoundaryLayerGenerator K)
    (input output : vtkUnstructuredGrid K) (hN : 1 ≤ self.NumberOfSubLayers)
    (hok : (RequestData sqrt self input output).error = none) :
    ¬ ConfigurationMissing self input ∧ Supported input := by
  have hconf : ¬ ConfigurationMissing self input := by
    intro hm
    obtain ⟨m, _, hm'⟩ := (RequestData_configuration sqrt self input output).1.mpr hm
    rw [hok] at hm'
    cases hm'
  refine ⟨hconf, ?_⟩
  intro c hc
  by_contra hbad
  have := (RequestData_unsupported sqrt self input output hconf hN ⟨c, hc, hbad⟩).1
  rw [hok] at this
  cases this

theorem RequestData_points_length (sqrt : K → K) (self : vtkvmtkBoundaryLayerGenerator K)
    (input output : vtkUnstructuredGrid K)
    (hconf : ¬ ConfigurationMissing self input) (hs : Supported input) :
    (RequestData sqrt self input output).output.Points.length
      = input.Points.length + layerBlockSize input * self.NumberOfSubLayers := by
  obtain ⟨s, hc, _, hpts, _, _⟩ := RequestData_ok sqrt self input output hconf hs
  obtain ⟨_, hsame, _, _⟩ := checkArrays_ok self s input hc
  have hN : s.NumberOfSubLayers = self.NumberOfSubLayers := by rw [hsame]
  rw [hpts, length_UnwrapSublayers, length_extrudedPoints, hN]

end Run

/-! ## The emitted cells by emitting place -/

section Roles

variable {K : Type} [LinearOrderedField K]

theorem linear_cellType (input : vtkUnstructuredGrid K) (hl : Linear input) (i : Nat)
    (hi : i < input.Cells.length) :
    input.GetCellType i = VTK_TRIANGLE ∨ input.GetCellType i = VTK_QUAD := by
  rw [GetCellType_of_lt input i hi]
  exact hl _ (List.getElem_mem _)

theorem Linear.supported (input : vtkUnstructuredGrid K) (hl : Linear input) : Supported input := by
  intro c hc
  rcases hl c hc with h | h
  · exact Or.inl h
  · exact Or.inr (Or.inl h)

theorem role_linearSidewallEmissions (self : vtkvmtkBoundaryLayerGenerator K)
    (input : vtkUnstructuredGrid K) (i : Nat) (pts prismPts : List Nat) :
    ∀ e ∈ linearSidewallEmissions self input i pts prismPts, e.role = Role.sidewall := by
  intro e he
  unfold linearSidewallEmissions at he
  rw [List.mem_flatMap] at he
  obtain ⟨j, _, hj⟩ := he
  split at hj
  · cases hj
  · rw [List.mem_singleton] at hj
    rw [hj]

theorem role_quadraticSidewallEmissions (self : vtkvmtkBoundaryLayerGenerator K)
    (input : vtkUnstructuredGrid K) (i : Nat) (pts prismPts : List Nat) :
    ∀ e ∈ quadraticSidewallEmissions self input i pts prismPts, e.role = Role.sidewall := by
  intro e he
  unfold quadraticSidewallEmissions at he
  rw [List.mem_flatMap] at he
  obtain ⟨j, _, hj⟩ := he
  split at hj
  · cases hj
  · rw [List.mem_singleton] at hj
    rw [hj]

theorem role_surfaceEmission (input : vtkUnstructuredGrid K) (offset : Nat) (entityId : Int)
    (role : Role) (i : Nat) :
    ∀ e ∈ surfaceEmission input offset entityId role i, e.role = role := by
  intro e he
  unfold surfaceEmission at he
  split at he
  · cases he
  · rw [List.mem_singleton] at he
    rw [he]

theorem role_volumeEmissions (self : vtkvmtkBoundaryLayerGenerator K)
    (input : vtkUnstructuredGrid K) (L k i : Nat) :
    ∀ e ∈ volumeEmissions self input L k i, e.role = Role.volume ∨ e.role = Role.sidewall := by
  intro e he
  unfold volumeEmissions at he
  dsimp only at he
  split at he
  · rcases List.mem_cons.mp he with h | h
    · left; rw [h]
    · right
      split at h
      · exact role_linearSidewallEmissions _ _ _ _ _ e h
      · cases h
  · split at he
    · rcases List.mem_cons.mp he with h | h
      · left; rw [h]
      · right
        split at h
        · exact role_quadraticSidewallEmissions _ _ _ _ _ e h
        · cases h
    · cases he

theorem filter_role_eq_nil (es : List Emitted) (role : Role)
    (h : ∀ e ∈ es, e.role ≠ role) : es.filter (fun e => decide (e.role = role)) = [] := by
  rw [List.filter_eq_nil_iff]
  intro e he
  simpa using h e he

theorem filter_role_eq_self (es : List Emitted) (role : Role)
    (h : ∀ e ∈ es, e.role = role) : es.filter (fun e => decide (e.role = role)) = es := by
  rw [List.filter_eq_self]
  intro e he
  simpa using h e he

theorem filter_role_surfaceEmissions (input : vtkUnstructuredGrid K) (offset : Nat)
    (entityId : Int) (role role' : Role) (l : List Nat) :
    (l.flatMap (surfaceEmission input offset entityId role)).filter
        (fun e => decide (e.role = role'))
      = if role = role' then l.flatMap (surfaceEmission input offset entityId role) else [] := by
  by_cases h : role = role'
  · rw [if_pos h]
    apply filter_role_eq_self
    intro e he
    obtain ⟨i, _, hi⟩ := List.mem_flatMap.mp he
    rw [role_surfaceEmission _ _ _ _ _ e hi, h]
  · rw [if_neg h]
    apply filter_role_eq_nil
    intro e he
    obtain ⟨i, _, hi⟩ := List.mem_flatMap.mp he
    rw [role_surfaceEmission _ _ _ _ _ e hi]
    exact h

/-- The volume cells among the cells of input cell `i` for transition `k`. -/
theorem filter_volume_volumeEmissions (self : vtkvmtkBoundaryLayerGenerator K)
    (input : vtkUnstructuredGrid K) (hl : Linear input) (L k i : Nat)
    (hi : i < input.Cells.length) :
    (volumeEmissions self input L k i).filter (fun e => decide (e.role = Role.volume))
      = [linearVolumeCell self L k (cellAt input i)] := by
  unfold volumeEmissions
  dsimp only
  rw [if_pos (linear_cellType input hl i hi), List.filter_cons]
  simp only [decide_True, if_true]
  congr 1
  apply filter_role_eq_nil
  intro e he
  split at he
  · rw [role_linearSidewallEmissions _ _ _ _ _ e he]; decide
  · cases he

theorem filter_volume_layerEmissions (self : vtkvmtkBoundaryLayerGenerator K)
    (input : vtkUnstructuredGrid K) (hl : Linear input) (L k : Nat) :
    (layerEmissions self input L k).filter (fun e => decide (e.role = Role.volume))
      = input.Cells.map (linearVolumeCell self L k) := by
  unfold layerEmissions vtkUnstructuredGrid.GetNumberOfCells
  rw [List.filter_append, List.filter_flatMap]
  have hcap : (if self.IncludeSurfaceCells = true ∧ k = self.NumberOfSubLayers - 1 then
        (List.range input.Cells.length).flatMap
          (surfaceEmission input (k * L + L) self.OuterSurfaceCellEntityId Role.outerSurface)
      else []).filter (fun e => decide (e.role = Role.volume)) = [] := by
    split
    · rw [filter_role_surfaceEmissions, if_neg (by decide)]
    · rfl
  rw [hcap, List.append_nil]
  rw [List.flatMap_congr (fun i hi =>
    filter_volume_volumeEmissions self input hl L k i (List.mem_range.mp hi))]
  rw [← List.map_eq_flatMap]
  conv_rhs => rw [← map_cellAt input, List.map_map]
  rfl

theorem filter_volume_allEmissions (self : vtkvmtkBoundaryLayerGenerator K)
    (input : vtkUnstructuredGrid K) (hl : Linear input) :
    (allEmissions self input).filter (fun e => decide (e.role = Role.volume))
      = (List.range self.NumberOfSubLayers).flatMap
          (fun k => input.Cells.map (linearVolumeCell self (layerBlockSize input) k)) := by
  unfold allEmissions
  rw [List.filter_append, List.filter_flatMap]
  have hcap : (if self.IncludeSurfaceCells = true then
        (List.range input.GetNumberOfCells).flatMap
          (surfaceEmission input 0 self.InnerSurfaceCellEntityId Role.innerSurface)
      else []).filter (fun e => decide (e.role = Role.volume)) = [] := by
    split
    · rw [filter_role_surfaceEmissions, if_neg (by decide)]
    · rfl
  rw [hcap, List.nil_append]
  exact List.flatMap_congr (fun k _ => filter_volume_layerEmissions self input hl _ k)

theorem length_flatMap_ite {α β : Type} (l : List α) (p : α → Prop) [DecidablePred p]
    (f : α → β) :
    (l.flatMap (fun j => if p j then [] else [f j])).length
      = (l.filter (fun j => !decide (p j))).length := by
  induction l with
  | nil => rfl
  | cons a rest ih =>
    rw [List.flatMap_cons, List.length_append, ih, List.filter_cons]
    by_cases h : p a <;> simp [h]
    omega

theorem getD_cell_pts (input : vtkUnstructuredGrid K) (c : Nat) (hc : c < input.Cells.length) :
    (input.Cells.getD c ⟨VTK_EMPTY_CELL, []⟩).pts = input.GetCellPoints c := by
  rw [GetCellPoints_of_lt input c hc]
  simp [List.getD_eq_getElem?_getD, List.getElem?_eq_getElem hc]

theorem neighbors_pos_iff (input : vtkUnstructuredGrid K) (i a b : Nat) :
    (input.GetCellNeighbors i [a, b]).length > 0
      ↔ ∃ c, c < input.Cells.length ∧ c ≠ i
          ∧ a ∈ input.GetCellPoints c ∧ b ∈ input.GetCellPoints c := by
  unfold vtkUnstructuredGrid.GetCellNeighbors vtkUnstructuredGrid.GetNumberOfCells
  rw [gt_iff_lt, List.length_pos, ne_eq, List.filter_eq_nil_iff]
  constructor
  · intro h
    by_contra hne
    apply h
    intro c hc hcond
    apply hne
    simp only [Bool.and_eq_true, decide_eq_true_eq, List.all_cons, List.all_nil,
      Bool.and_true] at hcond
    exact ⟨c, List.mem_range.mp hc, hcond.1, hcond.2.1, hcond.2.2⟩
  · rintro ⟨c, hc, hci, ha, hb⟩ h
    apply h c (List.mem_range.mpr hc)
    simp [hci, ha, hb]

theorem isBoundaryEdge_iff (input : vtkUnstructuredGrid K) (i a b : Nat) :
    isBoundaryEdge input.Cells i (a, b) = true
      ↔ ∀ c, c < input.Cells.length → c = i
          ∨ ¬ (a ∈ input.GetCellPoints c ∧ b ∈ input.GetCellPoints c) := by
  unfold isBoundaryEdge
  rw [List.all_eq_true]
  constructor
  · intro h c hc
    have := h c (List.mem_range.mpr hc)
    simp only [Bool.or_eq_true, decide_eq_true_eq, Bool.not_eq_true', Cell.shares,
      Bool.and_eq_false_iff, decide_eq_false_iff_not] at this
    rw [getD_cell_pts input c hc] at this
    rcases this with h1 | h1
    · exact Or.inl h1
    · right
      rintro ⟨ha, hb⟩
      rcases h1 with h2 | h2
      · exact h2 ha
      · exact h2 hb
  · intro h c hc
    have hc' := List.mem_range.mp hc
    simp only [Bool.or_eq_true, decide_eq_true_eq, Bool.not_eq_true', Cell.shares,
      Bool.and_eq_false_iff, decide_eq_false_iff_not]
    rw [getD_cell_pts input c hc']
    rcases h c hc' with h1 | h1
    · exact Or.inl h1
    · right
      by_cases ha : a ∈ input.GetCellPoints c
      · exact Or.inr (fun hb => h1 ⟨ha, hb⟩)
      · exact Or.inl ha

theorem isBoundaryEdge_eq (input : vtkUnstructuredGrid K) (i a b : Nat) :
    isBoundaryEdge input.Cells i (a, b)
      = !decide ((input.GetCellNeighbors i [a, b]).length > 0) := by
  rw [Bool.eq_iff_iff, isBoundaryEdge_iff, Bool.not_eq_true', decide_eq_false_iff_not,
    neighbors_pos_iff]
  constructor
  · rintro h ⟨c, hc, hci, ha, hb⟩
    rcases h c hc with h1 | h1
    · exact hci h1
    · exact h1 ⟨ha, hb⟩
  · intro h c hc
    by_cases hci : c = i
    · exact Or.inl hci
    · exact Or.inr (fun hab => h ⟨c, hc, hci, hab.1, hab.2⟩)

/-- The number of sidewall cells of input cell `i` for one transition is the number of
its edges shared by no other cell. -/
theorem length_linearSidewallEmissions (self : vtkvmtkBoundaryLayerGenerator K)
    (input : vtkUnstructuredGrid K) (i : Nat) (prismPts : List Nat) :
    (linearSidewallEmissions self input i (input.GetCellPoints i) prismPts).length
      = ((cellAt input i).edges.filter (isBoundaryEdge input.Cells i)).length := by
  unfold linearSidewallEmissions Cell.edges
  rw [length_flatMap_ite, List.filter_map, List.length_map]
  congr 1
  apply List.filter_congr
  intro j _
  simp only [Function.comp, cellAt]
  rw [isBoundaryEdge_eq]

theorem filter_sidewall_volumeEmissions (self : vtkvmtkBoundaryLayerGenerator K)
    (input : vtkUnstructuredGrid K) (hl : Linear input) (hside : self.IncludeSidewallCells = true)
    (L k i : Nat) (hi : i < input.Cells.length) :
    (volumeEmissions self input L k i).filter (fun e => decide (e.role = Role.sidewall))
      = linearSidewallEmissions self input i (input.GetCellPoints i)
          (linearPrismPts (input.GetCellPoints i) k L) := by
  unfold volumeEmissions
  dsimp only
  rw [if_pos (linear_cellType input hl i hi), List.filter_cons, if_pos hside]
  simp only [show decide (Role.volume = Role.sidewall) = false from rfl, Bool.false_eq_true,
    if_false]
  apply filter_role_eq_self
  exact role_linearSidewallEmissions _ _ _ _ _

theorem length_filter_sidewall_layerEmissions (self : vtkvmtkBoundaryLayerGenerator K)
    (input : vtkUnstructuredGrid K) (hl : Linear input) (hside : self.IncludeSidewallCells = true)
    (L k : Nat) :
    ((layerEmissions self input L k).filter (fun e => decide (e.role = Role.sidewall))).length
      = boundaryEdgeCount input.Cells := by
  unfold layerEmissions vtkUnstructuredGrid.GetNumberOfCells
  rw [List.filter_append, List.filter_flatMap]
  have hcap : (if self.IncludeSurfaceCells = true ∧ k = self.NumberOfSubLayers - 1 then
        (List.range input.Cells.length).flatMap
          (surfaceEmission input (k * L + L) self.OuterSurfaceCellEntityId Role.outerSurface)
      else []).filter (fun e => decide (e.role = Role.sidewall)) = [] := by
    split
    · rw [filter_role_surfaceEmissions, if_neg (by decide)]
    · rfl
  rw [hcap, List.append_nil]
  rw [List.flatMap_congr (fun i hi =>
    filter_sidewall_volumeEmissions self input hl hside L k i (List.mem_range.mp hi))]
  rw [List.length_flatMap]
  unfold boundaryEdgeCount
  congr 1
  apply List.map_congr_left
  intro i hi
  simp only [Function.comp]
  rw [length_linearSidewallEmissions, cellAt_of_lt input i (List.mem_range.mp hi)]
  congr 3
  simp [List.getD_eq_getElem?_getD, List.getElem?_eq_getElem (List.mem_range.mp hi)]

theorem length_filter_sidewall_allEmissions (self : vtkvmtkBoundaryLayerGenerator K)
    (input : vtkUnstructuredGrid K) (hl : Linear input)
    (hside : self.IncludeSidewallCells = true) :
    ((allEmissions self input).filter (fun e => decide (e.role = Role.sidewall))).length
      = boundaryEdgeCount input.Cells * self.NumberOfSubLayers := by
  unfold allEmissions
  rw [List.filter_append, List.filter_flatMap]
  have hcap : (if self.IncludeSurfaceCells = true then
        (List.range input.GetNumberOfCells).flatMap
          (surfaceEmission input 0 self.InnerSurfaceCellEntityId Role.innerSurface)
      else []).filter (fun e => decide (e.role = Role.sidewall)) = [] := by
    split
    · rw [filter_role_surfaceEmissions, if_neg (by decide)]
    · rfl
  rw [hcap, List.nil_append, List.length_flatMap]
  have : List.map (List.length ∘ fun k =>
        List.filter (fun e => decide (e.role = Role.sidewall))
          (layerEmissions self input (layerBlockSize input) k)) (List.range self.NumberOfSubLayers)
      = List.replicate self.NumberOfSubLayers (boundaryEdgeCount input.Cells) := by
    rw [List.eq_replicate_iff]
    refine ⟨by simp, ?_⟩
    intro x hx
    obtain ⟨k, _, hk⟩ := List.mem_map.mp hx
    rw [← hk]
    exact length_filter_sidewall_layerEmissions self input hl hside _ k
  rw [this, List.sum_replicate, smul_eq_mul, Nat.mul_comm]

theorem surfaceSwitch_wellFormed (c : Cell) (offset : Nat)
    (hs : c.cellType = VTK_TRIANGLE ∨ c.cellType = VTK_QUAD
      ∨ c.cellType = VTK_QUADRATIC_TRIANGLE)
    (hw : (c.cellType = VTK_TRIANGLE → c.pts.length = 3)
      ∧ (c.cellType = VTK_QUAD → c.pts.length = 4)
      ∧ (c.cellType = VTK_QUADRATIC_TRIANGLE → c.pts.length = 6)) :
    surfaceSwitch c.cellType c.pts offset
      = some (c.cellType, c.pts.map (fun p => p + offset)) := by
  obtain ⟨t, pts⟩ := c
  dsimp only at hs hw ⊢
  unfold surfaceSwitch
  rcases hs with h | h | h
  · have hlen := hw.1 h
    subst h
    match pts, hlen with
    | [a, b, c], _ => simp [newIdArray, VTK_TRIANGLE]
  · have hlen := hw.2.1 h
    subst h
    match pts, hlen with
    | [a, b, c, d], _ => simp [newIdArray, VTK_TRIANGLE, VTK_QUAD]
  · have hlen := hw.2.2 h
    subst h
    match pts, hlen with
    | [a, b, c, d, e, f], _ =>
      simp [newIdArray, VTK_TRIANGLE, VTK_QUAD, VTK_QUADRATIC_TRIANGLE]

theorem surfaceEmission_wellFormed (input : vtkUnstructuredGrid K) (hs : Supported input)
    (hw : WellFormed input) (offset : Nat) (entityId : Int) (role : Role) (i : Nat)
    (hi : i < input.Cells.length) :
    surfaceEmission input offset entityId role i
      = [surfaceCell offset entityId role (cellAt input i)] := by
  have hc : input.Cells[i] ∈ input.Cells := List.getElem_mem _
  have hsw := surfaceSwitch_wellFormed input.Cells[i] offset (hs _ hc) (hw _ hc)
  unfold surfaceEmission
  rw [GetCellType_of_lt input i hi, GetCellPoints_of_lt input i hi, hsw]
  dsimp only
  rw [cellAt_of_lt input i hi]
  unfold surfaceCell
  congr 3
  apply List.take_of_length_le
  simp

theorem surfaceEmissions_wellFormed (input : vtkUnstructuredGrid K) (hs : Supported input)
    (hw : WellFormed input) (offset : Nat) (entityId : Int) (role : Role) :
    (List.range input.Cells.length).flatMap (surfaceEmission input offset entityId role)
      = input.Cells.map (surfaceCell offset entityId role) := by
  rw [List.flatMap_congr (fun i hi =>
    surfaceEmission_wellFormed input hs hw offset entityId role i (List.mem_range.mp hi))]
  rw [← List.map_eq_flatMap]
  conv_rhs => rw [← map_cellAt input, List.map_map]
  rfl

theorem role_middleEmissions (self : vtkvmtkBoundaryLayerGenerator K)
    (input : vtkUnstructuredGrid K) :
    ∀ e ∈ middleEmissions self input, e.role = Role.volume ∨ e.role = Role.sidewall := by
  intro e he
  unfold middleEmissions at he
  obtain ⟨k, _, hk⟩ := List.mem_flatMap.mp he
  obtain ⟨i, _, hi⟩ := List.mem_flatMap.mp hk
  exact role_volumeEmissions _ _ _ _ _ e hi

theorem flatMap_layerEmissions (self : vtkvmtkBoundaryLayerGenerator K)
    (input : vtkUnstructuredGrid K) (hN : 1 ≤ self.NumberOfSubLayers) :
    (List.range self.NumberOfSubLayers).flatMap (layerEmissions self input (layerBlockSize input))
      = middleEmissions self input
        ++ (if self.IncludeSurfaceCells = true then
              (List.range input.Cells.length).flatMap
                (surfaceEmission input (self.NumberOfSubLayers * layerBlockSize input)
                  self.OuterSurfaceCellEntityId Role.outerSurface)
            else []) := by
  unfold middleEmissions
  obtain ⟨n, hn⟩ : ∃ n, self.NumberOfSubLayers = n + 1 := ⟨self.NumberOfSubLayers - 1, by omega⟩
  rw [hn, List.range_succ, List.flatMap_append, List.flatMap_append, List.flatMap_singleton,
    List.flatMap_singleton, List.append_assoc]
  congr 1
  · apply List.flatMap_congr
    intro k hk
    have hk' : k ≠ self.NumberOfSubLayers - 1 := by
      have := List.mem_range.mp hk; omega
    unfold layerEmissions vtkUnstructuredGrid.GetNumberOfCells
    rw [if_neg (fun h => hk' h.2), List.append_nil]
  · unfold layerEmissions vtkUnstructuredGrid.GetNumberOfCells
    congr 1
    have hlast : n = self.NumberOfSubLayers - 1 := by omega
    have hoff : n * layerBlockSize input + layerBlockSize input
        = (n + 1) * layerBlockSize input := by ring
    by_cases hc : self.IncludeSurfaceCells = true
    · rw [if_pos ⟨hc, hlast⟩, if_pos hc, hoff]
    · rw [if_neg (fun h => hc h.1), if_neg hc]


theorem surfaceCell_zero (entityId : Int) (role : Role) (c : Cell) :
    surfaceCell 0 entityId role c = ⟨role, c, entityId⟩ := by
  unfold surfaceCell
  simp

/-- The cells of a run with surface cells on a supported, well-formed input: the layer-0
surface cells, the volume and sidewall cells, the layer-`N` surface cells. -/
theorem allEmissions_surface (self : vtkvmtkBoundaryLayerGenerator K)
    (input : vtkUnstructuredGrid K) (hs : Supported input) (hw : WellFormed input)
    (hN : 1 ≤ self.NumberOfSubLayers) (hc : self.IncludeSurfaceCells = true) :
    allEmissions self input
      = input.Cells.map (fun c => (⟨Role.innerSurface, c, self.InnerSurfaceCellEntityId⟩ : Emitted))
        ++ (middleEmissions self input
        ++ input.Cells.map
            (surfaceCell (self.NumberOfSubLayers * layerBlockSize input)
              self.OuterSurfaceCellEntityId Role.outerSurface)) := by
  unfold allEmissions vtkUnstructuredGrid.GetNumberOfCells
  rw [flatMap_layerEmissions self input hN, if_pos hc, if_pos hc,
    surfaceEmissions_wellFormed input hs hw, surfaceEmissions_wellFormed input hs hw]
  congr 1
  apply List.map_congr_left
  intro c _
  exact surfaceCell_zero _ _ c

theorem allEmissions_no_surface (self : vtkvmtkBoundaryLayerGenerator K)
    (input : vtkUnstructuredGrid K) (hN : 1 ≤ self.NumberOfSubLayers)
    (hc : self.IncludeSurfaceCells = false) :
    allEmissions self input = middleEmissions self input := by
  unfold allEmissions
  rw [flatMap_layerEmissions self input hN]
  simp [hc]

end Roles

/-! ## Frozen vertices -/

section Frozen

variable {K : Type} [LinearOrderedField K]

theorem foldl_fixed {α β : Type} (body : β → α → β) (l : List α) (b : β)
    (h : ∀ a ∈ l, body b a = b) : l.foldl body b = b := by
  induction l with
  | nil => rfl
  | cons a rest ih =>
    rw [List.foldl_cons, h a (List.mem_cons_self _ _)]
    exact ih (fun a' ha' => h a' (List.mem_cons_of_mem _ ha'))

/-- When every layer vertex has two or more on-edge horizontal neighbours,
`UnwrapSublayers` writes no point. -/
theorem UnwrapSublayers_frozen (sqrt : K → K) (self : vtkvmtkBoundaryLayerGenerator K)
    (input : vtkUnstructuredGrid K) (pts : List (Vec3 K))
    (h : ∀ i ∈ List.range' 1 self.NumberOfSubLayers, ∀ j ∈ List.range input.GetNumberOfPoints,
      2 ≤ (neighborIds input i j).2.length) :
    self.UnwrapSublayers sqrt input pts = pts := by
  unfold UnwrapSublayers
  apply foldl_fixed
  intro _ _
  unfold unwrapPass
  apply foldl_fixed
  intro i hi
  apply foldl_fixed
  intro j hj
  unfold relaxPoint
  dsimp only
  rw [if_pos (h i hi j hj)]

theorem Vec3.add_def (a b : Vec3 K) : a + b = ⟨a.x + b.x, a.y + b.y, a.z + b.z⟩ := rfl

theorem range_three : List.range 3 = [0, 1, 2] := rfl

theorem RequestData_error_none (sqrt : K → K) (self : vtkvmtkBoundaryLayerGenerator K)
    (input output : vtkUnstructuredGrid K)
    (hconf : ¬ ConfigurationMissing self input) (hs : Supported input) :
    (RequestData sqrt self input output).error = none := by
  obtain ⟨_, _, herr, _⟩ := RequestData_ok sqrt self input output hconf hs
  exact herr

theorem layerBlockSize_linear (input : vtkUnstructuredGrid K) (hl : Linear input) :
    layerBlockSize input = input.Points.length := by
  unfold layerBlockSize
  have hne : input.GetCellType 0 ≠ VTK_QUADRATIC_TRIANGLE := by
    by_cases h0 : 0 < input.Cells.length
    · rcases linear_cellType input hl 0 h0 with h | h <;> rw [h] <;> decide
    · have : input.Cells[0]? = none := List.getElem?_eq_none (by omega)
      simp [vtkUnstructuredGrid.GetCellType, this, VTK_EMPTY_CELL, VTK_QUADRATIC_TRIANGLE]
  rw [if_neg hne]

/-- For an input of Triangle or Quad cells the `InnerSurface` artifact has the input's cells
and its point `i` is the output point `i + N * L`. -/
theorem RequestData_innerSurface_linear (sqrt : K → K) (self : vtkvmtkBoundaryLayerGenerator K)
    (input output : vtkUnstructuredGrid K)
    (hconf : ¬ ConfigurationMissing self input) (hl : Linear input) :
    ∃ g, (RequestData sqrt self input output).self.InnerSurface = some g
      ∧ g.Cells = input.Cells
      ∧ ∀ i, i < input.Points.length →
          GetPoint g.Points i
            = GetPoint (RequestData sqrt self input output).output.Points
                (i + self.NumberOfSubLayers * layerBlockSize input) := by
  obtain ⟨s, _, _, hpts, _, hinner, _⟩ :=
    RequestData_ok sqrt self input output hconf (Linear.supported input hl)
  refine ⟨_, hinner, rfl, ?_⟩
  intro i hi
  rw [hpts, layerBlockSize_linear input hl, Nat.mul_comm self.NumberOfSubLayers]
  dsimp only
  generalize s.UnwrapSublayers sqrt input (extrudedPoints sqrt s input) = P
  have h := getD_foldl_set
    (fun i => GetPoint P (i + input.Points.length * self.NumberOfSubLayers))
    0 0 (SetNumberOfPoints input.Points.length) input.Points.length i
  have hc : 0 ≤ i ∧ i < 0 + input.Points.length
      ∧ i < (SetNumberOfPoints input.Points.length : List (Vec3 K)).length := by
    simp [SetNumberOfPoints, hi]
  rw [if_pos hc] at h
  exact h

end Frozen

/-! ## The example inputs -/

section Examples

theorem qsqrt_one : qsqrt 1 = 1 := by
  simp [qsqrt]

theorem scenario_not_missing (input : vtkUnstructuredGrid ℚ)
    (h : GetArray input.PointData "Normals" = some upwardWarp) :
    ¬ ConfigurationMissing scenarioGenerator input := by
  unfold ConfigurationMissing
  simp [scenarioGenerator, New, h]

theorem quadraticInput_supported : Supported quadraticInput := by
  intro c hc
  simp only [quadraticInput, List.mem_singleton] at hc
  right; right; rw [hc]

theorem checkArrays_scenario_quadratic :
    checkArrays scenarioGenerator quadraticInput
      = (checkedScenarioGenerator, none) := by
  rfl

theorem range_six : List.range 6 = [0, 1, 2, 3, 4, 5] := rfl
theorem range_twelve : List.range 12 = [0, 1, 2, 3, 4, 5, 6, 7, 8, 9, 10, 11] := rfl

theorem extrudedPoints_quadratic :
    extrudedPoints qsqrt checkedScenarioGenerator
        quadraticInput
      = [⟨0, 0, 0⟩, ⟨2, 0, 0⟩, ⟨0, 2, 0⟩, ⟨1, 0, 0⟩, ⟨1, 1, 0⟩, ⟨0, 1, 0⟩,
         ⟨0, 0, 1⟩, ⟨2, 0, 1⟩, ⟨0, 2, 1⟩, ⟨1, 0, 1⟩, ⟨1, 1, 1⟩, ⟨0, 1, 1⟩,
         ⟨0, 0, 2⟩, ⟨2, 0, 2⟩, ⟨0, 2, 2⟩, ⟨1, 0, 2⟩, ⟨1, 1, 2⟩, ⟨0, 1, 2⟩] := by
  have r1 : List.range 1 = [0] := rfl
  have hL : layerBlockSize quadraticInput = 12 := by decide
  have hT : quadraticInput.GetCellType 0 = VTK_QUADRATIC_TRIANGLE := by decide
  have hwv : ∀ i, checkedScenarioGenerator.warpVector i = ⟨0, 0, 1⟩ := by
    intro i
    simp [warpVector, deref, checkedScenarioGenerator, scenarioGenerator, New, upwardWarp, DataArray.GetTuple]
  have hnorm : Normalize qsqrt (⟨0, 0, 1⟩ : Vec3 ℚ) = (⟨0, 0, 1⟩, 1) := by
    simp [Normalize, Norm, qsqrt_one, Vec3.sdiv]
  have hlt : ∀ i, checkedScenarioGenerator.layerThickness qsqrt i = 2 := by
    intro i
    simp [layerThickness, checkedScenarioGenerator, scenarioGenerator, New]
    norm_num
  have hoff : subLayerOffsetRatio (1 : ℚ) 1 0 = 0 := by
    simp [subLayerOffsetRatio]
  have hth : subLayerThicknessRatio (1 : ℚ) 1 0 = 1 := by
    simp [subLayerThicknessRatio, totalLayerZeroSubLayerRatio, r1]
  have hwp : ∀ f i, warpedPoint qsqrt
      checkedScenarioGenerator quadraticInput.Points 0 f i
      = ⟨(GetPoint quadraticInput.Points i).x, (GetPoint quadraticInput.Points i).y,
          (GetPoint quadraticInput.Points i).z + f * 2⟩ := by
    intro f i
    unfold warpedPoint
    simp only [hwv, hnorm, hlt]
    simp [checkedScenarioGenerator, scenarioGenerator, New, hoff, hth]
  unfold extrudedPoints copyWarpedPoints WarpPoints
  simp only [hL, hT, decide_True, Bool.not_true, Bool.false_eq_true, if_false]
  have hbody : warpPointsBody qsqrt
      checkedScenarioGenerator quadraticInput.Points 0 true
      = fun acc i => (acc.set i ⟨(GetPoint quadraticInput.Points i).x,
          (GetPoint quadraticInput.Points i).y, (GetPoint quadraticInput.Points i).z + 1 / 2 * 2⟩).set
          (i + 6) ⟨(GetPoint quadraticInput.Points i).x,
          (GetPoint quadraticInput.Points i).y, (GetPoint quadraticInput.Points i).z + 1 * 2⟩ := by
    funext acc i
    simp only [warpPointsBody, if_true, hwp, SetPoint]
    rfl
  simp only [show checkedScenarioGenerator.NumberOfSubLayers = 1 from rfl, r1, List.foldl_cons,
    List.foldl_nil, hbody]
  simp [quadraticInput, checkedScenarioGenerator, scenarioGenerator, New, r1, range_six, range_twelve, SetNumberOfPoints,
    SetPoint, GetPoint, List.replicate]

theorem scenario_frozen_quadratic :
    ∀ i ∈ List.range' 1 checkedScenarioGenerator.NumberOfSubLayers,
      ∀ j ∈ List.range quadraticInput.GetNumberOfPoints,
        2 ≤ (neighborIds quadraticInput i j).2.length := by
  decide

theorem allEmissions_quadratic :
    (allEmissions scenarioGenerator quadraticInput).map (fun e => e.cell)
      = [⟨VTK_QUADRATIC_TRIANGLE, [0, 1, 2, 3, 4, 5]⟩,
         ⟨VTK_QUADRATIC_WEDGE, [0, 1, 2, 12, 13, 14, 3, 4, 5, 15, 16, 17, 6, 7, 8]⟩,
         ⟨VTK_QUADRATIC_TRIANGLE, [12, 13, 14, 15, 16, 17]⟩] := by
  decide

end Examples

/-! ## Helper lemmas for the claims -/

section ClaimHelpers

variable {K : Type} [LinearOrderedField K]

theorem WarpPoints_spec_aux (sqrt : K → K) (self : vtkvmtkBoundaryLayerGenerator K)
    (inputPoints : List (Vec3 K)) (k i : Nat)
    (hi : i < inputPoints.length)
    (hw : (deref self.WarpVectorsArray).GetTuple i ≠ 0)
    (hsqrt : IsSqrtAt sqrt
      (Dot ((deref self.WarpVectorsArray).GetTuple i) ((deref self.WarpVectorsArray).GetTuple i))) :
    let w := (deref self.WarpVectorsArray).GetTuple i
    let norm := sqrt (Dot w w)
    let d := (if self.NegateWarpVectors then -w else w).sdiv norm
    let T0 :=
      if self.ConstantThickness then self.LayerThickness
      else if self.UseWarpVectorMagnitudeAsThickness then norm
      else (deref self.LayerThicknessArray).GetComponent i 0 * self.LayerThicknessRatio
    let T := min T0 self.MaximumLayerThickness
    GetPoint (self.WarpPoints sqrt inputPoints k false) i
      = GetPoint inputPoints i + Vec3.smul
          (T * ((∑ m in Finset.range (k + 1), self.SubLayerRatio ^ (self.NumberOfSubLayers - 1 - m))
            / (∑ m in Finset.range self.NumberOfSubLayers,
                self.SubLayerRatio ^ (self.NumberOfSubLayers - 1 - m)))) d := by
  intro w norm d T0 T
  have hne : norm ≠ 0 := sqrt_ne_zero_of_isSqrtAt sqrt w hw hsqrt
  have hnormEq : Norm sqrt (self.warpVector i) = norm := by
    unfold Norm warpVector
    show sqrt _ = sqrt (Dot w w)
    congr 1
    unfold Dot
    by_cases hn : self.NegateWarpVectors = true
    · simp only [hn, if_true]; ring
    · simp only [hn]; rfl
  have hdir : (Normalize sqrt (self.warpVector i)).1 = d := by
    unfold Normalize
    simp only [hnormEq]
    rw [if_pos hne]
    show (self.warpVector i).sdiv norm = d
    unfold warpVector
    by_cases hn : self.NegateWarpVectors = true
    · simp only [hn, if_true, d]
      show Vec3.sdiv ⟨w.x * -1, w.y * -1, w.z * -1⟩ norm = Vec3.sdiv (-w) norm
      congr 1
      rw [Vec3.ext_iff']
      exact ⟨by show w.x * -1 = -w.x; ring, by show w.y * -1 = -w.y; ring,
        by show w.z * -1 = -w.z; ring⟩
    · simp only [hn, d]; rfl
  have hT : self.layerThickness sqrt i = T := by
    unfold layerThickness
    simp only [hnormEq]
    show (if T0 > self.MaximumLayerThickness then self.MaximumLayerThickness else T0) = min T0 _
    rw [min_def]
    by_cases hc : T0 ≤ self.MaximumLayerThickness
    · rw [if_pos hc, if_neg (not_lt.mpr hc)]
    · rw [if_neg hc, if_pos (not_le.mp hc)]
  have hsum : ∀ n : Nat, (∑ m in Finset.range n, self.SubLayerRatio ^ (self.NumberOfSubLayers - 1 - m))
      = ∑ m in Finset.range n, self.SubLayerRatio ^ (self.NumberOfSubLayers - m - 1) := by
    intro n
    apply Finset.sum_congr rfl
    intro m _
    congr 1
    omega
  rw [WarpPoints_linear_getPoint sqrt self inputPoints k i hi]
  unfold warpedPoint
  simp only []
  rw [hdir, hT, ← add_mul, cumulative_ratio_eq, hsum, hsum, Vec3.ext_iff']
  refine ⟨?_, ?_, ?_⟩
  · show _ = (GetPoint inputPoints i).x + _ * d.x; ring
  · show _ = (GetPoint inputPoints i).y + _ * d.y; ring
  · show _ = (GetPoint inputPoints i).z + _ * d.z; ring

theorem not_missing_of_constant (self : vtkvmtkBoundaryLayerGenerator K)
    (input : vtkUnstructuredGrid K) (warpName entityName : String) (warp : DataArray K)
    (hw : self.WarpVectorsArrayName = some warpName)
    (he : self.CellEntityIdsArrayName = some entityName)
    (ha : GetArray input.PointData warpName = some warp)
    (hc : self.ConstantThickness = true) :
    ¬ ConfigurationMissing self input := by
  unfold ConfigurationMissing
  simp [hw, he, ha, hc]

end ClaimHelpers

theorem slantedWarp_tuple (i : Nat) :
    (deref slantedGenerator.WarpVectorsArray).GetTuple i = ⟨3, 4, 0⟩ := by
  simp [deref, DataArray.GetTuple, slantedGenerator, slantedWarp]

theorem slantedWarp_ne_zero (i : Nat) :
    (deref slantedGenerator.WarpVectorsArray).GetTuple i ≠ 0 := by
  rw [slantedWarp_tuple]
  intro h
  have hx := congrArg Vec3.x h
  revert hx
  show (3 : ℚ) = 0 → False
  norm_num

theorem qsqrt_25 : qsqrt 25 = 5 := by
  have h : Nat.sqrt 25 = 5 := Nat.sqrt_eq 5
  simp [qsqrt, h]

theorem slantedWarp_isSqrtAt (i : Nat) :
    IsSqrtAt qsqrt (Dot ((deref slantedGenerator.WarpVectorsArray).GetTuple i)
      ((deref slantedGenerator.WarpVectorsArray).GetTuple i)) := by
  rw [slantedWarp_tuple]
  have h : Dot (⟨3, 4, 0⟩ : Vec3 ℚ) ⟨3, 4, 0⟩ = 25 := by
    unfold Dot; norm_num
  rw [h]
  unfold IsSqrtAt
  rw [qsqrt_25]
  norm_num

theorem graded_not_missing : ¬ ConfigurationMissing gradedGenerator twoTrianglesInput :=
  not_missing_of_constant gradedGenerator twoTrianglesInput "Normals" "CellEntityIds" upwardWarp
    rfl rfl rfl rfl

theorem twoTriangles_linear : Linear twoTrianglesInput := by
  unfold Linear; decide

theorem twoTriangles_supported : Supported twoTrianglesInput := by
  unfold Supported; decide

theorem twoTriangles_wellFormed : WellFormed twoTrianglesInput := by
  unfold WellFormed; decide

/-! ## The claims -/

section Claims

variable {K : Type} [LinearOrderedField K]

/-- C1. Scenario: for an input of one triangle with vertices 0, 1, 2, one sub-layer,
constant thickness 2, warp vector `(0, 0, 1)` at every vertex, surface cells included and
sidewall cells not, `RequestData` succeeds and produces exactly the 6 points `p0, p1, p2`
and their translates by `(0, 0, 2)`, as they are after `UnwrapSublayers`, and exactly the
3 cells triangle `[0,1,2]`, wedge `[0,1,2,3,4,5]`, triangle `[3,4,5]`, tagged with the
inner-surface, volume and outer-surface ids. It holds for every sub-layer ratio, every
maximum thickness of at least 2 and every exact `sqrt` with `sqrt 1 = 1`. -/
theorem RequestData_single_triangle (sqrt : K → K) (self : vtkvmtkBoundaryLayerGenerator K)
    (input output : vtkUnstructuredGrid K) (p0 p1 p2 : Vec3 K) (warpName entityName : String)
    (warp : DataArray K)
    (hsqrt : sqrt 1 = 1)
    (hpoints : input.Points = [p0, p1, p2])
    (hcells : input.Cells = [⟨VTK_TRIANGLE, [0, 1, 2]⟩])
    (hwarpName : self.WarpVectorsArrayName = some warpName)
    (hentityName : self.CellEntityIdsArrayName = some entityName)
    (hwarp : GetArray input.PointData warpName = some warp)
    (hvector : ∀ i, i < 3 → warp.GetTuple i = ⟨0, 0, 1⟩)
    (hN : self.NumberOfSubLayers = 1)
    (hconstant : self.ConstantThickness = true)
    (hthickness : self.LayerThickness = 2)
    (hmax : 2 ≤ self.MaximumLayerThickness)
    (hnegate : self.NegateWarpVectors = false)
    (hcaps : self.IncludeSurfaceCells = true)
    (hsidewalls : self.IncludeSidewallCells = false) :
    (RequestData sqrt self input output).error = none
    ∧ (RequestData sqrt self input output).output.Points
        = [p0, p1, p2, p0 + ⟨0, 0, 2⟩, p1 + ⟨0, 0, 2⟩, p2 + ⟨0, 0, 2⟩]
    ∧ (RequestData sqrt self input output).output.Cells
        = [⟨VTK_TRIANGLE, [0, 1, 2]⟩, ⟨VTK_WEDGE, [0, 1, 2, 3, 4, 5]⟩, ⟨VTK_TRIANGLE, [3, 4, 5]⟩]
    ∧ GetArray (RequestData sqrt self input output).output.CellData entityName
        = some [self.InnerSurfaceCellEntityId, self.VolumeCellEntityId,
            self.OuterSurfaceCellEntityId]
    ∧ (RequestData sqrt self input output).roles
        = [Role.innerSurface, Role.volume, Role.outerSurface] := by
  have hconf : ¬ ConfigurationMissing self input := by
    unfold ConfigurationMissing
    simp [hwarpName, hentityName, hwarp, hconstant]
  have hs : Supported input := by
    intro c hc
    rw [hcells, List.mem_singleton] at hc
    left; rw [hc]
  obtain ⟨s, hcheck, herr, hpts, _, _, hcellsOut, hdata, hroles, _⟩ :=
    RequestData_ok sqrt self input output hconf hs
  obtain ⟨_, hsame, ⟨name, hname, hsw⟩, _⟩ := checkArrays_ok self s input hcheck
  have hall : allEmissions self input
      = [⟨Role.innerSurface, ⟨VTK_TRIANGLE, [0, 1, 2]⟩, self.InnerSurfaceCellEntityId⟩,
         ⟨Role.volume, ⟨VTK_WEDGE, [0, 1, 2, 3, 4, 5]⟩, self.VolumeCellEntityId⟩,
         ⟨Role.outerSurface, ⟨VTK_TRIANGLE, [3, 4, 5]⟩, self.OuterSurfaceCellEntityId⟩] := by
    have hM : input.GetNumberOfCells = 1 := by
      simp [vtkUnstructuredGrid.GetNumberOfCells, hcells]
    have hT0 : input.GetCellType 0 = VTK_TRIANGLE := by
      simp [vtkUnstructuredGrid.GetCellType, hcells]
    have hP0 : input.GetCellPoints 0 = [0, 1, 2] := by
      simp [vtkUnstructuredGrid.GetCellPoints, hcells]
    have hL : layerBlockSize input = 3 := by
      simp [layerBlockSize, hT0, hpoints, VTK_TRIANGLE, VTK_QUADRATIC_TRIANGLE]
    have r1 : List.range 1 = [0] := rfl
    simp [allEmissions, layerEmissions, volumeEmissions, surfaceEmission, surfaceSwitch,
      linearPrismPts, newIdArray, hM, hT0, hP0, hL, hN, hcaps, hsidewalls, r1]
  have hM : input.GetNumberOfCells = 1 := by
    simp [vtkUnstructuredGrid.GetNumberOfCells, hcells]
  have hT0 : input.GetCellType 0 = VTK_TRIANGLE := by
    simp [vtkUnstructuredGrid.GetCellType, hcells]
  have hP0 : input.GetCellPoints 0 = [0, 1, 2] := by
    simp [vtkUnstructuredGrid.GetCellPoints, hcells]
  have hL : layerBlockSize input = 3 := by
    simp [layerBlockSize, hT0, hpoints, VTK_TRIANGLE, VTK_QUADRATIC_TRIANGLE]
  have hsN : s.NumberOfSubLayers = 1 := by rw [hsame]; exact hN
  have r1 : List.range 1 = [0] := rfl
  have hfrozen : ∀ i ∈ List.range' 1 s.NumberOfSubLayers,
      ∀ j ∈ List.range input.GetNumberOfPoints, 2 ≤ (neighborIds input i j).2.length := by
    intro i hi j hj
    rw [hsN] at hi
    simp only [List.range'_one, List.mem_singleton] at hi
    subst hi
    simp only [vtkUnstructuredGrid.GetNumberOfPoints, hpoints, List.length_cons,
      List.length_nil, List.mem_range] at hj
    have hj' : j = 0 ∨ j = 1 ∨ j = 2 := by omega
    rcases hj' with h | h | h <;> subst h <;>
      simp [neighborIds, vtkUnstructuredGrid.GetPointCells, vtkUnstructuredGrid.GetCellNeighbors,
        vtkUnstructuredGrid.GetNumberOfPoints, InsertUniqueId, hM, hP0, hpoints, r1]
  refine ⟨herr, ?_, ?_, ?_, ?_⟩
  · rw [hpts, UnwrapSublayers_frozen sqrt s input _ hfrozen]
    have hname' : name = warpName := by
      rw [hwarpName] at hname; exact (Option.some.inj hname).symm
    have hsw' : s.WarpVectorsArray = some warp := by rw [hsw, hname', hwarp]
    have hsneg : s.NegateWarpVectors = false := by rw [hsame]; exact hnegate
    have hsconst : s.ConstantThickness = true := by rw [hsame]; exact hconstant
    have hsthick : s.LayerThickness = 2 := by rw [hsame]; exact hthickness
    have hsmax : ¬ (2 > s.MaximumLayerThickness) := by rw [hsame]; exact not_lt.mpr hmax
    have hwv : ∀ i, i < 3 → s.warpVector i = ⟨0, 0, 1⟩ := by
      intro i hi
      simp [warpVector, hsw', hsneg, deref, hvector i hi]
    have hnorm : Normalize sqrt (⟨0, 0, 1⟩ : Vec3 K) = (⟨0, 0, 1⟩, 1) := by
      simp [Normalize, Norm, hsqrt, Vec3.sdiv]
    have hlt : ∀ i, s.layerThickness sqrt i = 2 := by
      intro i
      simp [layerThickness, hsconst, hsthick, hsmax]
    have hoff : subLayerOffsetRatio s.SubLayerRatio 1 0 = 0 := by
      simp [subLayerOffsetRatio]
    have hth : subLayerThicknessRatio s.SubLayerRatio 1 0 = 1 := by
      simp [subLayerThicknessRatio, totalLayerZeroSubLayerRatio, r1]
    have hwp : ∀ i, i < 3 →
        GetPoint (s.WarpPoints sqrt [p0, p1, p2] 0 false) i
          = GetPoint [p0, p1, p2] i + ⟨0, 0, 2⟩ := by
      intro i hi
      rw [WarpPoints_linear_getPoint sqrt s [p0, p1, p2] 0 i (by simpa using hi)]
      unfold warpedPoint
      simp [hwv i hi, hnorm, hlt, hsN, hoff, hth, Vec3.add_def]
    simp [extrudedPoints, copyWarpedPoints, hL, hsN, hpoints, hT0, r1, range_three,
      SetNumberOfPoints, SetPoint, List.replicate, VTK_TRIANGLE, VTK_QUADRATIC_TRIANGLE]
    refine ⟨rfl, rfl, rfl, ?_, ?_, ?_⟩
    · rw [hwp 0 (by omega)]; rfl
    · rw [hwp 1 (by omega)]; rfl
    · rw [hwp 2 (by omega)]; rfl
  · rw [hcellsOut, hall]; rfl
  · rw [hdata, hentityName, hall]
    exact getArray_addArray _ _ _
  · rw [hroles, hall]; rfl

/-- The single-triangle scenario of C1 run on rational coordinates. -/
theorem RequestData_single_triangle_witness :
    (RequestData qsqrt scenarioGenerator triangleInput emptyGrid).output.Points
        = [⟨0, 0, 0⟩, ⟨1, 0, 0⟩, ⟨0, 1, 0⟩,
           ⟨0, 0, 0⟩ + ⟨0, 0, 2⟩, ⟨1, 0, 0⟩ + ⟨0, 0, 2⟩, ⟨0, 1, 0⟩ + ⟨0, 0, 2⟩]
    ∧ (RequestData qsqrt scenarioGenerator triangleInput emptyGrid).output.Cells
        = [⟨VTK_TRIANGLE, [0, 1, 2]⟩, ⟨VTK_WEDGE, [0, 1, 2, 3, 4, 5]⟩,
           ⟨VTK_TRIANGLE, [3, 4, 5]⟩] :=
  have h := RequestData_single_triangle qsqrt scenarioGenerator triangleInput emptyGrid
    ⟨0, 0, 0⟩ ⟨1, 0, 0⟩ ⟨0, 1, 0⟩ "Normals" "CellEntityIds" upwardWarp
    qsqrt_one rfl rfl rfl rfl rfl
    (fun i _ => by simp [upwardWarp, DataArray.GetTuple])
    rfl rfl rfl (by norm_num [scenarioGenerator, New]) rfl rfl rfl
  ⟨h.2.1, h.2.2.1⟩

/-- C2. For every input with `n` vertices and every `N ≥ 1` on which `RequestData`
succeeds, the number of output points is `n * (1 + N)` when the first input cell is a
Triangle or a Quad, and `n + 2 * n * N` when it is a QuadraticTriangle. -/
theorem RequestData_point_count (sqrt : K → K) (self : vtkvmtkBoundaryLayerGenerator K)
    (input output : vtkUnstructuredGrid K) (hN : 1 ≤ self.NumberOfSubLayers)
    (hok : (RequestData sqrt self input output).error = none) :
    ((input.GetCellType 0 = VTK_TRIANGLE ∨ input.GetCellType 0 = VTK_QUAD) →
      (RequestData sqrt self input output).output.Points.length
        = input.Points.length * (1 + self.NumberOfSubLayers))
    ∧ (input.GetCellType 0 = VTK_QUADRATIC_TRIANGLE →
      (RequestData sqrt self input output).output.Points.length
        = input.Points.length + 2 * input.Points.length * self.NumberOfSubLayers) := by
  obtain ⟨hconf, hs⟩ := RequestData_success sqrt self input output hN hok
  rw [RequestData_points_length sqrt self input output hconf hs]
  unfold layerBlockSize
  constructor
  · intro h
    have hne : input.GetCellType 0 ≠ VTK_QUADRATIC_TRIANGLE := by
      rcases h with h | h <;> rw [h] <;> decide
    rw [if_neg hne]; ring
  · intro h
    rw [if_pos h]

/-- Two triangles on 4 vertices with 2 sub-layers give 12 output points. -/
theorem RequestData_point_count_witness :
    (RequestData qsqrt gradedGenerator twoTrianglesInput emptyGrid).output.Points.length = 12 :=
  (RequestData_point_count qsqrt gradedGenerator twoTrianglesInput emptyGrid (by decide)
    (RequestData_error_none qsqrt gradedGenerator twoTrianglesInput emptyGrid
      graded_not_missing twoTriangles_supported)).1 (Or.inl rfl)

/-- C3. In linear mode, for every sub-layer index `k` and every vertex `i` whose warp
vector `w` is not zero, with `sqrt` the non-negative square root at `w·w`, `WarpPoints`
yields the point of the specification, `specWarpedPoint`:
`p_i + d_i * T_i * (Σ_{m≤k} r^(N-1-m)) / (Σ_{m<N} r^(N-1-m))`. The equation needs neither
`k < N` nor `r > 0`. -/
theorem WarpPoints_formula (sqrt : K → K) (self : vtkvmtkBoundaryLayerGenerator K)
    (inputPoints : List (Vec3 K)) (k i : Nat)
    (hi : i < inputPoints.length)
    (hw : (deref self.WarpVectorsArray).GetTuple i ≠ 0)
    (hsqrt : IsSqrtAt sqrt
      (Dot ((deref self.WarpVectorsArray).GetTuple i) ((deref self.WarpVectorsArray).GetTuple i))) :
    GetPoint (self.WarpPoints sqrt inputPoints k false) i
      = specWarpedPoint sqrt self inputPoints k i :=
  WarpPoints_spec_aux sqrt self inputPoints k i hi hw hsqrt

/-- The warped point of vertex 1 for the negated warp vector `(3, 4, 0)`, graded in two
sub-layers. -/
theorem WarpPoints_formula_witness :
    GetPoint (slantedGenerator.WarpPoints qsqrt [⟨0, 0, 0⟩, ⟨1, 0, 0⟩, ⟨0, 1, 0⟩] 0 false) 1
      = specWarpedPoint qsqrt slantedGenerator [⟨0, 0, 0⟩, ⟨1, 0, 0⟩, ⟨0, 1, 0⟩] 0 1 :=
  WarpPoints_formula qsqrt slantedGenerator [⟨0, 0, 0⟩, ⟨1, 0, 0⟩, ⟨0, 1, 0⟩] 0 1
    (by decide) (slantedWarp_ne_zero 1) (slantedWarp_isSqrtAt 1)

/-- C4. For every `N ≥ 1` and every sub-layer ratio `r > 0`, the sub-layer thickness
fractions of `WarpPoints` sum to 1 over `k = 0..N-1`, and the cumulative fraction
`subLayerOffsetRatio + subLayerThicknessRatio` of the last sub-layer is 1. -/
theorem thickness_fractions_sum_to_one (r : K) (N : Nat) (hN : 1 ≤ N) (hr : 0 < r) :
    ((List.range N).map (subLayerThicknessRatio r N)).sum = 1
      ∧ subLayerOffsetRatio r N (N - 1) + subLayerThicknessRatio r N (N - 1) = 1 := by
  have hpos := totalLayerZeroSubLayerRatio_pos r N hN hr
  have hne : (∑ i in Finset.range N, r ^ (N - i - 1)) ≠ 0 := by
    rw [← totalLayerZeroSubLayerRatio_eq]; exact ne_of_gt hpos
  constructor
  · have : ((List.range N).map (subLayerThicknessRatio r N)).sum
        = ∑ k in Finset.range N, subLayerThicknessRatio r N k := by
      exact sum_map_range _ N
    rw [this]
    unfold subLayerThicknessRatio
    rw [← Finset.sum_div, totalLayerZeroSubLayerRatio_eq]
    exact div_self hne
  · rw [cumulative_ratio_eq, Nat.sub_add_cancel hN]
    exact div_self hne

/-- Three sub-layers of ratio 2 have fractions summing to 1. -/
theorem thickness_fractions_sum_to_one_witness :
    ((List.range 3).map (subLayerThicknessRatio (2 : ℚ) 3)).sum = 1
      ∧ subLayerOffsetRatio (2 : ℚ) 3 (3 - 1) + subLayerThicknessRatio (2 : ℚ) 3 (3 - 1) = 1 :=
  thickness_fractions_sum_to_one (2 : ℚ) 3 (by decide) (by norm_num)

/-- C5. For every input of Triangle or Quad cells with a complete configuration,
`RequestData` succeeds and the cells it emits as volume cells are, in order, one per
transition `k` and per input cell `c`: a Wedge for a Triangle and a Hexahedron for a Quad,
whose connectivity is the vertex list of `c` shifted by `k * L` followed by the same list
shifted by `(k + 1) * L`, tagged with the volume id; there are `M * N` of them. -/
theorem RequestData_volume_cells (sqrt : K → K) (self : vtkvmtkBoundaryLayerGenerator K)
    (input output : vtkUnstructuredGrid K)
    (hconf : ¬ ConfigurationMissing self input) (hl : Linear input) :
    (RequestData sqrt self input output).error = none
    ∧ (RequestData sqrt self input output).emitted.filter (fun e => decide (e.role = Role.volume))
        = (List.range self.NumberOfSubLayers).flatMap
            (fun k => input.Cells.map (fun c =>
              (⟨Role.volume,
                ⟨if c.cellType = VTK_TRIANGLE then VTK_WEDGE else VTK_HEXAHEDRON,
                  c.pts.map (fun p => p + k * layerBlockSize input)
                    ++ c.pts.map (fun p => p + (k + 1) * layerBlockSize input)⟩,
                self.VolumeCellEntityId⟩ : Emitted)))
    ∧ ((RequestData sqrt self input output).emitted.filter
          (fun e => decide (e.role = Role.volume))).length
        = input.Cells.length * self.NumberOfSubLayers := by
  obtain ⟨s, _, herr, _, hem, _⟩ :=
    RequestData_ok sqrt self input output hconf (Linear.supported input hl)
  have hfilter := filter_volume_allEmissions self input hl
  refine ⟨herr, ?_, ?_⟩
  · rw [hem, hfilter]; rfl
  · rw [hem, hfilter, List.length_flatMap]
    simp [Function.comp_def, Nat.mul_comm]

/-- Two triangles with 2 sub-layers give 4 volume cells. -/
theorem RequestData_volume_cells_witness :
    ((RequestData qsqrt gradedGenerator twoTrianglesInput emptyGrid).emitted.filter
        (fun e => decide (e.role = Role.volume))).length = 2 * 2 :=
  (RequestData_volume_cells qsqrt gradedGenerator twoTrianglesInput emptyGrid
    graded_not_missing twoTriangles_linear).2.2

/-- C6. For every supported, well-formed input of `M` cells with a complete configuration
and `N ≥ 1`: when `IncludeSurfaceCells` is set, the first `M` output cells are the input
cells tagged with the inner-surface id and are all the cells emitted as inner surface
cells, and the last `M` output cells are the input cells with every index shifted by
`N * L`, tagged with the outer-surface id, and are all the cells emitted as outer surface
cells; when it is not set, no surface cell is emitted. -/
theorem RequestData_surface_cells (sqrt : K → K) (self : vtkvmtkBoundaryLayerGenerator K)
    (input output : vtkUnstructuredGrid K)
    (hconf : ¬ ConfigurationMissing self input) (hs : Supported input) (hw : WellFormed input)
    (hN : 1 ≤ self.NumberOfSubLayers) :
    (self.IncludeSurfaceCells = true →
      (RequestData sqrt self input output).emitted.take input.Cells.length
          = input.Cells.map (fun c => ⟨Role.innerSurface, c, self.InnerSurfaceCellEntityId⟩)
      ∧ (RequestData sqrt self input output).emitted.filter
            (fun e => decide (e.role = Role.innerSurface))
          = input.Cells.map (fun c => ⟨Role.innerSurface, c, self.InnerSurfaceCellEntityId⟩)
      ∧ (RequestData sqrt self input output).emitted.drop
            ((RequestData sqrt self input output).emitted.length - input.Cells.length)
          = input.Cells.map (fun c =>
              ⟨Role.outerSurface,
                ⟨c.cellType,
                  c.pts.map (fun p => p + self.NumberOfSubLayers * layerBlockSize input)⟩,
                self.OuterSurfaceCellEntityId⟩)
      ∧ (RequestData sqrt self input output).emitted.filter
            (fun e => decide (e.role = Role.outerSurface))
          = input.Cells.map (fun c =>
              ⟨Role.outerSurface,
                ⟨c.cellType,
                  c.pts.map (fun p => p + self.NumberOfSubLayers * layerBlockSize input)⟩,
                self.OuterSurfaceCellEntityId⟩))
    ∧ (self.IncludeSurfaceCells = false →
        ∀ e ∈ (RequestData sqrt self input output).emitted,
          e.role ≠ Role.innerSurface ∧ e.role ≠ Role.outerSurface) := by
  obtain ⟨s, _, _, _, hem, _⟩ := RequestData_ok sqrt self input output hconf hs
  rw [hem]
  have hmid := role_middleEmissions self input
  constructor
  · intro hc
    rw [allEmissions_surface self input hs hw hN hc]
    have hOuter : input.Cells.map (fun c =>
          (⟨Role.outerSurface,
            ⟨c.cellType,
              c.pts.map (fun p => p + self.NumberOfSubLayers * layerBlockSize input)⟩,
            self.OuterSurfaceCellEntityId⟩ : Emitted))
        = input.Cells.map (surfaceCell (self.NumberOfSubLayers * layerBlockSize input)
            self.OuterSurfaceCellEntityId Role.outerSurface) := rfl
    rw [hOuter]
    have hfi : ∀ role, (input.Cells.map
          (fun c => (⟨Role.innerSurface, c, self.InnerSurfaceCellEntityId⟩ : Emitted))).filter
          (fun e => decide (e.role = role))
        = if Role.innerSurface = role then input.Cells.map
            (fun c => (⟨Role.innerSurface, c, self.InnerSurfaceCellEntityId⟩ : Emitted))
          else [] := by
      intro role
      by_cases h : Role.innerSurface = role
      · rw [if_pos h]
        apply filter_role_eq_self
        intro e he
        obtain ⟨c, _, hce⟩ := List.mem_map.mp he
        rw [← hce]; exact h
      · rw [if_neg h]
        apply filter_role_eq_nil
        intro e he
        obtain ⟨c, _, hce⟩ := List.mem_map.mp he
        rw [← hce]; exact h
    have hfo : ∀ role, (input.Cells.map
          (surfaceCell (self.NumberOfSubLayers * layerBlockSize input)
            self.OuterSurfaceCellEntityId Role.outerSurface)).filter
          (fun e => decide (e.role = role))
        = if Role.outerSurface = role then input.Cells.map
            (surfaceCell (self.NumberOfSubLayers * layerBlockSize input)
              self.OuterSurfaceCellEntityId Role.outerSurface)
          else [] := by
      intro role
      by_cases h : Role.outerSurface = role
      · rw [if_pos h]
        apply filter_role_eq_self
        intro e he
        obtain ⟨c, _, hce⟩ := List.mem_map.mp he
        rw [← hce]; exact h
      · rw [if_neg h]
        apply filter_role_eq_nil
        intro e he
        obtain ⟨c, _, hce⟩ := List.mem_map.mp he
        rw [← hce]; exact h
    have hfm : ∀ role, role ≠ Role.volume → role ≠ Role.sidewall →
        (middleEmissions self input).filter (fun e => decide (e.role = role)) = [] := by
      intro role h1 h2
      apply filter_role_eq_nil
      intro e he hrole
      rcases hmid e he with h | h
      · exact h1 (hrole ▸ h)
      · exact h2 (hrole ▸ h)
    refine ⟨?_, ?_, ?_, ?_⟩
    · exact List.take_left' (by simp)
    · rw [List.filter_append, List.filter_append, hfi, hfo,
        hfm _ (by decide) (by decide), if_pos rfl, if_neg (by decide)]
      simp
    · rw [← List.append_assoc]
      apply List.drop_left'
      simp
      omega
    · rw [List.filter_append, List.filter_append, hfi, hfo,
        hfm _ (by decide) (by decide), if_pos rfl, if_neg (by decide)]
      simp
  · intro hc e he
    rw [allEmissions_no_surface self input hN hc] at he
    rcases hmid e he with h | h <;> rw [h] <;> exact ⟨by decide, by decide⟩

/-- The first two output cells for two triangles are the two input triangles. -/
theorem RequestData_surface_cells_witness :
    (RequestData qsqrt gradedGenerator twoTrianglesInput emptyGrid).emitted.take
        twoTrianglesInput.Cells.length
      = twoTrianglesInput.Cells.map
          (fun c => ⟨Role.innerSurface, c, gradedGenerator.InnerSurfaceCellEntityId⟩) :=
  ((RequestData_surface_cells qsqrt gradedGenerator twoTrianglesInput emptyGrid
    graded_not_missing twoTriangles_supported twoTriangles_wellFormed (by decide)).1 rfl).1

/-- C7. With `IncludeSidewallCells` set, for every input of Triangle or Quad cells with a
complete configuration, the number of cells emitted as sidewall cells is `B * N`, with `B`
the number of cell edges shared by no other cell; when `B = 0` no sidewall cell is
emitted. -/
theorem RequestData_sidewall_count (sqrt : K → K) (self : vtkvmtkBoundaryLayerGenerator K)
    (input output : vtkUnstructuredGrid K)
    (hconf : ¬ ConfigurationMissing self input) (hl : Linear input)
    (hside : self.IncludeSidewallCells = true) :
    ((RequestData sqrt self input output).emitted.filter
        (fun e => decide (e.role = Role.sidewall))).length
      = boundaryEdgeCount input.Cells * self.NumberOfSubLayers
    ∧ (boundaryEdgeCount input.Cells = 0 →
        ∀ e ∈ (RequestData sqrt self input output).emitted, e.role ≠ Role.sidewall) := by
  obtain ⟨s, _, _, _, hem, _⟩ :=
    RequestData_ok sqrt self input output hconf (Linear.supported input hl)
  have hlen := length_filter_sidewall_allEmissions self input hl hside
  rw [hem]
  refine ⟨hlen, ?_⟩
  intro hB e he hrole
  rw [hB, Nat.zero_mul, List.length_eq_zero, List.filter_eq_nil_iff] at hlen
  exact hlen e he (by simpa using hrole)

/-- Two triangles sharing an edge have 4 boundary edges and get 8 sidewall cells in 2
sub-layers. -/
theorem RequestData_sidewall_count_witness :
    boundaryEdgeCount twoTrianglesInput.Cells = 4
    ∧ ((RequestData qsqrt gradedGenerator twoTrianglesInput emptyGrid).emitted.filter
        (fun e => decide (e.role = Role.sidewall))).length
      = boundaryEdgeCount twoTrianglesInput.Cells * gradedGenerator.NumberOfSubLayers :=
  ⟨by decide,
    (RequestData_sidewall_count qsqrt gradedGenerator twoTrianglesInput emptyGrid
      graded_not_missing twoTriangles_linear rfl).1⟩

/-- C8. `RequestData` raises one of its configuration or missing-data errors exactly when
the configuration is missing something (`ConfigurationMissing`): the warp-vectors array
name is unset, or the cell-entity-ids array name is unset, or the input has no point array
of the warp name, or neither constant-thickness nor magnitude-as-thickness mode is active
and the thickness array name is unset or the input has no point array of that name. In
every such case the output grid and the `InnerSurface` artifact are as before the call and
no cell is emitted. -/
theorem RequestData_configuration_error (sqrt : K → K) (self : vtkvmtkBoundaryLayerGenerator K)
    (input output : vtkUnstructuredGrid K) :
    ((∃ message ∈ configurationErrors, (RequestData sqrt self input output).error = some message)
        ↔ ConfigurationMissing self input)
    ∧ (ConfigurationMissing self input →
        (RequestData sqrt self input output).output = output
        ∧ (RequestData sqrt self input output).self.InnerSurface = self.InnerSurface
        ∧ (RequestData sqrt self input output).roles = []) :=
  RequestData_configuration sqrt self input output

/-- C9. For every input with a complete configuration and `N ≥ 1` that contains a cell
which is not a Triangle, a Quad or a QuadraticTriangle, `RequestData` raises the
unsupported-element error, the output grid is as before the call (no points, no cells, no
region-tag array are given to it), and the `InnerSurface` artifact is not replaced. -/
theorem RequestData_unsupported_element (sqrt : K → K) (self : vtkvmtkBoundaryLayerGenerator K)
    (input output : vtkUnstructuredGrid K)
    (hconf : ¬ ConfigurationMissing self input)
    (hN : 1 ≤ self.NumberOfSubLayers)
    (hcell : ∃ c ∈ input.Cells,
      ¬ (c.cellType = VTK_TRIANGLE ∨ c.cellType = VTK_QUAD ∨ c.cellType = VTK_QUADRATIC_TRIANGLE)) :
    (RequestData sqrt self input output).error = some unsupportedElementError
    ∧ (RequestData sqrt self input output).output = output
    ∧ (RequestData sqrt self input output).self.InnerSurface = self.InnerSurface
    ∧ (RequestData sqrt self input output).roles = [] :=
  RequestData_unsupported sqrt self input output hconf hN hcell

/-- A polygon with 5 vertices makes the scenario generator raise the unsupported-element
error and leave the output grid empty. -/
theorem RequestData_unsupported_element_witness :
    (RequestData qsqrt scenarioGenerator pentagonInput emptyGrid).error
        = some unsupportedElementError
    ∧ (RequestData qsqrt scenarioGenerator pentagonInput emptyGrid).output = emptyGrid :=
  have h := RequestData_unsupported_element qsqrt scenarioGenerator pentagonInput emptyGrid
    (scenario_not_missing pentagonInput rfl) (by decide)
    ⟨⟨7, [0, 1, 2, 3, 4]⟩, by simp [pentagonInput], by decide⟩
  ⟨h.1, h.2.1⟩

end Claims

/-- C10, evaluated at one quadratic triangle (6 points, `N = 1`, so `L = 12`): the run
succeeds, the outer surface cell references the points 12..17, the output point
`0 + N * L = 12` is the layer-`N` position `(0, 0, 2)` of base vertex 0, but point 0 of
the `InnerSurface` artifact is `(0, 0, 1)`, the output point of index `0 + n * N = 6`. -/
theorem RequestData_quadratic_innerSurface :
    (RequestData qsqrt scenarioGenerator quadraticInput emptyGrid).error = none
    ∧ scenarioGenerator.NumberOfSubLayers * layerBlockSize quadraticInput = 12
    ∧ (RequestData qsqrt scenarioGenerator quadraticInput emptyGrid).output.Cells
        = [⟨VTK_QUADRATIC_TRIANGLE, [0, 1, 2, 3, 4, 5]⟩,
           ⟨VTK_QUADRATIC_WEDGE, [0, 1, 2, 12, 13, 14, 3, 4, 5, 15, 16, 17, 6, 7, 8]⟩,
           ⟨VTK_QUADRATIC_TRIANGLE, [12, 13, 14, 15, 16, 17]⟩]
    ∧ GetPoint (RequestData qsqrt scenarioGenerator quadraticInput emptyGrid).output.Points
        (0 + 12) = ⟨0, 0, 2⟩
    ∧ (RequestData qsqrt scenarioGenerator quadraticInput emptyGrid).self.InnerSurface.map
        (fun g => GetPoint g.Points 0) = some ⟨0, 0, 1⟩ := by
  obtain ⟨s, hcheck, herr, hpts, _, hinner, hcells, _⟩ :=
    RequestData_ok qsqrt scenarioGenerator quadraticInput emptyGrid
      (scenario_not_missing quadraticInput rfl) quadraticInput_supported
  have hs : s = checkedScenarioGenerator := by
    rw [checkArrays_scenario_quadratic] at hcheck
    exact (Prod.mk.inj hcheck).1.symm
  subst hs
  rw [UnwrapSublayers_frozen qsqrt _ _ _ scenario_frozen_quadratic,
    extrudedPoints_quadratic] at hpts hinner
  refine ⟨herr, by decide, ?_, ?_, ?_⟩
  · rw [hcells, allEmissions_quadratic]
  · rw [hpts]; rfl
  · rw [hinner]
    simp [quadraticInput, scenarioGenerator, New, range_six, SetNumberOfPoints, SetPoint, GetPoint,
      List.replicate]

/-! ## The single-vertex update of `UnwrapSublayers` -/

section Relaxation

variable {K : Type} [LinearOrderedField K]

theorem Vec3.sub_def (a b : Vec3 K) : a - b = ⟨a.x - b.x, a.y - b.y, a.z - b.z⟩ := rfl

theorem Norm_sub (sqrt : K → K) (a b : Vec3 K) :
    Norm sqrt (a - b) = sqrt (Distance2BetweenPoints a b) := rfl

theorem relaxedPoint_eq (sqrt : K → K) (P V B : Vec3 K) :
    relaxedPoint sqrt P V B =
      V + Vec3.smul (sqrt (Distance2BetweenPoints P V))
        (let nd := (Normalize sqrt (P + Vec3.smul (1 / 10) (B - P) - V)).1
         if Dot nd (Normalize sqrt (P - V)).1 < 0 then ⟨nd.x * -1, nd.y * -1, nd.z * -1⟩ else nd) := by
  unfold relaxedPoint
  simp only [one_mul, add_sub_cancel]

theorem Distance2BetweenPoints_eq_zero (a b : Vec3 K) :
    Distance2BetweenPoints a b = 0 ↔ a = b := by
  rw [Vec3.ext_iff']
  unfold Distance2BetweenPoints
  constructor
  · intro h
    have hx := mul_self_nonneg (a.x - b.x)
    have hy := mul_self_nonneg (a.y - b.y)
    have hz := mul_self_nonneg (a.z - b.z)
    refine ⟨?_, ?_, ?_⟩
    · have : (a.x - b.x) * (a.x - b.x) = 0 := by linarith
      exact sub_eq_zero.mp (mul_self_eq_zero.mp this)
    · have : (a.y - b.y) * (a.y - b.y) = 0 := by linarith
      exact sub_eq_zero.mp (mul_self_eq_zero.mp this)
    · have : (a.z - b.z) * (a.z - b.z) = 0 := by linarith
      exact sub_eq_zero.mp (mul_self_eq_zero.mp this)
  · rintro ⟨hx, hy, hz⟩
    rw [hx, hy, hz]; ring

theorem Normalize_sub_fst (sqrt : K → K) (a b : Vec3 K)
    (h : sqrt (Distance2BetweenPoints a b) ≠ 0) :
    (Normalize sqrt (a - b)).1 = (a - b).sdiv (sqrt (Distance2BetweenPoints a b)) := by
  unfold Normalize
  simp only [Norm_sub]
  rw [if_pos h]

/-- A vertex at the barycenter of its neighbours is not moved. -/
theorem relaxedPoint_fixed (sqrt : K → K) (P V : Vec3 K)
    (hs : IsSqrtAt sqrt (Distance2BetweenPoints P V)) (hne : P ≠ V) :
    relaxedPoint sqrt P V P = P := by
  rw [relaxedPoint_eq]
  have hQ : P + Vec3.smul (1 / 10) (P - P) = P := by
    rw [Vec3.ext_iff']
    simp [Vec3.smul, Vec3.sub_def, Vec3.add_def]
  rw [hQ]
  set s := sqrt (Distance2BetweenPoints P V) with hsd
  have hs0 : s ≠ 0 := by
    intro h0
    have := hs.2
    rw [← hsd, h0, mul_zero] at this
    exact hne ((Distance2BetweenPoints_eq_zero P V).mp this.symm)
  rw [Normalize_sub_fst sqrt P V hs0, ← hsd]
  have hss : (P.x - V.x) * (P.x - V.x) + (P.y - V.y) * (P.y - V.y) + (P.z - V.z) * (P.z - V.z) = s * s := hs.2.symm
  have hdot : ¬ Dot ((P - V).sdiv s) ((P - V).sdiv s) < 0 := by
    simp only [Dot, Vec3.sdiv, Vec3.sub_def, not_lt]
    have h1 := mul_self_nonneg ((P.x - V.x) / s)
    have h2 := mul_self_nonneg ((P.y - V.y) / s)
    have h3 := mul_self_nonneg ((P.z - V.z) / s)
    linarith
  simp only []
  rw [if_neg hdot, Vec3.ext_iff']
  simp only [Vec3.smul, Vec3.sdiv, Vec3.sub_def, Vec3.add_def]
  refine ⟨?_, ?_, ?_⟩ <;> field_simp

theorem relaxedPoint_dot_nonneg (sqrt : K → K) (P V B : Vec3 K) :
    0 ≤ Dot (relaxedPoint sqrt P V B - V) (P - V) := by
  rw [relaxedPoint_eq]
  set nd := (Normalize sqrt (P + Vec3.smul (1 / 10) (B - P) - V)).1 with hnd
  set s := sqrt (Distance2BetweenPoints P V) with hs
  have hdir : (Normalize sqrt (P - V)).1 = if s ≠ 0 then (P - V).sdiv s else P - V := by
    unfold Normalize
    simp only [Norm_sub, ← hs]
    split <;> rfl
  by_cases h0 : s = 0
  · simp only [h0, Dot, Vec3.smul, Vec3.sub_def, Vec3.add_def]
    simp
  · rw [hdir, if_pos h0]
    simp only []
    split
    · rename_i hlt
      simp only [Dot, Vec3.smul, Vec3.sdiv, Vec3.sub_def, Vec3.add_def] at hlt ⊢
      have : (V.x + s * (nd.x * -1) - V.x) * (P.x - V.x) + (V.y + s * (nd.y * -1) - V.y) * (P.y - V.y) +
          (V.z + s * (nd.z * -1) - V.z) * (P.z - V.z) =
          s * s * -(nd.x * ((P.x - V.x) / s) + nd.y * ((P.y - V.y) / s) + nd.z * ((P.z - V.z) / s)) := by
        field_simp; ring
      rw [this]
      exact mul_nonneg (mul_self_nonneg s) (by linarith)
    · rename_i hlt
      simp only [Dot, Vec3.smul, Vec3.sdiv, Vec3.sub_def, Vec3.add_def] at hlt ⊢
      have : (V.x + s * nd.x - V.x) * (P.x - V.x) + (V.y + s * nd.y - V.y) * (P.y - V.y) +
          (V.z + s * nd.z - V.z) * (P.z - V.z) =
          s * s * (nd.x * ((P.x - V.x) / s) + nd.y * ((P.y - V.y) / s) + nd.z * ((P.z - V.z) / s)) := by
        field_simp; ring
      rw [this]
      exact mul_nonneg (mul_self_nonneg s) (by linarith)

/-- A property of the point list kept by every single-vertex update is kept by the whole
relaxation. -/
theorem UnwrapSublayers_invariant (sqrt : K → K) (self : vtkvmtkBoundaryLayerGenerator K)
    (input : vtkUnstructuredGrid K) (Inv : List (Vec3 K) → Prop)
    (h : ∀ pts i j, 1 ≤ i → i ≤ self.NumberOfSubLayers → j < input.GetNumberOfPoints →
      Inv pts → Inv (relaxPoint sqrt input pts i j)) (pts : List (Vec3 K)) (h0 : Inv pts) :
    Inv (self.UnwrapSublayers sqrt input pts) := by
  unfold UnwrapSublayers
  apply foldl_invariant Inv _ _ _ pts h0
  intro b _ _ hb
  unfold unwrapPass
  apply foldl_invariant Inv _ _ _ b hb
  intro b' i hi hb'
  apply foldl_invariant Inv _ _ _ b' hb'
  intro b'' j hj hb''
  rw [List.mem_range'_1] at hi
  exact h b'' i j hi.1 (by omega) (List.mem_range.mp hj) hb''

theorem relaxPoint_cases (sqrt : K → K) (input : vtkUnstructuredGrid K)
    (pts : List (Vec3 K)) (i j : Nat) :
    (2 ≤ (neighborIds input i j).2.length ∧ relaxPoint sqrt input pts i j = pts)
    ∨ ((neighborIds input i j).2.length < 2 ∧ relaxPoint sqrt input pts i j
        = pts.set (j + i * input.GetNumberOfPoints)
            (relaxedPoint sqrt (GetPoint pts (j + i * input.GetNumberOfPoints))
              (GetPoint pts (j + i * input.GetNumberOfPoints - input.GetNumberOfPoints))
              (barycenter pts (neighborIds input i j).1))) := by
  unfold relaxPoint
  dsimp only
  by_cases h : 2 ≤ (neighborIds input i j).2.length
  · left; exact ⟨h, if_pos h⟩
  · right; exact ⟨by omega, if_neg h⟩

theorem GetPoint_set_ne (pts : List (Vec3 K)) (a b : Nat) (p : Vec3 K) (h : a ≠ b) :
    GetPoint (pts.set a p) b = GetPoint pts b := by
  unfold GetPoint
  rw [List.getD_eq_getElem?_getD, List.getD_eq_getElem?_getD, List.getElem?_set_ne h]

theorem GetPoint_set_eq (pts : List (Vec3 K)) (a : Nat) (p : Vec3 K) (h : a < pts.length) :
    GetPoint (pts.set a p) a = p := by
  unfold GetPoint
  rw [List.getD_eq_getElem?_getD, List.getElem?_set]
  simp [h]

theorem relaxPoint_frame (sqrt : K → K) (input : vtkUnstructuredGrid K)
    (pts : List (Vec3 K)) (i j idx : Nat) (h : idx ≠ j + i * input.GetNumberOfPoints) :
    GetPoint (relaxPoint sqrt input pts i j) idx = GetPoint pts idx := by
  rcases relaxPoint_cases sqrt input pts i j with ⟨_, he⟩ | ⟨_, he⟩
  · rw [he]
  · rw [he, GetPoint_set_ne _ _ _ _ (Ne.symm h)]

theorem UnwrapSublayers_frame (sqrt : K → K) (self : vtkvmtkBoundaryLayerGenerator K)
    (input : vtkUnstructuredGrid K) (pts : List (Vec3 K)) (idx : Nat)
    (h : idx < input.GetNumberOfPoints
      ∨ input.GetNumberOfPoints * (self.NumberOfSubLayers + 1) ≤ idx) :
    GetPoint (self.UnwrapSublayers sqrt input pts) idx = GetPoint pts idx := by
  apply UnwrapSublayers_invariant sqrt self input (fun q => GetPoint q idx = GetPoint pts idx)
    _ pts rfl
  intro q i j h1 h2 hj hq
  rw [relaxPoint_frame, hq]
  have h3 : input.GetNumberOfPoints ≤ i * input.GetNumberOfPoints := Nat.le_mul_of_pos_left _ h1
  have h4 : i * input.GetNumberOfPoints ≤ self.NumberOfSubLayers * input.GetNumberOfPoints :=
    Nat.mul_le_mul_right _ h2
  have h5 : input.GetNumberOfPoints * (self.NumberOfSubLayers + 1)
      = self.NumberOfSubLayers * input.GetNumberOfPoints + input.GetNumberOfPoints := by ring
  omega

theorem copyWarpedPoints_frame (sqrt : K → K) (self : vtkvmtkBoundaryLayerGenerator K)
    (input : vtkUnstructuredGrid K) (k : Nat) (pts : List (Vec3 K)) (idx : Nat)
    (h : idx < input.Points.length) :
    GetPoint (copyWarpedPoints sqrt self input k pts) idx = GetPoint pts idx := by
  unfold copyWarpedPoints
  apply foldl_invariant (fun q => GetPoint q idx = GetPoint pts idx) _ _ _ pts rfl
  intro b i _ hb
  simp only [SetPoint]
  rw [GetPoint_set_ne _ _ _ _ (by omega), hb]

theorem extrudedPoints_block_zero (sqrt : K → K) (self : vtkvmtkBoundaryLayerGenerator K)
    (input : vtkUnstructuredGrid K) (idx : Nat) (h : idx < input.Points.length) :
    GetPoint (extrudedPoints sqrt self input) idx = GetPoint input.Points idx := by
  unfold extrudedPoints
  have hbase : GetPoint ((List.range input.Points.length).foldl
      (fun out i => SetPoint out i (GetPoint input.Points i))
      (SetNumberOfPoints (input.Points.length + layerBlockSize input * self.NumberOfSubLayers)))
      idx = GetPoint input.Points idx := by
    have := getD_foldl_set (fun i => GetPoint input.Points i) 0 (0 : Vec3 K)
      (SetNumberOfPoints (input.Points.length + layerBlockSize input * self.NumberOfSubLayers))
      input.Points.length idx
    simp only [Nat.add_zero] at this
    unfold GetPoint SetPoint at *
    rw [this, if_pos]
    · rfl
    · simp [SetNumberOfPoints]
      omega
  apply foldl_invariant (fun q => GetPoint q idx = GetPoint input.Points idx) _ _ _ _ hbase
  intro b k _ hb
  rw [copyWarpedPoints_frame sqrt self input k b idx h, hb]

end Relaxation

/-! ## The region tags of the emitted cells -/

section TagLemmas

variable {K : Type} [LinearOrderedField K]

theorem forEach_invariant {S : Type} (P : S → Prop) (body : Nat → S → Option S) (l : List Nat)
    (h : ∀ i ∈ l, ∀ s s', P s → body i s = some s' → P s') :
    ∀ s s', P s → forEach body l s = some s' → P s' := by
  induction l with
  | nil =>
    intro s s' hs he
    simp only [forEach, Option.some.injEq] at he
    rw [← he]; exact hs
  | cons a rest ih =>
    intro s s' hs he
    simp only [forEach] at he
    cases hb : body a s with
    | none => rw [hb] at he; cases he
    | some s1 =>
      rw [hb] at he
      exact ih (fun i hi => h i (List.mem_cons_of_mem _ hi)) s1 s'
        (h a (List.mem_cons_self _ _) s s1 hs hb) he

theorem Tagged_emit (self : vtkvmtkBoundaryLayerGenerator K) (b : CellBuffers)
    (hb : Tagged self b) (role : Role)
    (c : List Nat) (t : Nat) :
    Tagged self ⟨b.boundaryLayerCellArray ++ [c], b.boundaryLayerCellTypes ++ [t],
      b.cellEntityIdsArray ++ [tagOf self role], b.roles ++ [role]⟩ := by
  obtain ⟨h1, h2, h3⟩ := hb
  refine ⟨?_, ?_, ?_⟩
  · simp [h1]
  · simp [h2]
  · simp [h3]

theorem Tagged_surfaceCellStep (self : vtkvmtkBoundaryLayerGenerator K)
    (input : vtkUnstructuredGrid K) (offset : Nat) (role : Role) (i : Nat)
    (b b' : CellBuffers) (hb : Tagged self b)
    (h : surfaceCellStep input offset (tagOf self role) role i b = some b') : Tagged self b' := by
  unfold surfaceCellStep at h
  dsimp only at h
  cases hsw : surfaceSwitch (input.GetCellType i) (input.GetCellPoints i) offset with
  | none => rw [hsw] at h; cases h
  | some r =>
    rw [hsw] at h
    simp only [Option.some.injEq] at h
    rw [← h]
    exact Tagged_emit self b hb role _ _

theorem Tagged_linearSidewalls (self : vtkvmtkBoundaryLayerGenerator K)
    (input : vtkUnstructuredGrid K) (i : Nat) (pts prismPts : List Nat)
    (b : CellBuffers) (hb : Tagged self b) :
    Tagged self (linearSidewalls self input i pts prismPts b) := by
  unfold linearSidewalls
  apply foldl_invariant (Tagged self) _ _ _ b hb
  intro b' j _ hb'
  dsimp only
  split
  · exact hb'
  · exact Tagged_emit self b' hb' Role.sidewall _ _

theorem Tagged_quadraticSidewalls (self : vtkvmtkBoundaryLayerGenerator K)
    (input : vtkUnstructuredGrid K) (i : Nat) (pts prismPts : List Nat)
    (b : CellBuffers) (hb : Tagged self b) :
    Tagged self (quadraticSidewalls self input i pts prismPts b) := by
  unfold quadraticSidewalls
  apply foldl_invariant (Tagged self) _ _ _ b hb
  intro b' j _ hb'
  dsimp only
  split
  · exact hb'
  · exact Tagged_emit self b' hb' Role.sidewall _ _

theorem Tagged_volumeCellStep (self : vtkvmtkBoundaryLayerGenerator K)
    (input : vtkUnstructuredGrid K) (L k i : Nat)
    (b b' : CellBuffers) (hb : Tagged self b)
    (h : volumeCellStep self input L k i b = some b') : Tagged self b' := by
  unfold volumeCellStep at h
  dsimp only at h
  by_cases hl : input.GetCellType i = VTK_TRIANGLE ∨ input.GetCellType i = VTK_QUAD
  · rw [if_pos hl] at h
    simp only [Option.some.injEq] at h
    rw [← h]
    have hv : Tagged self (if input.GetCellType i = VTK_TRIANGLE then
        ((b.InsertNextCell ((input.GetCellPoints i).length * 2)
          ((input.GetCellPoints i).map (fun p => p + k * L)
            ++ (input.GetCellPoints i).map (fun p => p + (k + 1) * L))).InsertNextValue
          self.VolumeCellEntityId Role.volume).InsertNextId VTK_WEDGE
      else if input.GetCellType i = VTK_QUAD then
        ((b.InsertNextCell ((input.GetCellPoints i).length * 2)
          ((input.GetCellPoints i).map (fun p => p + k * L)
            ++ (input.GetCellPoints i).map (fun p => p + (k + 1) * L))).InsertNextValue
          self.VolumeCellEntityId Role.volume).InsertNextId VTK_HEXAHEDRON
      else (b.InsertNextCell ((input.GetCellPoints i).length * 2)
          ((input.GetCellPoints i).map (fun p => p + k * L)
            ++ (input.GetCellPoints i).map (fun p => p + (k + 1) * L))).InsertNextValue
          self.VolumeCellEntityId Role.volume) := by
      rcases hl with hl | hl
      · rw [if_pos hl]
        exact Tagged_emit self b hb Role.volume _ _
      · have hne : input.GetCellType i ≠ VTK_TRIANGLE := by rw [hl]; decide
        rw [if_neg hne, if_pos hl]
        exact Tagged_emit self b hb Role.volume _ _
    split
    · exact Tagged_linearSidewalls self input i _ _ _ hv
    · exact hv
  · rw [if_neg hl] at h
    by_cases hq : input.GetCellType i = VTK_QUADRATIC_TRIANGLE
    · rw [if_pos hq] at h
      simp only [Option.some.injEq] at h
      rw [← h]
      have hv : Tagged self (((b.InsertNextId VTK_QUADRATIC_WEDGE).InsertNextCell
          ((input.GetCellPoints i).length * 3 - 3)
          (quadraticPrismPts (input.GetCellPoints i) k L)).InsertNextValue
          self.VolumeCellEntityId Role.volume) :=
        Tagged_emit self b hb Role.volume _ _
      split
      · exact Tagged_quadraticSidewalls self input i _ _ _ hv
      · exact hv
    · rw [if_neg hq] at h; cases h

theorem Tagged_subLayerStep (sqrt : K → K) (self : vtkvmtkBoundaryLayerGenerator K)
    (input : vtkUnstructuredGrid K) (L : Nat) (q : Bool) (k : Nat)
    (s s' : List (Vec3 K) × CellBuffers) (hs : Tagged self s.2)
    (h : subLayerStep sqrt self input L q k s = some s') : Tagged self s'.2 := by
  unfold subLayerStep at h
  dsimp only at h
  cases hv : forEach (volumeCellStep self input L k) (List.range input.GetNumberOfCells) s.2 with
  | none => rw [hv] at h; cases h
  | some b =>
    rw [hv] at h
    have hb : Tagged self b := forEach_invariant (Tagged self) _ _
      (fun i _ b1 b2 h1 h2 => Tagged_volumeCellStep self input L k i b1 b2 h1 h2) s.2 b hs hv
    dsimp only at h
    by_cases hinc : self.IncludeSurfaceCells = true
    · rw [if_pos hinc] at h
      by_cases hk : k = self.NumberOfSubLayers - 1
      · rw [if_pos hk] at h
        cases ho : forEach (surfaceCellStep input (k * L + L) self.OuterSurfaceCellEntityId
            Role.outerSurface) (List.range input.GetNumberOfCells) b with
        | none => rw [ho] at h; cases h
        | some b2 =>
          rw [ho] at h
          simp only [Option.some.injEq] at h
          rw [← h]
          exact forEach_invariant (Tagged self) _ _
            (fun i _ b1 b2 h1 h2 =>
              Tagged_surfaceCellStep self input (k * L + L) Role.outerSurface i b1 b2 h1 h2)
            b b2 hb ho
      · rw [if_neg hk] at h
        simp only [Option.some.injEq] at h
        rw [← h]; exact hb
    · rw [if_neg hinc] at h
      simp only [Option.some.injEq] at h
      rw [← h]; exact hb

theorem Tagged_buildLayers (sqrt : K → K) (self : vtkvmtkBoundaryLayerGenerator K)
    (input : vtkUnstructuredGrid K) (pts : List (Vec3 K)) (b : CellBuffers)
    (h : buildLayers sqrt self input = some (pts, b)) : Tagged self b := by
  unfold buildLayers at h
  dsimp only at h
  have h0 : Tagged self ⟨[], [], [], []⟩ := ⟨rfl, rfl, rfl⟩
  generalize hcap : (if self.IncludeSurfaceCells = true then
      forEach (surfaceCellStep input 0 self.InnerSurfaceCellEntityId Role.innerSurface)
        (List.range input.GetNumberOfCells) ⟨[], [], [], []⟩
    else some ⟨[], [], [], []⟩) = capped at h
  cases capped with
  | none => cases h
  | some b0 =>
    dsimp only at h
    have hb0 : Tagged self b0 := by
      by_cases hinc : self.IncludeSurfaceCells = true
      · rw [if_pos hinc] at hcap
        exact forEach_invariant (Tagged self) _ _
          (fun i _ b1 b2 h1 h2 =>
            Tagged_surfaceCellStep self input 0 Role.innerSurface i b1 b2 h1 h2) _ b0 h0 hcap
      · rw [if_neg hinc] at hcap
        simp only [Option.some.injEq] at hcap
        rw [← hcap]; exact h0
    exact forEach_invariant (fun s : List (Vec3 K) × CellBuffers => Tagged self s.2) _ _
      (fun k _ s1 s2 h1 h2 => Tagged_subLayerStep sqrt self input _ _ k s1 s2 h1 h2)
      _ (pts, b) hb0 h

theorem checkArrays_tagOf (self s : vtkvmtkBoundaryLayerGenerator K)
    (input : vtkUnstructuredGrid K) (h : checkArrays self input = (s, none)) :
    tagOf s = tagOf self ∧ s.CellEntityIdsArrayName = self.CellEntityIdsArrayName
      ∧ s.NumberOfSubLayers = self.NumberOfSubLayers := by
  obtain ⟨_, hsame, _, _⟩ := checkArrays_ok self s input h
  refine ⟨?_, by rw [hsame], by rw [hsame]⟩
  funext r
  cases r <;> rw [hsame] <;> rfl

/-- A run without error went through the checks and the layer construction. -/
theorem RequestData_built (sqrt : K → K) (self : vtkvmtkBoundaryLayerGenerator K)
    (input output : vtkUnstructuredGrid K)
    (hok : (RequestData sqrt self input output).error = none) :
    ∃ s pts b, checkArrays self input = (s, none) ∧ buildLayers sqrt s input = some (pts, b)
      ∧ (RequestData sqrt self input output).output.Points = s.UnwrapSublayers sqrt input pts
      ∧ (RequestData sqrt self input output).output.Cells
          = SetCells b.boundaryLayerCellTypes b.boundaryLayerCellArray
      ∧ (RequestData sqrt self input output).output.CellData
          = AddArray output.CellData (self.CellEntityIdsArrayName.getD "") b.cellEntityIdsArray
      ∧ (RequestData sqrt self input output).roles = b.roles
      ∧ (RequestData sqrt self input output).self.CellEntityIdsArrayName
          = self.CellEntityIdsArrayName := by
  cases hc : checkArrays self input with
  | mk s m =>
    cases m with
    | some msg =>
      unfold RequestData at hok
      rw [hc] at hok
      cases hok
    | none =>
      obtain ⟨_, hname, _⟩ := checkArrays_tagOf self s input hc
      cases hb : buildLayers sqrt s input with
      | none =>
        unfold RequestData at hok
        rw [hc] at hok
        dsimp only at hok
        rw [hb] at hok
        cases hok
      | some r =>
        obtain ⟨pts, b⟩ := r
        refine ⟨s, pts, b, rfl, hb, ?_, ?_, ?_, ?_, ?_⟩
        all_goals unfold RequestData
        all_goals rw [hc]
        all_goals dsimp only
        all_goals rw [hb]
        · rw [← hname]
        · exact hname

theorem length_setCells (types : List Nat) (cells : List (List Nat))
    (h : cells.length = types.length) : (SetCells types cells).length = types.length := by
  unfold SetCells
  rw [List.length_zipWith, h, Nat.min_self]

theorem RequestData_tagged (sqrt : K → K) (self : vtkvmtkBoundaryLayerGenerator K)
    (input output : vtkUnstructuredGrid K)
    (hok : (RequestData sqrt self input output).error = none) :
    (RequestData sqrt self input output).output.Cells.length
        = (RequestData sqrt self input output).roles.length
    ∧ (GetArray (RequestData sqrt self input output).output.CellData
          ((RequestData sqrt self input output).self.CellEntityIdsArrayName.getD ""))
        = some ((RequestData sqrt self input output).roles.map (tagOf self)) := by
  obtain ⟨s, pts, b, hc, hb, _, hcells, hdata, hroles, hname⟩ :=
    RequestData_built sqrt self input output hok
  obtain ⟨htag, _, _⟩ := checkArrays_tagOf self s input hc
  obtain ⟨h1, h2, h3⟩ := Tagged_buildLayers sqrt s input pts b hb
  rw [htag] at h3
  rw [hcells, hdata, hroles, hname, getArray_addArray, length_setCells _ _ h1, h2, h3]
  simp

end TagLemmas

/-! ## Block 0 of the output points -/

section BlockZero

variable {K : Type} [LinearOrderedField K]

theorem subLayerStep_block_zero (sqrt : K → K) (self : vtkvmtkBoundaryLayerGenerator K)
    (input : vtkUnstructuredGrid K) (L : Nat) (q : Bool) (k : Nat)
    (s s' : List (Vec3 K) × CellBuffers) (idx : Nat) (hidx : idx < input.Points.length)
    (h : subLayerStep sqrt self input L q k s = some s') :
    GetPoint s'.1 idx = GetPoint s.1 idx := by
  have hpts : GetPoint ((List.range L).foldl
      (fun out i => SetPoint out (i + input.Points.length + k * L)
        (GetPoint (self.WarpPoints sqrt input.Points k q) i)) s.1) idx = GetPoint s.1 idx := by
    apply foldl_invariant (fun p => GetPoint p idx = GetPoint s.1 idx) _ _ _ s.1 rfl
    intro b i _ hb
    simp only [SetPoint]
    rw [GetPoint_set_ne _ _ _ _ (by omega), hb]
  unfold subLayerStep at h
  dsimp only at h
  cases hv : forEach (volumeCellStep self input L k) (List.range input.GetNumberOfCells) s.2 with
  | none => rw [hv] at h; cases h
  | some b =>
    rw [hv] at h
    dsimp only at h
    by_cases hinc : self.IncludeSurfaceCells = true
    · rw [if_pos hinc] at h
      by_cases hk : k = self.NumberOfSubLayers - 1
      · rw [if_pos hk] at h
        cases ho : forEach (surfaceCellStep input (k * L + L) self.OuterSurfaceCellEntityId
            Role.outerSurface) (List.range input.GetNumberOfCells) b with
        | none => rw [ho] at h; cases h
        | some b2 =>
          rw [ho] at h
          simp only [Option.some.injEq] at h
          rw [← h]; exact hpts
      · rw [if_neg hk] at h
        simp only [Option.some.injEq] at h
        rw [← h]; exact hpts
    · rw [if_neg hinc] at h
      simp only [Option.some.injEq] at h
      rw [← h]; exact hpts

theorem buildLayers_block_zero (sqrt : K → K) (self : vtkvmtkBoundaryLayerGenerator K)
    (input : vtkUnstructuredGrid K) (pts : List (Vec3 K)) (b : CellBuffers)
    (idx : Nat) (hidx : idx < input.Points.length)
    (h : buildLayers sqrt self input = some (pts, b)) :
    GetPoint pts idx = GetPoint input.Points idx := by
  unfold buildLayers at h
  dsimp only at h
  generalize (if self.IncludeSurfaceCells = true then
      forEach (surfaceCellStep input 0 self.InnerSurfaceCellEntityId Role.innerSurface)
        (List.range input.GetNumberOfCells) ⟨[], [], [], []⟩
    else some ⟨[], [], [], []⟩) = capped at h
  cases capped with
  | none => cases h
  | some b0 =>
    dsimp only at h
    generalize hL : (if decide (input.GetCellType 0 = VTK_QUADRATIC_TRIANGLE) = true
      then 2 * input.Points.length else input.Points.length) = L at h
    have hbase : GetPoint ((List.range input.Points.length).foldl
        (fun out i => SetPoint out i (GetPoint input.Points i))
        (SetNumberOfPoints (input.Points.length + L * self.NumberOfSubLayers)))
        idx = GetPoint input.Points idx := by
      have := getD_foldl_set (fun i => GetPoint input.Points i) 0 (0 : Vec3 K)
        (SetNumberOfPoints (input.Points.length + L * self.NumberOfSubLayers))
        input.Points.length idx
      simp only [Nat.add_zero] at this
      unfold GetPoint SetPoint at *
      rw [this, if_pos]
      · rfl
      · simp [SetNumberOfPoints]
        omega
    exact forEach_invariant
      (fun s : List (Vec3 K) × CellBuffers => GetPoint s.1 idx = GetPoint input.Points idx) _ _
      (fun k _ s1 s2 h1 h2 =>
        (subLayerStep_block_zero sqrt self input _ _ k s1 s2 idx hidx h2).trans h1)
      _ (pts, b) hbase h

theorem getElem_eq_of_GetPoint (p q : List (Vec3 K)) (idx : Nat)
    (hlen : p.length = q.length) (h : GetPoint p idx = GetPoint q idx) : p[idx]? = q[idx]? := by
  unfold GetPoint at h
  rw [List.getD_eq_getElem?_getD, List.getD_eq_getElem?_getD] at h
  by_cases hi : idx < p.length
  · have hq : idx < q.length := by omega
    rw [List.getElem?_eq_getElem hi, List.getElem?_eq_getElem hq] at h ⊢
    simpa using h
  · rw [List.getElem?_eq_none (by omega), List.getElem?_eq_none (by omega)]

end BlockZero

/-! ## The updates of `UnwrapSublayers` one by one -/

section UpdateLemmas

variable {K : Type} [LinearOrderedField K]

theorem foldl_flatMap {α β γ : Type} (f : γ → β → γ) (g : α → List β) (l : List α) (c : γ) :
    (l.flatMap g).foldl f c = l.foldl (fun c a => (g a).foldl f c) c := by
  induction l generalizing c with
  | nil => rfl
  | cons a rest ih => rw [List.flatMap_cons, List.foldl_append, ih, List.foldl_cons]

theorem UnwrapSublayers_eq_foldl (sqrt : K → K) (self : vtkvmtkBoundaryLayerGenerator K)
    (input : vtkUnstructuredGrid K) (pts : List (Vec3 K)) :
    self.UnwrapSublayers sqrt input pts
      = (updateSites self input).foldl (fun p site => relaxPoint sqrt input p site.1 site.2) pts := by
  unfold UnwrapSublayers updateSites unwrapPass
  rw [foldl_flatMap]
  congr 1
  funext p _
  rw [foldl_flatMap]
  congr 1
  funext p i
  rw [List.foldl_map]

theorem UnwrapSublayers_eq_relaxedAfter (sqrt : K → K) (self : vtkvmtkBoundaryLayerGenerator K)
    (input : vtkUnstructuredGrid K) (pts : List (Vec3 K)) :
    self.UnwrapSublayers sqrt input pts
      = relaxedAfter sqrt self input pts (updateSites self input).length := by
  unfold relaxedAfter
  rw [List.take_length, UnwrapSublayers_eq_foldl]

theorem mem_updateSites (self : vtkvmtkBoundaryLayerGenerator K)
    (input : vtkUnstructuredGrid K) (i j : Nat) (h : (i, j) ∈ updateSites self input) :
    1 ≤ i ∧ i ≤ self.NumberOfSubLayers ∧ j < input.GetNumberOfPoints := by
  unfold updateSites at h
  simp only [List.mem_flatMap, List.mem_map, List.mem_range, List.mem_range'_1,
    Prod.mk.injEq] at h
  obtain ⟨_, _, i', hi', j', hj', rfl, rfl⟩ := h
  exact ⟨hi'.1, by omega, hj'⟩

theorem relaxedAfter_zero (sqrt : K → K) (self : vtkvmtkBoundaryLayerGenerator K)
    (input : vtkUnstructuredGrid K) (pts : List (Vec3 K)) :
    relaxedAfter sqrt self input pts 0 = pts := rfl

theorem relaxedAfter_succ (sqrt : K → K) (self : vtkvmtkBoundaryLayerGenerator K)
    (input : vtkUnstructuredGrid K) (pts : List (Vec3 K)) (m : Nat) :
    relaxedAfter sqrt self input pts (m + 1)
      = match (updateSites self input)[m]? with
        | none => relaxedAfter sqrt self input pts m
        | some site => relaxPoint sqrt input (relaxedAfter sqrt self input pts m) site.1 site.2 := by
  unfold relaxedAfter
  rw [List.take_succ, List.foldl_append]
  cases (updateSites self input)[m]? with
  | none => rfl
  | some site => rfl

/-- A property kept by every update the relaxation performs holds after any number of
its updates. -/
theorem relaxedAfter_invariant (sqrt : K → K) (self : vtkvmtkBoundaryLayerGenerator K)
    (input : vtkUnstructuredGrid K) (pts : List (Vec3 K)) (Inv : List (Vec3 K) → Prop)
    (h0 : Inv pts)
    (h : ∀ m i j, (updateSites self input)[m]? = some (i, j) →
      Inv (relaxedAfter sqrt self input pts m) →
      Inv (relaxPoint sqrt input (relaxedAfter sqrt self input pts m) i j)) :
    ∀ m, Inv (relaxedAfter sqrt self input pts m) := by
  intro m
  induction m with
  | zero => exact h0
  | succ m ih =>
    rw [relaxedAfter_succ]
    cases hs : (updateSites self input)[m]? with
    | none => exact ih
    | some site => exact h m site.1 site.2 hs ih

end UpdateLemmas

/-! ## Fixed points and the layer-1 distance -/

section LayerOne

variable {K : Type} [LinearOrderedField K]

theorem set_GetPoint_self (pts : List (Vec3 K)) (a : Nat) : pts.set a (GetPoint pts a) = pts := by
  unfold GetPoint
  apply List.ext_getElem?
  intro k
  rw [List.getElem?_set]
  by_cases h : a = k
  · subst h
    by_cases hl : a < pts.length
    · simp [hl, List.getD_eq_getElem?_getD, List.getElem?_eq_getElem hl]
    · simp [hl, List.getElem?_eq_none (Nat.le_of_not_lt hl)]
  · rw [if_neg h]

/-- An update at a vertex that sits at the barycenter of its horizontal neighbours and
not on its vertical neighbour writes nothing new. -/
theorem relaxPoint_fixed (sqrt : K → K) (input : vtkUnstructuredGrid K)
    (pts : List (Vec3 K)) (i j : Nat)
    (h : (neighborIds input i j).2.length < 2 →
      barycenter pts (neighborIds input i j).1 = GetPoint pts (j + i * input.GetNumberOfPoints)
      ∧ GetPoint pts (j + i * input.GetNumberOfPoints)
          ≠ GetPoint pts (j + i * input.GetNumberOfPoints - input.GetNumberOfPoints)
      ∧ IsSqrtAt sqrt (Distance2BetweenPoints (GetPoint pts (j + i * input.GetNumberOfPoints))
          (GetPoint pts (j + i * input.GetNumberOfPoints - input.GetNumberOfPoints)))) :
    relaxPoint sqrt input pts i j = pts := by
  rcases relaxPoint_cases sqrt input pts i j with ⟨_, he⟩ | ⟨hlt, he⟩
  · exact he
  · obtain ⟨hb, hne, hs⟩ := h hlt
    rw [he, hb, relaxedPoint_fixed sqrt _ _ hs hne, set_GetPoint_self]

end LayerOne

/-! ## The fan examples -/

section FanExamples

theorem qsqrt_mul_self (q : ℚ) (h : 0 ≤ q) : qsqrt (q * q) = q := by
  unfold qsqrt
  rw [Rat.mul_self_num, Rat.mul_self_den, Nat.sqrt_eq]
  have hn : 0 ≤ q.num := Rat.num_nonneg.mpr h
  obtain ⟨n, hn'⟩ := Int.eq_ofNat_of_zero_le hn
  rw [hn']
  have : ((n : ℤ) * (n : ℤ)).toNat = n * n := by
    rw [← Int.natCast_mul]; exact Int.toNat_natCast _
  rw [this, Nat.sqrt_eq]
  have h2 : ((n : ℕ) : ℚ) = ((q.num : ℤ) : ℚ) := by rw [hn']; simp
  rw [h2]
  exact Rat.num_div_den q

theorem qsqrt_of_sq (x q : ℚ) (h : 0 ≤ q) (hx : x = q * q) : qsqrt x = q := by
  rw [hx]; exact qsqrt_mul_self q h

theorem isSqrtAt_qsqrt (x q : ℚ) (h : 0 ≤ q) (hx : x = q * q) : IsSqrtAt qsqrt x := by
  unfold IsSqrtAt
  rw [qsqrt_of_sq x q h hx]
  exact ⟨h, hx.symm⟩

theorem checkArrays_drift : checkArrays driftGenerator skewFan = (checkedDriftGenerator, none) := by
  rfl

theorem neighborIds_symmetricFan : neighborIds symmetricFan 1 0 = ([5, 6, 7], []) := by decide

theorem symmetricFan_rim_frozen :
    ∀ j ∈ [1, 2, 3], 2 ≤ (neighborIds symmetricFan 1 j).2.length := by decide

end FanExamples

/-! ## One relaxation pass on the skew fan -/

section SkewFan

theorem Vec3.sub_mk (a b c d e f : ℚ) : (⟨a, b, c⟩ : Vec3 ℚ) - ⟨d, e, f⟩ = ⟨a - d, b - e, c - f⟩ := rfl
theorem Vec3.add_mk (a b c d e f : ℚ) : (⟨a, b, c⟩ : Vec3 ℚ) + ⟨d, e, f⟩ = ⟨a + d, b + e, c + f⟩ := rfl
theorem Vec3.zero_def : (0 : Vec3 ℚ) = ⟨0, 0, 0⟩ := rfl

theorem relaxPoint_frozen {K : Type} [LinearOrderedField K] (sqrt : K → K)
    (input : vtkUnstructuredGrid K) (pts : List (Vec3 K)) (i j : Nat)
    (h : 2 ≤ (neighborIds input i j).2.length) : relaxPoint sqrt input pts i j = pts := by
  unfold relaxPoint
  dsimp only
  rw [if_pos h]

theorem relaxPoint_written {K : Type} [LinearOrderedField K] (sqrt : K → K)
    (input : vtkUnstructuredGrid K) (pts : List (Vec3 K)) (i j : Nat)
    (h : (neighborIds input i j).2.length < 2) :
    relaxPoint sqrt input pts i j
      = pts.set (j + i * input.GetNumberOfPoints)
          (relaxedPoint sqrt (GetPoint pts (j + i * input.GetNumberOfPoints))
            (GetPoint pts (j + i * input.GetNumberOfPoints - input.GetNumberOfPoints))
            (barycenter pts (neighborIds input i j).1)) := by
  unfold relaxPoint
  dsimp only
  rw [if_neg (by omega)]
  rfl

end SkewFan

/-! ## The spacing of the extruded points -/

section Spacing

variable {K : Type} [LinearOrderedField K]

/-- Block `k+1` of the extruded points holds the warped points of sub-layer `k`. -/
theorem extrudedPoints_layer (sqrt : K → K) (self : vtkvmtkBoundaryLayerGenerator K)
    (input : vtkUnstructuredGrid K) (k i : Nat) (hk : k < self.NumberOfSubLayers)
    (hi : i < layerBlockSize input) :
    GetPoint (extrudedPoints sqrt self input) (i + input.Points.length + k * layerBlockSize input)
      = GetPoint (self.WarpPoints sqrt input.Points k
          (decide (input.GetCellType 0 = VTK_QUADRATIC_TRIANGLE))) i := by
  unfold extrudedPoints
  generalize hbase : (List.range input.Points.length).foldl
      (fun out i => SetPoint out i (GetPoint input.Points i))
      (SetNumberOfPoints (input.Points.length + layerBlockSize input * self.NumberOfSubLayers))
    = base
  have hblen : base.length
      = input.Points.length + layerBlockSize input * self.NumberOfSubLayers := by
    rw [← hbase]
    apply foldl_invariant (fun p : List (Vec3 K) => p.length
      = input.Points.length + layerBlockSize input * self.NumberOfSubLayers) _ _ _
    · simp [SetNumberOfPoints]
    · intro b _ _ hb
      simp [SetPoint, hb]
  have hlen : ∀ m, ((List.range m).foldl
      (fun out k => copyWarpedPoints sqrt self input k out) base).length = base.length := by
    intro m
    apply foldl_invariant (fun p : List (Vec3 K) => p.length = base.length) _ _ _ base rfl
    intro b k _ hb
    rw [length_copyWarpedPoints]; exact hb
  have hcopy : ∀ (m : Nat) (out : List (Vec3 K)) (idx : Nat),
      GetPoint (copyWarpedPoints sqrt self input m out) idx
        = if input.Points.length + m * layerBlockSize input ≤ idx
            ∧ idx < input.Points.length + m * layerBlockSize input + layerBlockSize input
            ∧ idx < out.length
          then GetPoint (self.WarpPoints sqrt input.Points m
            (decide (input.GetCellType 0 = VTK_QUADRATIC_TRIANGLE)))
              (idx - (input.Points.length + m * layerBlockSize input))
          else GetPoint out idx := by
    intro m out idx
    have hb : (fun (acc : List (Vec3 K)) i =>
        SetPoint acc (i + input.Points.length + m * layerBlockSize input)
          (GetPoint (self.WarpPoints sqrt input.Points m
            (decide (input.GetCellType 0 = VTK_QUADRATIC_TRIANGLE))) i))
        = fun acc i => acc.set (i + (input.Points.length + m * layerBlockSize input))
          (GetPoint (self.WarpPoints sqrt input.Points m
            (decide (input.GetCellType 0 = VTK_QUADRATIC_TRIANGLE))) i) := by
      funext acc i
      rw [Nat.add_assoc]; rfl
    unfold copyWarpedPoints
    rw [hb]
    exact getD_foldl_set _ _ _ _ _ _
  have key : ∀ m, m ≤ self.NumberOfSubLayers → k < m →
      GetPoint ((List.range m).foldl (fun out k => copyWarpedPoints sqrt self input k out) base)
          (i + input.Points.length + k * layerBlockSize input)
        = GetPoint (self.WarpPoints sqrt input.Points k
            (decide (input.GetCellType 0 = VTK_QUADRATIC_TRIANGLE))) i := by
    intro m
    induction m with
    | zero => intro _ h; omega
    | succ m ih =>
      intro hm hkm
      rw [List.range_succ, List.foldl_append, List.foldl_cons, List.foldl_nil, hcopy, hlen, hblen]
      have hmul : (m + 1) * layerBlockSize input ≤ self.NumberOfSubLayers * layerBlockSize input :=
        Nat.mul_le_mul_right _ hm
      have hcomm : layerBlockSize input * self.NumberOfSubLayers
          = self.NumberOfSubLayers * layerBlockSize input := Nat.mul_comm _ _
      have hsucc : (m + 1) * layerBlockSize input = m * layerBlockSize input + layerBlockSize input :=
        Nat.succ_mul _ _
      by_cases hkeq : k = m
      · subst hkeq
        rw [if_pos ⟨by omega, by omega, by omega⟩]
        congr 1
        omega
      · have hlt : k < m := by omega
        have hkl : (k + 1) * layerBlockSize input ≤ m * layerBlockSize input :=
          Nat.mul_le_mul_right _ hlt
        have hsk : (k + 1) * layerBlockSize input = k * layerBlockSize input + layerBlockSize input :=
          Nat.succ_mul _ _
        rw [if_neg (by omega)]
        exact ih (by omega) hlt
  exact key self.NumberOfSubLayers (Nat.le_refl _) hk

end Spacing

/-! ## The neighbours that `UnwrapSublayers` records -/

section Neighbors

variable {K : Type} [LinearOrderedField K]

theorem mem_InsertUniqueId (l : List Nat) (id h : Nat) :
    h ∈ InsertUniqueId l id ↔ h ∈ l ∨ h = id := by
  unfold InsertUniqueId
  by_cases hm : id ∈ l
  · rw [if_pos hm]
    constructor
    · intro hh; exact Or.inl hh
    · rintro (hh | hh)
      · exact hh
      · rw [hh]; exact hm
  · rw [if_neg hm]
    simp

theorem nodup_InsertUniqueId (l : List Nat) (id : Nat) (hl : l.Nodup) :
    (InsertUniqueId l id).Nodup := by
  unfold InsertUniqueId
  by_cases hm : id ∈ l
  · rw [if_pos hm]; exact hl
  · rw [if_neg hm]
    rw [List.nodup_append]
    refine ⟨hl, List.nodup_singleton _, ?_⟩
    intro a ha hb
    rw [List.mem_singleton] at hb
    rw [hb] at ha
    exact hm ha

/-- The loop of `UnwrapSublayers` over the points of one cell. -/
theorem neighborIds_inner (input : vtkUnstructuredGrid K) (i j cellId : Nat) (ps : List Nat) :
    ∀ (acc : List Nat × List Nat) (h : Nat),
    let r := ps.foldl (fun (acc : List Nat × List Nat) ptsp =>
      if ptsp = j then acc else
        (InsertUniqueId acc.1 (ptsp + i * input.GetNumberOfPoints),
          if (input.GetCellNeighbors cellId [j, ptsp]).length = 0
          then InsertUniqueId acc.2 (ptsp + i * input.GetNumberOfPoints) else acc.2)) acc
    (h ∈ r.1 ↔ h ∈ acc.1 ∨ ∃ p ∈ ps, p ≠ j ∧ h = p + i * input.GetNumberOfPoints)
    ∧ (h ∈ r.2 ↔ h ∈ acc.2 ∨ ∃ p ∈ ps, p ≠ j
        ∧ (input.GetCellNeighbors cellId [j, p]).length = 0
        ∧ h = p + i * input.GetNumberOfPoints)
    ∧ (acc.1.Nodup → r.1.Nodup) ∧ (acc.2.Nodup → r.2.Nodup) := by
  induction ps with
  | nil => intro acc h; simp
  | cons p rest ih =>
    intro acc h
    simp only [List.foldl_cons]
    by_cases hp : p = j
    · rw [if_pos hp]
      obtain ⟨h1, h2, h3, h4⟩ := ih acc h
      refine ⟨?_, ?_, h3, h4⟩
      · rw [h1]
        simp only [List.mem_cons, exists_eq_or_imp]
        constructor
        · rintro (hh | hh)
          · exact Or.inl hh
          · exact Or.inr (Or.inr hh)
        · rintro (hh | ⟨hne, _⟩ | hh)
          · exact Or.inl hh
          · exact absurd hp hne
          · exact Or.inr hh
      · rw [h2]
        simp only [List.mem_cons, exists_eq_or_imp]
        constructor
        · rintro (hh | hh)
          · exact Or.inl hh
          · exact Or.inr (Or.inr hh)
        · rintro (hh | ⟨hne, _⟩ | hh)
          · exact Or.inl hh
          · exact absurd hp hne
          · exact Or.inr hh
    · rw [if_neg hp]
      obtain ⟨h1, h2, h3, h4⟩ := ih (InsertUniqueId acc.1 (p + i * input.GetNumberOfPoints),
          if (input.GetCellNeighbors cellId [j, p]).length = 0
          then InsertUniqueId acc.2 (p + i * input.GetNumberOfPoints) else acc.2) h
      refine ⟨?_, ?_, ?_, ?_⟩
      · rw [h1]
        simp only [mem_InsertUniqueId, List.mem_cons, exists_eq_or_imp]
        constructor
        · rintro ((hh | hh) | hh)
          · exact Or.inl hh
          · exact Or.inr (Or.inl ⟨hp, hh⟩)
          · exact Or.inr (Or.inr hh)
        · rintro (hh | ⟨_, hh⟩ | hh)
          · exact Or.inl (Or.inl hh)
          · exact Or.inl (Or.inr hh)
          · exact Or.inr hh
      · rw [h2]
        simp only [List.mem_cons, exists_eq_or_imp]
        by_cases hc : (input.GetCellNeighbors cellId [j, p]).length = 0
        · simp only [if_pos hc, mem_InsertUniqueId]
          constructor
          · rintro ((hh | hh) | hh)
            · exact Or.inl hh
            · exact Or.inr (Or.inl ⟨hp, hc, hh⟩)
            · exact Or.inr (Or.inr hh)
          · rintro (hh | ⟨_, _, hh⟩ | hh)
            · exact Or.inl (Or.inl hh)
            · exact Or.inl (Or.inr hh)
            · exact Or.inr hh
        · simp only [if_neg hc]
          constructor
          · rintro (hh | hh)
            · exact Or.inl hh
            · exact Or.inr (Or.inr hh)
          · rintro (hh | ⟨_, hc', _⟩ | hh)
            · exact Or.inl hh
            · exact absurd hc' hc
            · exact Or.inr hh
      · intro hn
        exact h3 (nodup_InsertUniqueId _ _ hn)
      · intro hn
        apply h4
        show (if (input.GetCellNeighbors cellId [j, p]).length = 0
          then InsertUniqueId acc.2 (p + i * input.GetNumberOfPoints) else acc.2).Nodup
        split
        · exact nodup_InsertUniqueId _ _ hn
        · exact hn

/-- The loops of `UnwrapSublayers` over the cells incident to `j` and their points. -/
theorem neighborIds_outer (input : vtkUnstructuredGrid K) (i j : Nat) (cs : List Nat) :
    ∀ (acc : List Nat × List Nat) (h : Nat),
    let r := cs.foldl (fun (acc : List Nat × List Nat) cellId =>
      (input.GetCellPoints cellId).foldl (fun (acc : List Nat × List Nat) ptsp =>
        if ptsp = j then acc else
          (InsertUniqueId acc.1 (ptsp + i * input.GetNumberOfPoints),
            if (input.GetCellNeighbors cellId [j, ptsp]).length = 0
            then InsertUniqueId acc.2 (ptsp + i * input.GetNumberOfPoints) else acc.2)) acc) acc
    (h ∈ r.1 ↔ h ∈ acc.1 ∨ ∃ cellId ∈ cs, ∃ p ∈ input.GetCellPoints cellId,
        p ≠ j ∧ h = p + i * input.GetNumberOfPoints)
    ∧ (h ∈ r.2 ↔ h ∈ acc.2 ∨ ∃ cellId ∈ cs, ∃ p ∈ input.GetCellPoints cellId, p ≠ j
        ∧ (input.GetCellNeighbors cellId [j, p]).length = 0
        ∧ h = p + i * input.GetNumberOfPoints)
    ∧ (acc.1.Nodup → r.1.Nodup) ∧ (acc.2.Nodup → r.2.Nodup) := by
  induction cs with
  | nil => intro acc h; simp
  | cons c rest ih =>
    intro acc h
    simp only [List.foldl_cons]
    obtain ⟨a1, a2, a3, a4⟩ := neighborIds_inner input i j c (input.GetCellPoints c) acc h
    obtain ⟨h1, h2, h3, h4⟩ := ih ((input.GetCellPoints c).foldl
      (fun (acc : List Nat × List Nat) ptsp =>
        if ptsp = j then acc else
          (InsertUniqueId acc.1 (ptsp + i * input.GetNumberOfPoints),
            if (input.GetCellNeighbors c [j, ptsp]).length = 0
            then InsertUniqueId acc.2 (ptsp + i * input.GetNumberOfPoints) else acc.2)) acc) h
    refine ⟨?_, ?_, fun hn => h3 (a3 hn), fun hn => h4 (a4 hn)⟩
    · rw [h1, a1]
      simp only [List.mem_cons, exists_eq_or_imp]
      rw [or_assoc]
    · rw [h2, a2]
      simp only [List.mem_cons, exists_eq_or_imp]
      rw [or_assoc]

/-- What `UnwrapSublayers` records for the layer-`i` vertex of base vertex `j`: the ids
are distinct; a horizontal neighbour is the layer-`i` counterpart of another vertex `p`
of a cell that uses `j`; it is on-edge when moreover no other cell uses both `j` and `p`. -/
theorem neighborIds_spec (input : vtkUnstructuredGrid K) (i j h : Nat) :
    (h ∈ (neighborIds input i j).1 ↔ ∃ cellId ∈ input.GetPointCells j,
        ∃ p ∈ input.GetCellPoints cellId, p ≠ j ∧ h = p + i * input.GetNumberOfPoints)
    ∧ (h ∈ (neighborIds input i j).2 ↔ ∃ cellId ∈ input.GetPointCells j,
        ∃ p ∈ input.GetCellPoints cellId, p ≠ j
        ∧ (input.GetCellNeighbors cellId [j, p]).length = 0
        ∧ h = p + i * input.GetNumberOfPoints)
    ∧ (neighborIds input i j).1.Nodup ∧ (neighborIds input i j).2.Nodup := by
  obtain ⟨h1, h2, h3, h4⟩ := neighborIds_outer input i j (input.GetPointCells j) ([], []) h
  refine ⟨?_, ?_, h3 List.nodup_nil, h4 List.nodup_nil⟩
  · have := h1
    simp only [List.not_mem_nil, false_or] at this
    exact this
  · have := h2
    simp only [List.not_mem_nil, false_or] at this
    exact this

end Neighbors

/-! ## The sidewalls of Triangle and Quad cells -/

section LinearSidewalls

variable {K : Type} [LinearOrderedField K]

theorem flatMap_ite_eq_filter_map {α β : Type} (l : List α) (p : α → Prop) [DecidablePred p]
    (f : α → β) :
    l.flatMap (fun a => if p a then [] else [f a]) = (l.filter (fun a => !decide (p a))).map f := by
  induction l with
  | nil => rfl
  | cons a rest ih =>
    rw [List.flatMap_cons, ih, List.filter_cons]
    by_cases h : p a
    · simp [h]
    · simp [h]

theorem getD_linearPrismPts_low (pts : List Nat) (k L j : Nat) (hj : j < pts.length) :
    (linearPrismPts pts k L).getD j 0 = pts.getD j 0 + k * L := by
  unfold linearPrismPts
  rw [List.getD_eq_getElem?_getD, List.getD_eq_getElem?_getD,
    List.getElem?_append_left (by simpa using hj), List.getElem?_map,
    List.getElem?_eq_getElem hj]
  rfl

theorem getD_linearPrismPts_high (pts : List Nat) (k L j : Nat) (hj : j < pts.length) :
    (linearPrismPts pts k L).getD (j + pts.length) 0 = pts.getD j 0 + (k + 1) * L := by
  unfold linearPrismPts
  rw [List.getD_eq_getElem?_getD, List.getD_eq_getElem?_getD,
    List.getElem?_append_right (by simp), List.length_map, Nat.add_sub_cancel,
    List.getElem?_map, List.getElem?_eq_getElem hj]
  rfl

theorem linearSidewallEmissions_spec (self : vtkvmtkBoundaryLayerGenerator K)
    (input : vtkUnstructuredGrid K) (L k i : Nat) :
    linearSidewallEmissions self input i (input.GetCellPoints i)
        (linearPrismPts (input.GetCellPoints i) k L)
      = ((List.range (cellAt input i).pts.length).filter
          (fun j => isBoundaryEdge input.Cells i
            ((cellAt input i).pts.getD j 0,
              (cellAt input i).pts.getD ((j + 1) % (cellAt input i).pts.length) 0))).map
          (specSidewall self L k (cellAt input i)) := by
  unfold linearSidewallEmissions
  rw [flatMap_ite_eq_filter_map]
  simp only [cellAt]
  have hf : (List.range (input.GetCellPoints i).length).filter
      (fun j => !decide ((input.GetCellNeighbors i [(input.GetCellPoints i).getD j 0,
        (input.GetCellPoints i).getD ((j + 1) % (input.GetCellPoints i).length) 0]).length > 0))
      = (List.range (input.GetCellPoints i).length).filter
      (fun j => isBoundaryEdge input.Cells i ((input.GetCellPoints i).getD j 0,
        (input.GetCellPoints i).getD ((j + 1) % (input.GetCellPoints i).length) 0)) := by
    apply List.filter_congr
    intro j _
    rw [isBoundaryEdge_eq]
  rw [hf]
  apply List.map_congr_left
  intro j hj
  have hj' : j < (input.GetCellPoints i).length := List.mem_range.mp (List.mem_filter.mp hj).1
  have hn : (j + 1) % (input.GetCellPoints i).length < (input.GetCellPoints i).length :=
    Nat.mod_lt _ (by omega)
  unfold specSidewall
  simp only []
  rw [getD_linearPrismPts_low _ _ _ _ hj', getD_linearPrismPts_low _ _ _ _ hn,
    getD_linearPrismPts_high _ _ _ _ hj', getD_linearPrismPts_high _ _ _ _ hn]

theorem volumeEmissions_spec (self : vtkvmtkBoundaryLayerGenerator K)
    (input : vtkUnstructuredGrid K) (hl : Linear input) (hside : self.IncludeSidewallCells = true)
    (L k i : Nat) (hi : i < input.Cells.length) :
    volumeEmissions self input L k i = specCellBlock self input.Cells L k i (cellAt input i) := by
  unfold volumeEmissions specCellBlock
  dsimp only
  rw [if_pos (linear_cellType input hl i hi), if_pos hside, linearSidewallEmissions_spec]
  rfl

theorem middleEmissions_spec (self : vtkvmtkBoundaryLayerGenerator K)
    (input : vtkUnstructuredGrid K) (hl : Linear input) (hside : self.IncludeSidewallCells = true) :
    middleEmissions self input
      = (List.range self.NumberOfSubLayers).flatMap (fun k =>
          (List.range input.Cells.length).flatMap (fun i =>
            specCellBlock self input.Cells (layerBlockSize input) k i (cellAt input i))) := by
  unfold middleEmissions
  apply List.flatMap_congr
  intro k _
  apply List.flatMap_congr
  intro i hi
  exact volumeEmissions_spec self input hl hside _ k i (List.mem_range.mp hi)

end LinearSidewalls

/-! ## The symmetric fan -/

section SymmetricFan

theorem relaxedAfter_fixed {K : Type} [LinearOrderedField K] (sqrt : K → K)
    (self : vtkvmtkBoundaryLayerGenerator K) (input : vtkUnstructuredGrid K)
    (pts : List (Vec3 K))
    (h : ∀ i j, 1 ≤ i → i ≤ self.NumberOfSubLayers → j < input.GetNumberOfPoints →
      relaxPoint sqrt input pts i j = pts) (m : Nat) :
    relaxedAfter sqrt self input pts m = pts := by
  apply relaxedAfter_invariant sqrt self input pts (fun p => p = pts) rfl
  intro m' i j hs hinv
  obtain ⟨h1, h2, h3⟩ := mem_updateSites self input i j (List.getElem?_mem hs)
  rw [hinv]
  exact h i j h1 h2 h3

theorem symmetricFan_balanced (i j : Nat) (h1 : 1 ≤ i) (h2 : i ≤ 1) (hj : j < 4)
    (hlt : (neighborIds symmetricFan i j).2.length < 2) :
    barycenter symmetricFanPoints (neighborIds symmetricFan i j).1
        = GetPoint symmetricFanPoints (j + i * symmetricFan.GetNumberOfPoints)
    ∧ GetPoint symmetricFanPoints (j + i * symmetricFan.GetNumberOfPoints)
        ≠ GetPoint symmetricFanPoints
            (j + i * symmetricFan.GetNumberOfPoints - symmetricFan.GetNumberOfPoints)
    ∧ IsSqrtAt qsqrt (Distance2BetweenPoints
        (GetPoint symmetricFanPoints (j + i * symmetricFan.GetNumberOfPoints))
        (GetPoint symmetricFanPoints
          (j + i * symmetricFan.GetNumberOfPoints - symmetricFan.GetNumberOfPoints))) := by
  have hi : i = 1 := by omega
  subst hi
  have hf := symmetricFan_rim_frozen
  simp only [List.mem_cons, List.mem_singleton, List.not_mem_nil, or_false, forall_eq_or_imp,
    forall_eq, and_true] at hf
  obtain ⟨f1, f2, f3⟩ := hf
  have hj0 : j = 0 := by
    rcases (by omega : j = 0 ∨ j = 1 ∨ j = 2 ∨ j = 3) with h | h | h | h
    · exact h
    · subst h; omega
    · subst h; omega
    · subst h; omega
  subst hj0
  rw [neighborIds_symmetricFan]
  have hP : GetPoint symmetricFanPoints (0 + 1 * symmetricFan.GetNumberOfPoints) = ⟨0, 0, 2⟩ := rfl
  have hV : GetPoint symmetricFanPoints
      (0 + 1 * symmetricFan.GetNumberOfPoints - symmetricFan.GetNumberOfPoints) = ⟨0, 0, 0⟩ := rfl
  rw [hP, hV]
  refine ⟨?_, ?_, ?_⟩
  · simp only [barycenter, List.foldl_cons, List.foldl_nil, List.length_cons, List.length_nil]
    have h5 : GetPoint symmetricFanPoints 5 = ⟨2, 0, 2⟩ := rfl
    have h6 : GetPoint symmetricFanPoints 6 = ⟨-1, 1, 2⟩ := rfl
    have h7 : GetPoint symmetricFanPoints 7 = ⟨-1, -1, 2⟩ := rfl
    rw [h5, h6, h7, Vec3.ext_iff']
    simp only [Vec3.zero_def, Vec3.add_mk, Vec3.sdiv]
    norm_num
  · intro h
    have := congrArg Vec3.z h
    norm_num at this
  · exact isSqrtAt_qsqrt _ 2 (by norm_num) (by simp only [Distance2BetweenPoints]; norm_num)

end SymmetricFan

/-! ## Frozen vertices in the whole relaxation -/

section FrozenVertex

variable {K : Type} [LinearOrderedField K]

theorem Dot_self_nonneg (v : Vec3 K) : 0 ≤ Dot v v := by
  unfold Dot
  have h1 := mul_self_nonneg v.x
  have h2 := mul_self_nonneg v.y
  have h3 := mul_self_nonneg v.z
  linarith

theorem site_index_ne (n i j i' j' : Nat) (hj : j < n) (hj' : j' < n)
    (hne : ¬ (i' = i ∧ j' = j)) : j + i * n ≠ j' + i' * n := by
  intro h
  apply hne
  rcases Nat.lt_trichotomy i' i with hlt | heq | hgt
  · have := Nat.mul_le_mul_right n (Nat.succ_le_of_lt hlt)
    rw [Nat.succ_mul] at this
    omega
  · subst heq
    exact ⟨rfl, by omega⟩
  · have := Nat.mul_le_mul_right n (Nat.succ_le_of_lt hgt)
    rw [Nat.succ_mul] at this
    omega

/-- A layer vertex whose base vertex has two or more on-edge neighbours is where it was
after the whole relaxation. -/
theorem UnwrapSublayers_frozen_vertex (sqrt : K → K) (self : vtkvmtkBoundaryLayerGenerator K)
    (input : vtkUnstructuredGrid K) (i j : Nat) (hj : j < input.GetNumberOfPoints)
    (h : 2 ≤ (neighborIds input i j).2.length) (pts : List (Vec3 K)) :
    GetPoint (self.UnwrapSublayers sqrt input pts) (j + i * input.GetNumberOfPoints)
      = GetPoint pts (j + i * input.GetNumberOfPoints) := by
  apply UnwrapSublayers_invariant sqrt self input
    (fun q => GetPoint q (j + i * input.GetNumberOfPoints)
      = GetPoint pts (j + i * input.GetNumberOfPoints)) _ pts rfl
  intro q i' j' _ _ hj' hq
  by_cases hsite : i' = i ∧ j' = j
  · obtain ⟨hi, hjj⟩ := hsite
    subst hi; subst hjj
    rw [relaxPoint_frozen sqrt input q i' j' h]
    exact hq
  · rw [relaxPoint_frame sqrt input q i' j' _ (site_index_ne _ i j i' j' hj hj' hsite)]
    exact hq

theorem relaxPoint_dot_nonneg (sqrt : K → K) (input : vtkUnstructuredGrid K)
    (pts : List (Vec3 K)) (i j : Nat) :
    0 ≤ Dot (GetPoint (relaxPoint sqrt input pts i j) (j + i * input.GetNumberOfPoints)
          - GetPoint pts (j + i * input.GetNumberOfPoints - input.GetNumberOfPoints))
        (GetPoint pts (j + i * input.GetNumberOfPoints)
          - GetPoint pts (j + i * input.GetNumberOfPoints - input.GetNumberOfPoints)) := by
  rcases relaxPoint_cases sqrt input pts i j with ⟨_, he⟩ | ⟨_, he⟩
  · rw [he]; exact Dot_self_nonneg _
  · rw [he]
    by_cases hlen : j + i * input.GetNumberOfPoints < pts.length
    · rw [GetPoint_set_eq _ _ _ hlen]
      exact relaxedPoint_dot_nonneg sqrt _ _ _
    · rw [List.set_eq_of_length_le (Nat.le_of_not_lt hlen)]
      exact Dot_self_nonneg _

end FrozenVertex

/-! ## The runs on the fans -/

section FanRuns

variable {K : Type} [LinearOrderedField K]

/-- The run on a Triangle/Quad input whose checks pass: its output points are the state
after all the updates of the relaxation of the extruded points. -/
theorem RequestData_points_relaxedAfter (sqrt : K → K) (self s : vtkvmtkBoundaryLayerGenerator K)
    (input output : vtkUnstructuredGrid K) (hl : Linear input)
    (hs : checkArrays self input = (s, none)) :
    (RequestData sqrt self input output).error = none
    ∧ (RequestData sqrt self input output).output.Points
      = relaxedAfter sqrt s input (extrudedPoints sqrt s input) (updateSites s input).length := by
  obtain ⟨hconf, _⟩ := checkArrays_ok self s input hs
  obtain ⟨s', hc, herr, hpts, _⟩ :=
    RequestData_ok sqrt self input output hconf (Linear.supported input hl)
  rw [hs] at hc
  have : s' = s := (Prod.mk.inj hc).1.symm
  subst this
  exact ⟨herr, by rw [hpts, UnwrapSublayers_eq_relaxedAfter]⟩

end FanRuns

/-! ## On-edge neighbours on triangle meshes -/

section TriangleNeighbors

variable {K : Type} [LinearOrderedField K]

theorem mem_GetPointCells (input : vtkUnstructuredGrid K) (j c : Nat) :
    c ∈ input.GetPointCells j ↔ c < input.Cells.length ∧ j ∈ input.GetCellPoints c := by
  unfold vtkUnstructuredGrid.GetPointCells vtkUnstructuredGrid.GetNumberOfCells
  simp [List.mem_filter]

theorem neighbors_zero_iff (input : vtkUnstructuredGrid K) (c a b : Nat) :
    (input.GetCellNeighbors c [a, b]).length = 0 ↔ isBoundaryEdge input.Cells c (a, b) = true := by
  rw [isBoundaryEdge_eq]
  simp only [Bool.not_eq_true', decide_eq_false_iff_not, gt_iff_lt, not_lt, Nat.le_zero]

theorem mem_edges_pts (c : Cell) (a b : Nat) (h : (a, b) ∈ c.edges) : a ∈ c.pts ∧ b ∈ c.pts := by
  unfold Cell.edges at h
  obtain ⟨j, hj, he⟩ := List.mem_map.mp h
  have hj' : j < c.pts.length := List.mem_range.mp hj
  have hn : (j + 1) % c.pts.length < c.pts.length := Nat.mod_lt _ (by omega)
  simp only [Prod.mk.injEq] at he
  constructor
  · rw [← he.1, List.getD_eq_getElem?_getD, List.getElem?_eq_getElem hj']
    exact List.getElem_mem _
  · rw [← he.2, List.getD_eq_getElem?_getD, List.getElem?_eq_getElem hn]
    exact List.getElem_mem _

theorem triangle_edge (c : Cell) (hc : c.pts.length = 3) (j p : Nat) (hj : j ∈ c.pts)
    (hp : p ∈ c.pts) (hne : p ≠ j) : (j, p) ∈ c.edges ∨ (p, j) ∈ c.edges := by
  obtain ⟨t, pts⟩ := c
  simp only at hc hj hp
  match pts, hc with
  | [a, b, d], _ =>
    simp only [List.mem_cons, List.mem_singleton, List.not_mem_nil, or_false] at hj hp
    have he : (Cell.mk t [a, b, d]).edges = [(a, b), (b, d), (d, a)] := by
      simp [Cell.edges, range_three]
    rw [he]
    simp only [List.mem_cons, List.mem_singleton, Prod.mk.injEq, List.not_mem_nil, or_false]
    rcases hj with rfl | rfl | rfl <;> rcases hp with rfl | rfl | rfl <;> simp_all

/-- On a mesh of triangles the on-edge neighbours that `UnwrapSublayers` records are the
layer-`i` counterparts of the neighbours across a mesh-boundary edge. -/
theorem neighborIds_triangle (input : vtkUnstructuredGrid K)
    (ht : ∀ c ∈ input.Cells, c.pts.length = 3) (i j h : Nat) :
    h ∈ (neighborIds input i j).2
      ↔ ∃ p, IsBoundaryNeighbor input j p ∧ h = p + i * input.GetNumberOfPoints := by
  rw [(neighborIds_spec input i j h).2.1]
  constructor
  · rintro ⟨c, hc, p, hp, hne, hnb, hh⟩
    rw [mem_GetPointCells] at hc
    refine ⟨p, ⟨hne, c, hc.1, hc.2, ?_, (neighbors_zero_iff input c j p).mp hnb⟩, hh⟩
    have hlen : (cellAt input c).pts.length = 3 := by
      rw [cellAt_of_lt input c hc.1]
      exact ht _ (List.getElem_mem _)
    exact triangle_edge (cellAt input c) hlen j p hc.2 hp hne
  · rintro ⟨p, ⟨hne, c, hc, hj, hedge, hb⟩, hh⟩
    refine ⟨c, (mem_GetPointCells input j c).mpr ⟨hc, hj⟩, p, ?_, hne,
      (neighbors_zero_iff input c j p).mpr hb, hh⟩
    rcases hedge with he | he
    · exact (mem_edges_pts (cellAt input c) j p he).2
    · exact (mem_edges_pts (cellAt input c) p j he).1

end TriangleNeighbors

/-! ## The quad patch -/

section QuadPatch

theorem quadPatch_edges (c : Nat) (hc : c < quadPatch.Cells.length) (p : Nat)
    (h : (4, p) ∈ (cellAt quadPatch c).edges ∨ (p, 4) ∈ (cellAt quadPatch c).edges) :
    p = 1 ∨ p = 3 ∨ p = 5 ∨ p = 7 := by
  have h4 : quadPatch.Cells.length = 4 := rfl
  rw [h4] at hc
  have e0 : (cellAt quadPatch 0).edges = [(0, 1), (1, 4), (4, 3), (3, 0)] := by decide
  have e1 : (cellAt quadPatch 1).edges = [(1, 2), (2, 5), (5, 4), (4, 1)] := by decide
  have e2 : (cellAt quadPatch 2).edges = [(3, 4), (4, 7), (7, 6), (6, 3)] := by decide
  have e3 : (cellAt quadPatch 3).edges = [(4, 5), (5, 8), (8, 7), (7, 4)] := by decide
  rcases (by omega : c = 0 ∨ c = 1 ∨ c = 2 ∨ c = 3) with rfl | rfl | rfl | rfl
  · rw [e0] at h; simp at h; omega
  · rw [e1] at h; simp at h; omega
  · rw [e2] at h; simp at h; omega
  · rw [e3] at h; simp at h; omega

theorem quadPatch_no_boundary_neighbor (p : Nat) : ¬ IsBoundaryNeighbor quadPatch 4 p := by
  rintro ⟨_, c, hc, _, hedge, hb⟩
  have hp := quadPatch_edges c hc p hedge
  have h4 : quadPatch.Cells.length = 4 := rfl
  rw [h4] at hc
  have hall : ∀ c' ∈ [0, 1, 2, 3], ∀ p' ∈ [1, 3, 5, 7],
      isBoundaryEdge quadPatch.Cells c' (4, p') = false := by decide
  have hc' : c ∈ [0, 1, 2, 3] := by simp; omega
  have hp' : p ∈ [1, 3, 5, 7] := by simp; omega
  rw [hall c hc' p hp'] at hb
  cases hb

end QuadPatch

/-! ## The sidewalls of QuadraticTriangle cells -/

section QuadraticSidewalls

variable {K : Type} [LinearOrderedField K]

theorem twoQuadratic_supported : Supported twoQuadraticInput := by
  unfold Supported; decide

theorem sidewall_not_missing : ¬ ConfigurationMissing sidewallGenerator twoQuadraticInput :=
  not_missing_of_constant sidewallGenerator twoQuadraticInput "Normals" "CellEntityIds"
    upwardWarp rfl rfl rfl rfl

/-- The sidewall loop of a QuadraticTriangle cell with vertex list `p0 .. p5`: the three
pairs handed to `GetCellNeighbors` are `(p0, p1)`, `(p1, p2)` and `(p2, p3)`. -/
theorem quadraticSidewalls_six (self : vtkvmtkBoundaryLayerGenerator K)
    (input : vtkUnstructuredGrid K) (i p0 p1 p2 p3 p4 p5 : Nat) (prismPts : List Nat)
    (b : CellBuffers) :
    quadraticSidewalls self input i [p0, p1, p2, p3, p4, p5] prismPts b
      = b.extend
          ((if (input.GetCellNeighbors i [p0, p1]).length > 0 then []
            else [⟨Role.sidewall, ⟨VTK_QUAD, [prismPts.getD 0 0, prismPts.getD 1 0,
              prismPts.getD 4 0, prismPts.getD 3 0, prismPts.getD 6 0, prismPts.getD 13 0,
              prismPts.getD 9 0, prismPts.getD 12 0]⟩, self.SidewallCellEntityId⟩])
          ++ ((if (input.GetCellNeighbors i [p1, p2]).length > 0 then []
            else [⟨Role.sidewall, ⟨VTK_QUAD, [prismPts.getD 1 0, prismPts.getD 2 0,
              prismPts.getD 5 0, prismPts.getD 4 0, prismPts.getD 7 0, prismPts.getD 14 0,
              prismPts.getD 10 0, prismPts.getD 13 0]⟩, self.SidewallCellEntityId⟩])
          ++ (if (input.GetCellNeighbors i [p2, p3]).length > 0 then []
            else [⟨Role.sidewall, ⟨VTK_QUAD, [prismPts.getD 2 0, prismPts.getD 3 0,
              prismPts.getD 6 0, prismPts.getD 5 0, prismPts.getD 8 0, prismPts.getD 15 0,
              prismPts.getD 11 0, prismPts.getD 14 0]⟩, self.SidewallCellEntityId⟩]))) := by
  rw [quadraticSidewalls_eq]
  unfold quadraticSidewallEmissions
  have h6 : [p0, p1, p2, p3, p4, p5].length = 6 := rfl
  have h3 : 6 / 2 = 3 := by norm_num
  have m1 : (0 + 1) % 6 = 1 := by norm_num
  have m2 : (1 + 1) % 6 = 2 := by norm_num
  have m3 : (2 + 1) % 6 = 3 := by norm_num
  rw [h6, h3, range_three]
  simp only [List.flatMap_cons, List.flatMap_nil, List.append_nil, m1, m2, m3]
  rfl

end QuadraticSidewalls

/-! ## One quadratic triangle with sidewalls -/

section QuadraticReads

variable {K : Type} [LinearOrderedField K]

theorem quadraticSidewallEmissions_reads (self : vtkvmtkBoundaryLayerGenerator K)
    (input : vtkUnstructuredGrid K) (i : Nat) (pts prismPts : List Nat) :
    quadraticSidewallEmissions self input i pts prismPts
      = (List.range (pts.length / 2)).flatMap (fun j =>
          if (input.GetCellNeighbors i
              [pts.getD j 0, pts.getD ((j + 1) % pts.length) 0]).length > 0 then []
          else [⟨Role.sidewall,
            ⟨VTK_QUAD, (quadraticSidewallReads pts.length j).map (fun idx => prismPts.getD idx 0)⟩,
            self.SidewallCellEntityId⟩]) := rfl

theorem quadratic_sidewall_not_missing :
    ¬ ConfigurationMissing sidewallGenerator quadraticInput :=
  not_missing_of_constant sidewallGenerator quadraticInput "Normals" "CellEntityIds"
    upwardWarp rfl rfl rfl rfl

theorem allEmissions_quadratic_sidewalls :
    (allEmissions sidewallGenerator quadraticInput).map (fun e => e.cell)
      = [⟨VTK_QUADRATIC_TRIANGLE, [0, 1, 2, 3, 4, 5]⟩,
         ⟨VTK_QUADRATIC_WEDGE, [0, 1, 2, 12, 13, 14, 3, 4, 5, 15, 16, 17, 6, 7, 8]⟩,
         ⟨VTK_QUAD, [0, 1, 13, 12, 3, 7, 15, 6]⟩,
         ⟨VTK_QUAD, [1, 2, 14, 13, 4, 8, 16, 7]⟩,
         ⟨VTK_QUAD, [2, 12, 3, 14, 5, 0, 17, 8]⟩,
         ⟨VTK_QUADRATIC_TRIANGLE, [12, 13, 14, 15, 16, 17]⟩] := by
  decide

end QuadraticReads

/-! ## Where an emitted cell comes from -/

section EmittedCases

variable {K : Type} [LinearOrderedField K]

/-- Where an emitted cell comes from: a layer-0 surface cell, the cells of an input cell
for a transition, or a layer-`N` surface cell. -/
theorem mem_allEmissions (self : vtkvmtkBoundaryLayerGenerator K)
    (input : vtkUnstructuredGrid K) (e : Emitted) (he : e ∈ allEmissions self input) :
    (∃ i, i < input.Cells.length
        ∧ e ∈ surfaceEmission input 0 self.InnerSurfaceCellEntityId Role.innerSurface i)
    ∨ (∃ k i, k < self.NumberOfSubLayers ∧ i < input.Cells.length
        ∧ e ∈ volumeEmissions self input (layerBlockSize input) k i)
    ∨ (∃ k i, k < self.NumberOfSubLayers ∧ i < input.Cells.length
        ∧ e ∈ surfaceEmission input (k * layerBlockSize input + layerBlockSize input)
            self.OuterSurfaceCellEntityId Role.outerSurface i) := by
  unfold allEmissions vtkUnstructuredGrid.GetNumberOfCells at he
  rcases List.mem_append.mp he with h | h
  · left
    split at h
    · obtain ⟨i, hi, hie⟩ := List.mem_flatMap.mp h
      exact ⟨i, List.mem_range.mp hi, hie⟩
    · cases h
  · right
    obtain ⟨k, hk, hke⟩ := List.mem_flatMap.mp h
    unfold layerEmissions vtkUnstructuredGrid.GetNumberOfCells at hke
    rcases List.mem_append.mp hke with h2 | h2
    · left
      obtain ⟨i, hi, hie⟩ := List.mem_flatMap.mp h2
      exact ⟨k, i, List.mem_range.mp hk, List.mem_range.mp hi, hie⟩
    · right
      split at h2
      · obtain ⟨i, hi, hie⟩ := List.mem_flatMap.mp h2
        exact ⟨k, i, List.mem_range.mp hk, List.mem_range.mp hi, hie⟩
      · cases h2

theorem length_quadraticSidewallEmissions (self : vtkvmtkBoundaryLayerGenerator K)
    (input : vtkUnstructuredGrid K) (i : Nat) (pts prismPts : List Nat) :
    ∀ e ∈ quadraticSidewallEmissions self input i pts prismPts,
      e.role = Role.sidewall ∧ e.cell.cellType = VTK_QUAD ∧ e.cell.pts.length = 8 := by
  intro e he
  unfold quadraticSidewallEmissions at he
  obtain ⟨j, _, hj⟩ := List.mem_flatMap.mp he
  split at hj
  · cases hj
  · rw [List.mem_singleton] at hj
    rw [hj]
    exact ⟨rfl, rfl, rfl⟩

theorem quadraticPrismPts_six (p0 p1 p2 p3 p4 p5 k L : Nat) :
    (quadraticPrismPts [p0, p1, p2, p3, p4, p5] k L).take ([p0, p1, p2, p3, p4, p5].length * 3 - 3)
      = [p0 + k * L, p1 + k * L, p2 + k * L, p0 + k * L + L, p1 + k * L + L, p2 + k * L + L,
         p3 + k * L, p4 + k * L, p5 + k * L, p3 + k * L + L, p4 + k * L + L, p5 + k * L + L,
         p0 + k * L + L / 2, p1 + k * L + L / 2, p2 + k * L + L / 2] := by
  simp [quadraticPrismPts, newIdArray, List.replicate]

/-- The cells that an input cell emits for a transition, by the kind of the input cell. -/
theorem mem_volumeEmissions (self : vtkvmtkBoundaryLayerGenerator K)
    (input : vtkUnstructuredGrid K) (hs : Supported input) (hw : WellFormed input)
    (L k i : Nat) (hi : i < input.Cells.length) (e : Emitted)
    (he : e ∈ volumeEmissions self input L k i) :
    (e.role = Role.volume ∧ (input.Cells[i]).cellType = VTK_TRIANGLE
      ∧ e.cell = ⟨VTK_WEDGE, linearPrismPts (input.Cells[i]).pts k L⟩)
    ∨ (e.role = Role.volume ∧ (input.Cells[i]).cellType = VTK_QUAD
      ∧ e.cell = ⟨VTK_HEXAHEDRON, linearPrismPts (input.Cells[i]).pts k L⟩)
    ∨ (∃ j, j < (input.Cells[i]).pts.length ∧ e = specSidewall self L k (input.Cells[i]) j)
    ∨ (e.role = Role.volume ∧ ∃ p0 p1 p2 p3 p4 p5, (input.Cells[i]).pts = [p0, p1, p2, p3, p4, p5]
      ∧ e.cell = ⟨VTK_QUADRATIC_WEDGE,
          [p0 + k * L, p1 + k * L, p2 + k * L, p0 + k * L + L, p1 + k * L + L, p2 + k * L + L,
           p3 + k * L, p4 + k * L, p5 + k * L, p3 + k * L + L, p4 + k * L + L, p5 + k * L + L,
           p0 + k * L + L / 2, p1 + k * L + L / 2, p2 + k * L + L / 2]⟩)
    ∨ (e.role = Role.sidewall ∧ e.cell.cellType = VTK_QUAD ∧ e.cell.pts.length = 8) := by
  have hc : input.Cells[i] ∈ input.Cells := List.getElem_mem _
  have hT := GetCellType_of_lt input i hi
  have hP := GetCellPoints_of_lt input i hi
  unfold volumeEmissions at he
  dsimp only at he
  by_cases hlin : input.GetCellType i = VTK_TRIANGLE ∨ input.GetCellType i = VTK_QUAD
  · rw [if_pos hlin, List.mem_cons] at he
    rcases he with he | he
    · by_cases ht : input.GetCellType i = VTK_TRIANGLE
      · left
        rw [he, if_pos ht, hP]
        exact ⟨rfl, by rw [← hT]; exact ht, rfl⟩
      · right; left
        have hq : input.GetCellType i = VTK_QUAD := by
          rcases hlin with h | h
          · exact absurd h ht
          · exact h
        rw [he, if_neg ht, hP]
        exact ⟨rfl, by rw [← hT]; exact hq, rfl⟩
    · right; right; left
      split at he
      · rw [linearSidewallEmissions_spec, cellAt_of_lt input i hi] at he
        obtain ⟨j, hj, hje⟩ := List.mem_map.mp he
        exact ⟨j, List.mem_range.mp (List.mem_filter.mp hj).1, hje.symm⟩
      · cases he
  · rw [if_neg hlin] at he
    have hq : input.GetCellType i = VTK_QUADRATIC_TRIANGLE := by
      rcases supported_cellType input hs i hi with h | h | h
      · exact absurd (Or.inl h) hlin
      · exact absurd (Or.inr h) hlin
      · exact h
    rw [if_pos hq, List.mem_cons] at he
    rcases he with he | he
    · right; right; right; left
      have hlen : (input.Cells[i]).pts.length = 6 := (hw _ hc).2.2 (by rw [← hT]; exact hq)
      rw [hP] at he
      generalize input.Cells[i] = c at hlen he ⊢
      obtain ⟨t, pts⟩ := c
      simp only at hlen he ⊢
      match pts, hlen with
      | [p0, p1, p2, p3, p4, p5], _ =>
        refine ⟨by rw [he], p0, p1, p2, p3, p4, p5, rfl, ?_⟩
        rw [he]
        simp only
        rw [quadraticPrismPts_six]
    · right; right; right; right
      split at he
      · exact length_quadraticSidewallEmissions _ _ _ _ _ e he
      · cases he

end EmittedCases

/-! ## Index bounds and node counts of the emitted cells -/

section EmittedBounds

variable {K : Type} [LinearOrderedField K]

theorem layer_index_bound (n L N k p d : Nat) (hp : p < n) (hk : k < N) (hd : d ≤ L) :
    p + k * L + d < n + L * N := by
  have h1 : (k + 1) * L ≤ N * L := Nat.mul_le_mul_right L hk
  rw [Nat.succ_mul] at h1
  rw [Nat.mul_comm L N]
  omega

theorem getD_lt_of_forall (pts : List Nat) (n j : Nat) (h : ∀ p ∈ pts, p < n) (hj : j < pts.length) :
    pts.getD j 0 < n := by
  rw [List.getD_eq_getElem?_getD, List.getElem?_eq_getElem hj]
  exact h _ (List.getElem_mem _)

/-- Every vertex index of an emitted cell other than a quadratic sidewall is below
`n + L * N`. -/
theorem allEmissions_index_bound (self : vtkvmtkBoundaryLayerGenerator K)
    (input : vtkUnstructuredGrid K) (hs : Supported input) (hw : WellFormed input)
    (hidx : ∀ c ∈ input.Cells, ∀ p ∈ c.pts, p < input.Points.length)
    (e : Emitted) (he : e ∈ allEmissions self input)
    (hq : e.role = Role.sidewall → e.cell.pts.length = 4) :
    ∀ p ∈ e.cell.pts,
      p < input.Points.length + layerBlockSize input * self.NumberOfSubLayers := by
  intro p hp
  rcases mem_allEmissions self input e he with ⟨i, hi, hie⟩ | ⟨k, i, hk, hi, hie⟩ | ⟨k, i, hk, hi, hie⟩
  · rw [surfaceEmission_wellFormed input hs hw _ _ _ i hi, List.mem_singleton] at hie
    rw [hie, cellAt_of_lt input i hi] at hp
    simp only [surfaceCell, List.mem_map] at hp
    obtain ⟨q, hq', rfl⟩ := hp
    have := hidx _ (List.getElem_mem _) q hq'
    omega
  · have hc := hidx _ (List.getElem_mem hi)
    have hb : ∀ q d, q < input.Points.length → d ≤ layerBlockSize input →
        q + k * layerBlockSize input + d
          < input.Points.length + layerBlockSize input * self.NumberOfSubLayers :=
      fun q d hq' hd => layer_index_bound _ _ _ k q d hq' hk hd
    rcases mem_volumeEmissions self input hs hw _ k i hi e hie with
      ⟨_, _, hcell⟩ | ⟨_, _, hcell⟩ | ⟨j, hj, hje⟩ | ⟨_, p0, p1, p2, p3, p4, p5, hpts, hcell⟩
        | ⟨hr, _, hl⟩
    · rw [hcell] at hp
      simp only [linearPrismPts, List.mem_append, List.mem_map] at hp
      rcases hp with ⟨q, hq', rfl⟩ | ⟨q, hq', rfl⟩
      · have := hb q 0 (hc q hq') (Nat.zero_le _); omega
      · have := hb q _ (hc q hq') (Nat.le_refl _); rw [Nat.succ_mul]; omega
    · rw [hcell] at hp
      simp only [linearPrismPts, List.mem_append, List.mem_map] at hp
      rcases hp with ⟨q, hq', rfl⟩ | ⟨q, hq', rfl⟩
      · have := hb q 0 (hc q hq') (Nat.zero_le _); omega
      · have := hb q _ (hc q hq') (Nat.le_refl _); rw [Nat.succ_mul]; omega
    · have hn : (j + 1) % (input.Cells[i]).pts.length < (input.Cells[i]).pts.length :=
        Nat.mod_lt _ (by omega)
      have g1 := getD_lt_of_forall _ _ j hc hj
      have g2 := getD_lt_of_forall _ _ _ hc hn
      rw [hje] at hp
      simp only [specSidewall, List.mem_cons, List.mem_singleton, List.not_mem_nil, or_false] at hp
      have a1 := hb _ 0 g1 (Nat.zero_le _)
      have a2 := hb _ 0 g2 (Nat.zero_le _)
      have a3 := hb _ _ g1 (Nat.le_refl _)
      have a4 := hb _ _ g2 (Nat.le_refl _)
      rcases hp with rfl | rfl | rfl | rfl
      · omega
      · omega
      · rw [Nat.succ_mul]; omega
      · rw [Nat.succ_mul]; omega
    · rw [hpts] at hc
      have h0 := hc p0 (by simp)
      have h1 := hc p1 (by simp)
      have h2 := hc p2 (by simp)
      have h3 := hc p3 (by simp)
      have h4 := hc p4 (by simp)
      have h5 := hc p5 (by simp)
      have hhalf : layerBlockSize input / 2 ≤ layerBlockSize input := Nat.div_le_self _ _
      rw [hcell] at hp
      simp only [List.mem_cons, List.mem_singleton, List.not_mem_nil, or_false] at hp
      have z := fun q hq' => hb q 0 hq' (Nat.zero_le _)
      have f := fun q hq' => hb q _ hq' (Nat.le_refl _)
      have m := fun q hq' => hb q _ hq' hhalf
      rcases hp with rfl | rfl | rfl | rfl | rfl | rfl | rfl | rfl | rfl | rfl | rfl | rfl
        | rfl | rfl | rfl
      · have := z _ h0; omega
      · have := z _ h1; omega
      · have := z _ h2; omega
      · exact f _ h0
      · exact f _ h1
      · exact f _ h2
      · have := z _ h3; omega
      · have := z _ h4; omega
      · have := z _ h5; omega
      · exact f _ h3
      · exact f _ h4
      · exact f _ h5
      · exact m _ h0
      · exact m _ h1
      · exact m _ h2
    · have := hq hr
      omega
  · rw [surfaceEmission_wellFormed input hs hw _ _ _ i hi, List.mem_singleton] at hie
    rw [hie, cellAt_of_lt input i hi] at hp
    simp only [surfaceCell, List.mem_map] at hp
    obtain ⟨q, hq', rfl⟩ := hp
    have := layer_index_bound _ _ self.NumberOfSubLayers k q (layerBlockSize input)
      (hidx _ (List.getElem_mem _) q hq') hk (Nat.le_refl _)
    omega

/-- Every emitted cell has the node count of its recorded type, except the sidewalls of
QuadraticTriangle cells: 8 nodes recorded as `VTK_QUAD`. -/
theorem allEmissions_nodeCount (self : vtkvmtkBoundaryLayerGenerator K)
    (input : vtkUnstructuredGrid K) (hs : Supported input) (hw : WellFormed input)
    (e : Emitted) (he : e ∈ allEmissions self input) :
    nodeCount e.cell.cellType = some e.cell.pts.length
    ∨ (e.role = Role.sidewall ∧ e.cell.cellType = VTK_QUAD ∧ e.cell.pts.length = 8) := by
  have hsurf : ∀ (offset : Nat) (id : Int) (role : Role) (i : Nat) (hi : i < input.Cells.length),
      e ∈ surfaceEmission input offset id role i →
      nodeCount e.cell.cellType = some e.cell.pts.length := by
    intro offset id role i hi hie
    rw [surfaceEmission_wellFormed input hs hw _ _ _ i hi, List.mem_singleton] at hie
    rw [hie, cellAt_of_lt input i hi]
    have hc : input.Cells[i] ∈ input.Cells := List.getElem_mem _
    simp only [surfaceCell, List.length_map]
    rcases hs _ hc with h | h | h
    · rw [(hw _ hc).1 h, h]; rfl
    · rw [(hw _ hc).2.1 h, h]; rfl
    · rw [(hw _ hc).2.2 h, h]; rfl
  rcases mem_allEmissions self input e he with ⟨i, hi, hie⟩ | ⟨k, i, hk, hi, hie⟩ | ⟨k, i, hk, hi, hie⟩
  · exact Or.inl (hsurf _ _ _ i hi hie)
  · have hc : input.Cells[i] ∈ input.Cells := List.getElem_mem _
    rcases mem_volumeEmissions self input hs hw _ k i hi e hie with
      ⟨_, ht, hcell⟩ | ⟨_, ht, hcell⟩ | ⟨j, hj, hje⟩ | ⟨_, p0, p1, p2, p3, p4, p5, hpts, hcell⟩
        | h
    · left
      rw [hcell]
      simp only [linearPrismPts, List.length_append, List.length_map, (hw _ hc).1 ht]
      rfl
    · left
      rw [hcell]
      simp only [linearPrismPts, List.length_append, List.length_map, (hw _ hc).2.1 ht]
      rfl
    · left
      rw [hje]
      rfl
    · left
      rw [hcell]
      rfl
    · exact Or.inr h
  · exact Or.inl (hsurf _ _ _ i hi hie)

end EmittedBounds

/-! ## `WarpPoints` in quadratic mode -/

section QuadraticWarp

variable {K : Type} [LinearOrderedField K]

theorem getD_foldl_set_two {α : Type} (a b : Nat → α) (n : Nat) (d : α) (l : List α)
    (hl : l.length = 2 * n) (m : Nat) (hm : m ≤ n) (j : Nat) :
    ((List.range m).foldl (fun acc i => (acc.set i (a i)).set (i + n) (b i)) l).getD j d
      = if j < m then a j else if n ≤ j ∧ j < n + m then b (j - n) else l.getD j d := by
  induction m with
  | zero =>
    have h1 : ¬ j < 0 := by omega
    have h2 : ¬ (n ≤ j ∧ j < n + 0) := by omega
    rw [if_neg h1, if_neg h2]; rfl
  | succ m ih =>
    have hlen : ((List.range m).foldl (fun acc i => (acc.set i (a i)).set (i + n) (b i)) l).length
        = 2 * n :=
      foldl_invariant (fun acc : List α => acc.length = 2 * n) _ _
        (fun acc i _ hacc => by simp [hacc]) l hl
    have ih' := ih (by omega)
    rw [List.range_succ, List.foldl_append, List.foldl_cons, List.foldl_nil]
    rw [List.getD_eq_getElem?_getD, List.getElem?_set, List.length_set, hlen, List.getElem?_set,
      hlen]
    by_cases h1 : m + n = j
    · subst h1
      have c1 : ¬ (m + n < m + 1) := by omega
      have c2 : n ≤ m + n ∧ m + n < n + (m + 1) := by omega
      have c3 : m + n < 2 * n := by omega
      simp [c1, c2, c3]
    · rw [if_neg h1]
      by_cases h2 : m = j
      · subst h2
        have c3 : m < 2 * n := by omega
        simp [c3]
      · rw [if_neg h2, ← List.getD_eq_getElem?_getD, ih']
        split_ifs <;> first | rfl | (exfalso; omega)

theorem WarpPoints_quadratic_getPoint (sqrt : K → K) (self : vtkvmtkBoundaryLayerGenerator K)
    (inputPoints : List (Vec3 K)) (k i : Nat) (hi : i < inputPoints.length) :
    GetPoint (self.WarpPoints sqrt inputPoints k true) i
        = warpedPoint sqrt self inputPoints k (1 / 2) i
    ∧ GetPoint (self.WarpPoints sqrt inputPoints k true) (i + inputPoints.length)
        = warpedPoint sqrt self inputPoints k 1 i := by
  have hbody : warpPointsBody sqrt self inputPoints k true
      = fun acc i => (acc.set i (warpedPoint sqrt self inputPoints k (1 / 2) i)).set
          (i + inputPoints.length) (warpedPoint sqrt self inputPoints k 1 i) := by
    funext acc i
    simp [warpPointsBody, SetPoint]
  have hl : (SetNumberOfPoints (2 * inputPoints.length) : List (Vec3 K)).length
      = 2 * inputPoints.length := by simp [SetNumberOfPoints]
  unfold WarpPoints GetPoint
  simp only [Bool.not_true, Bool.false_eq_true, if_false]
  rw [hbody]
  constructor
  · rw [getD_foldl_set_two _ _ _ _ _ hl _ (Nat.le_refl _), if_pos hi]
  · rw [getD_foldl_set_two _ _ _ _ _ hl _ (Nat.le_refl _), if_neg (by omega), if_pos (by omega),
      Nat.add_sub_cancel]

end QuadraticWarp

/-! ## The nodes of the quadratic wedges before the relaxation -/

section QuadraticNodes

variable {K : Type} [LinearOrderedField K]

theorem layerBlockSize_quadratic (input : vtkUnstructuredGrid K)
    (hq : input.GetCellType 0 = VTK_QUADRATIC_TRIANGLE) :
    layerBlockSize input = 2 * input.Points.length := by
  unfold layerBlockSize
  rw [if_pos hq]

/-- The positions, before the relaxation, of the nodes of the quadratic wedge of
transition `k` over base vertex `p`: the vertical mid-edge node, the top corner and the
bottom corner. -/
theorem extrudedPoints_quadratic_nodes (sqrt : K → K) (self : vtkvmtkBoundaryLayerGenerator K)
    (input : vtkUnstructuredGrid K)
    (hq : input.GetCellType 0 = VTK_QUADRATIC_TRIANGLE) (k p : Nat)
    (hk : k < self.NumberOfSubLayers) (hp : p < input.Points.length) :
    GetPoint (extrudedPoints sqrt self input)
        (p + k * layerBlockSize input + layerBlockSize input / 2)
      = warpedPoint sqrt self input.Points k (1 / 2) p
    ∧ GetPoint (extrudedPoints sqrt self input)
        (p + k * layerBlockSize input + layerBlockSize input)
      = warpedPoint sqrt self input.Points k 1 p
    ∧ GetPoint (extrudedPoints sqrt self input) (p + k * layerBlockSize input)
      = match k with
        | 0 => GetPoint input.Points p
        | k' + 1 => warpedPoint sqrt self input.Points k' 1 p := by
  have hL := layerBlockSize_quadratic input hq
  have hd : decide (input.GetCellType 0 = VTK_QUADRATIC_TRIANGLE) = true := by simp [hq]
  have hhalf : layerBlockSize input / 2 = input.Points.length := by
    rw [hL]; exact Nat.mul_div_cancel_left _ (by norm_num)
  have h1 := extrudedPoints_layer sqrt self input k p hk (by omega)
  have h2 := extrudedPoints_layer sqrt self input k (p + input.Points.length) hk (by omega)
  rw [hd] at h1 h2
  rw [(WarpPoints_quadratic_getPoint sqrt self input.Points k p hp).1] at h1
  rw [(WarpPoints_quadratic_getPoint sqrt self input.Points k p hp).2] at h2
  refine ⟨?_, ?_, ?_⟩
  · rw [← h1, hhalf]
    congr 1
    omega
  · rw [← h2]
    congr 1
    omega
  · cases k with
    | zero =>
      simp only [Nat.zero_mul, Nat.add_zero]
      exact extrudedPoints_block_zero sqrt self input p hp
    | succ k' =>
      have h3 := extrudedPoints_layer sqrt self input k' (p + input.Points.length)
        (by omega) (by omega)
      rw [hd, (WarpPoints_quadratic_getPoint sqrt self input.Points k' p hp).2] at h3
      simp only []
      rw [← h3]
      congr 1
      rw [Nat.succ_mul]
      omega

/-- Before the relaxation, the midpoint of the bottom and top corners of the quadratic
wedge of transition `k` over base vertex `p` is the position of the vertical mid-edge
node plus half the displacement of the bottom corner from the base vertex: the mid-edge
node is at the midpoint when the bottom corner is the base vertex, as for `k = 0`. -/
theorem quadratic_mid_node (sqrt : K → K) (self : vtkvmtkBoundaryLayerGenerator K)
    (input : vtkUnstructuredGrid K)
    (hq : input.GetCellType 0 = VTK_QUADRATIC_TRIANGLE) (k p : Nat)
    (hk : k < self.NumberOfSubLayers) (hp : p < input.Points.length) :
    Vec3.smul (1 / 2)
        (GetPoint (extrudedPoints sqrt self input) (p + k * layerBlockSize input)
          + GetPoint (extrudedPoints sqrt self input)
              (p + k * layerBlockSize input + layerBlockSize input))
      = GetPoint (extrudedPoints sqrt self input)
            (p + k * layerBlockSize input + layerBlockSize input / 2)
        + Vec3.smul (1 / 2)
            (GetPoint (extrudedPoints sqrt self input) (p + k * layerBlockSize input)
              - GetPoint input.Points p) := by
  obtain ⟨hm, ht, hb⟩ := extrudedPoints_quadratic_nodes sqrt self input hq k p hk hp
  rw [hm, ht, hb]
  cases k with
  | zero =>
    simp only []
    rw [Vec3.ext_iff']
    simp only [warpedPoint, Vec3.smul, Vec3.add_def, Vec3.sub_def]
    refine ⟨?_, ?_, ?_⟩ <;> ring
  | succ k' =>
    simp only []
    rw [Vec3.ext_iff']
    simp only [warpedPoint, Vec3.smul, Vec3.add_def, Vec3.sub_def]
    refine ⟨?_, ?_, ?_⟩ <;> ring

end QuadraticNodes

/-! ## One quadratic triangle with two sub-layers -/

section TwoLayerQuadratic

theorem twoLayer_not_missing : ¬ ConfigurationMissing twoLayerGenerator quadraticInput :=
  not_missing_of_constant twoLayerGenerator quadraticInput "Normals" "CellEntityIds"
    upwardWarp rfl rfl rfl rfl

theorem checkArrays_twoLayer :
    checkArrays twoLayerGenerator quadraticInput = (checkedTwoLayerGenerator, none) := by
  rfl

theorem warpedPoint_twoLayer (k : Nat) (f : ℚ) (p : Nat) (hk : k < 2) :
    warpedPoint qsqrt checkedTwoLayerGenerator quadraticInput.Points k f p
      = ⟨(GetPoint quadraticInput.Points p).x, (GetPoint quadraticInput.Points p).y,
          (GetPoint quadraticInput.Points p).z + f * (k + 1)⟩ := by
  have r1 : List.range 1 = [0] := rfl
  have r2 : List.range 2 = [0, 1] := rfl
  have hwv : ∀ i, checkedTwoLayerGenerator.warpVector i = ⟨0, 0, 1⟩ := by
    intro i
    simp [warpVector, deref, checkedTwoLayerGenerator, twoLayerGenerator, scenarioGenerator, New,
      upwardWarp, DataArray.GetTuple]
  have hnorm : Normalize qsqrt (⟨0, 0, 1⟩ : Vec3 ℚ) = (⟨0, 0, 1⟩, 1) := by
    simp [Normalize, Norm, qsqrt_one, Vec3.sdiv]
  have hlt : ∀ i, checkedTwoLayerGenerator.layerThickness qsqrt i = 2 := by
    intro i
    simp [layerThickness, checkedTwoLayerGenerator, twoLayerGenerator, scenarioGenerator, New]
    norm_num
  have hr : checkedTwoLayerGenerator.SubLayerRatio = 1 := rfl
  have hN : checkedTwoLayerGenerator.NumberOfSubLayers = 2 := rfl
  have hc0 : subLayerOffsetRatio (1 : ℚ) 2 0 + subLayerThicknessRatio (1 : ℚ) 2 0 = 1 / 2 := by
    simp [subLayerOffsetRatio, subLayerThicknessRatio, totalLayerZeroSubLayerRatio, r2]
    norm_num
  have hc1 : subLayerOffsetRatio (1 : ℚ) 2 1 + subLayerThicknessRatio (1 : ℚ) 2 1 = 1 := by
    simp [subLayerOffsetRatio, subLayerThicknessRatio, totalLayerZeroSubLayerRatio, r2, r1]
    norm_num
  unfold warpedPoint
  simp only [hwv, hnorm, hlt, hr, hN, ← add_mul]
  rcases (by omega : k = 0 ∨ k = 1) with rfl | rfl
  · rw [hc0]; norm_num
  · rw [hc1]; norm_num

end TwoLayerQuadratic

/-! ## The run on two triangles -/

section TwoTrianglesRun

theorem twoTriangles_indices :
    ∀ c ∈ twoTrianglesInput.Cells, ∀ p ∈ c.pts, p < twoTrianglesInput.Points.length := by
  decide

theorem graded_emitted :
    (RequestData qsqrt gradedGenerator twoTrianglesInput emptyGrid).emitted
      = allEmissions gradedGenerator twoTrianglesInput := by
  obtain ⟨_, _, _, _, hem, _⟩ := RequestData_ok qsqrt gradedGenerator twoTrianglesInput emptyGrid
    graded_not_missing twoTriangles_supported
  exact hem

end TwoTrianglesRun

/-! ## The checked relaxation and the relaxation -/

section CheckedLemmas

variable {K : Type} [LinearOrderedField K]

theorem neighbors_ne_nil_iff (input : vtkUnstructuredGrid K) (i j : Nat) :
    (neighborIds input i j).1 ≠ [] ↔ HasHorizontalNeighbor input j := by
  unfold HasHorizontalNeighbor
  constructor
  · intro h
    obtain ⟨a, ha⟩ := List.exists_mem_of_ne_nil _ h
    obtain ⟨c, hc, p, hp, hne, _⟩ := (neighborIds_spec input i j a).1.mp ha
    exact ⟨c, hc, p, hp, hne⟩
  · rintro ⟨c, hc, p, hp, hne⟩ hnil
    have : p + i * input.GetNumberOfPoints ∈ (neighborIds input i j).1 :=
      (neighborIds_spec input i j _).1.mpr ⟨c, hc, p, hp, hne, rfl⟩
    rw [hnil] at this
    cases this

/-- With a horizontal neighbour the checked update is the update. -/
theorem relaxPointChecked_some (sqrt : K → K) (input : vtkUnstructuredGrid K)
    (pts : List (Vec3 K)) (i j : Nat) (h : HasHorizontalNeighbor input j) :
    relaxPointChecked sqrt input pts i j = some (relaxPoint sqrt input pts i j) := by
  have hne := (neighbors_ne_nil_iff input i j).mpr h
  have hlen : ¬ (neighborIds input i j).1.length = 0 := by
    intro h0
    exact hne (List.length_eq_zero.mp h0)
  unfold relaxPointChecked relaxPoint barycenter
  dsimp only
  rw [if_neg hlen]
  split <;> rfl

/-- Without a horizontal neighbour the update divides by zero. -/
theorem relaxPointChecked_none (sqrt : K → K) (input : vtkUnstructuredGrid K)
    (pts : List (Vec3 K)) (i j : Nat) (h : ¬ HasHorizontalNeighbor input j) :
    relaxPointChecked sqrt input pts i j = none := by
  have hnil : (neighborIds input i j).1 = [] := by
    by_contra hne
    exact h ((neighbors_ne_nil_iff input i j).mp hne)
  unfold relaxPointChecked
  dsimp only
  rw [if_pos (by rw [hnil]; rfl)]

end CheckedLemmas

/-! ## Updates with and without a horizontal neighbour -/

section CheckedRuns

variable {K : Type} [LinearOrderedField K]

theorem updateSites_head (self : vtkvmtkBoundaryLayerGenerator K)
    (input : vtkUnstructuredGrid K) (hN : 1 ≤ self.NumberOfSubLayers)
    (hn : 0 < input.GetNumberOfPoints) :
    (updateSites self input)[0]? = some (1, 0) := by
  obtain ⟨N, hN'⟩ : ∃ N, self.NumberOfSubLayers = N + 1 := ⟨self.NumberOfSubLayers - 1, by omega⟩
  obtain ⟨n, hn'⟩ : ∃ n, input.GetNumberOfPoints = n + 1 :=
    ⟨input.GetNumberOfPoints - 1, by omega⟩
  unfold updateSites
  rw [hN', hn', show numberOfIterations = 999 + 1 from rfl, List.range_succ_eq_map,
    List.flatMap_cons, List.range'_succ, List.flatMap_cons, List.range_succ_eq_map,
    List.map_cons]
  simp only [List.cons_append, List.getElem?_cons_zero]

theorem isolatedInput_linear : Linear isolatedInput := by
  unfold Linear; decide

theorem checkArrays_isolatedInput :
    checkArrays scenarioGenerator isolatedInput = (checkedScenarioGenerator, none) := by
  rfl

theorem isolatedInput_no_neighbor : ¬ HasHorizontalNeighbor isolatedInput 0 := by
  rintro ⟨c, hc, _⟩
  have h0 : isolatedInput.GetPointCells 0 = [] := by decide
  rw [h0] at hc
  cases hc

theorem skewFan_hasNeighbor : HasHorizontalNeighbor skewFan 0 :=
  ⟨0, by decide, 1, by decide, by decide⟩

end CheckedRuns

/-! ## The claims on the relaxation, the tags and the sidewalls -/

section LaterClaims

variable {K : Type} [LinearOrderedField K]

/-- C11. Block 0 is fixed: for every `N ≥ 1`, `UnwrapSublayers` leaves every point whose
index is outside `n .. n*(N+1)-1` as it was and keeps the number of points, and on every
run of `RequestData` without error the output has at least `n` points and its points
`0..n-1` are the input vertices. -/
theorem UnwrapSublayers_block_zero_fixed (sqrt : K → K) (self : vtkvmtkBoundaryLayerGenerator K)
    (input output : vtkUnstructuredGrid K) (hN : 1 ≤ self.NumberOfSubLayers)
    (hok : (RequestData sqrt self input output).error = none) :
    (∀ (pts : List (Vec3 K)) (idx : Nat),
      (idx < input.GetNumberOfPoints
        ∨ input.GetNumberOfPoints * (self.NumberOfSubLayers + 1) ≤ idx) →
      (self.UnwrapSublayers sqrt input pts)[idx]? = pts[idx]?)
    ∧ (∀ pts : List (Vec3 K), (self.UnwrapSublayers sqrt input pts).length = pts.length)
    ∧ input.GetNumberOfPoints ≤ (RequestData sqrt self input output).output.Points.length
    ∧ (∀ idx, idx < input.GetNumberOfPoints →
      (RequestData sqrt self input output).output.Points[idx]? = input.Points[idx]?) := by
  refine ⟨?_, ?_, ?_, ?_⟩
  · intro pts idx h
    exact getElem_eq_of_GetPoint _ _ idx (length_UnwrapSublayers sqrt self input pts)
      (UnwrapSublayers_frame sqrt self input pts idx h)
  · exact length_UnwrapSublayers sqrt self input
  · obtain ⟨hconf, hs⟩ := RequestData_success sqrt self input output hN hok
    rw [RequestData_points_length sqrt self input output hconf hs]
    exact Nat.le_add_right _ _
  · intro idx hidx
    obtain ⟨hconf, hs⟩ := RequestData_success sqrt self input output hN hok
    have hlen := RequestData_points_length sqrt self input output hconf hs
    obtain ⟨s, pts, b, hc, hb, hpts, _⟩ := RequestData_built sqrt self input output hok
    have hg : GetPoint (RequestData sqrt self input output).output.Points idx
        = GetPoint input.Points idx := by
      rw [hpts, UnwrapSublayers_frame sqrt s input pts idx (Or.inl hidx)]
      exact buildLayers_block_zero sqrt s input pts b idx hidx hb
    have hidx' : idx < input.Points.length := hidx
    unfold GetPoint at hg
    rw [List.getD_eq_getElem?_getD, List.getD_eq_getElem?_getD] at hg
    rw [List.getElem?_eq_getElem (by omega), List.getElem?_eq_getElem hidx'] at hg ⊢
    simpa using hg

/-- On two triangles with two sub-layers, output point 3 is input vertex 3. -/
theorem UnwrapSublayers_block_zero_fixed_witness :
    (RequestData qsqrt gradedGenerator twoTrianglesInput emptyGrid).output.Points[3]?
      = twoTrianglesInput.Points[3]? :=
  (UnwrapSublayers_block_zero_fixed qsqrt gradedGenerator twoTrianglesInput emptyGrid
    (by decide) (RequestData_error_none qsqrt gradedGenerator twoTrianglesInput emptyGrid
      graded_not_missing twoTriangles_supported)).2.2.2 3 (by decide)

/-- C12. Region tag completeness. The empty buffers are tagged (`Tagged`: the cell, type
and tag sequences have the same length and every tag is the id configured for the place
that emitted the cell), each emission of `RequestData` keeps them tagged: a layer-0
surface cell, a layer-`N` surface cell, the volume cell of an input cell with its
sidewalls, and each pass of either sidewall loop; and after a run without error the
output cells, their emitting places and the region-tag array have the same length, the
tag array being the configured ids of the emitting places. -/
theorem RequestData_region_tags (sqrt : K → K) (self : vtkvmtkBoundaryLayerGenerator K)
    (input output : vtkUnstructuredGrid K) :
    Tagged self ⟨[], [], [], []⟩
    ∧ (∀ i b b', Tagged self b →
        surfaceCellStep input 0 self.InnerSurfaceCellEntityId Role.innerSurface i b = some b' →
        Tagged self b')
    ∧ (∀ offset i b b', Tagged self b →
        surfaceCellStep input offset self.OuterSurfaceCellEntityId Role.outerSurface i b
          = some b' → Tagged self b')
    ∧ (∀ L k i b b', Tagged self b → volumeCellStep self input L k i b = some b' →
        Tagged self b')
    ∧ (∀ i pts prismPts b, Tagged self b →
        Tagged self (linearSidewalls self input i pts prismPts b)
        ∧ Tagged self (quadraticSidewalls self input i pts prismPts b))
    ∧ ((RequestData sqrt self input output).error = none →
        (RequestData sqrt self input output).output.Cells.length
            = (RequestData sqrt self input output).roles.length
        ∧ GetArray (RequestData sqrt self input output).output.CellData
              ((RequestData sqrt self input output).self.CellEntityIdsArrayName.getD "")
            = some ((RequestData sqrt self input output).roles.map (tagOf self))) :=
  ⟨⟨rfl, rfl, rfl⟩,
   fun i b b' hb h => Tagged_surfaceCellStep self input 0 Role.innerSurface i b b' hb h,
   fun offset i b b' hb h =>
     Tagged_surfaceCellStep self input offset Role.outerSurface i b b' hb h,
   fun L k i b b' hb h => Tagged_volumeCellStep self input L k i b b' hb h,
   fun i pts prismPts b hb => ⟨Tagged_linearSidewalls self input i pts prismPts b hb,
     Tagged_quadraticSidewalls self input i pts prismPts b hb⟩,
   RequestData_tagged sqrt self input output⟩

/-- On two triangles with two sub-layers and sidewalls, the region-tag array of the output
is the list of the configured ids of the emitting places. -/
theorem RequestData_region_tags_witness :
    (RequestData qsqrt gradedGenerator twoTrianglesInput emptyGrid).output.Cells.length
        = (RequestData qsqrt gradedGenerator twoTrianglesInput emptyGrid).roles.length
    ∧ GetArray (RequestData qsqrt gradedGenerator twoTrianglesInput emptyGrid).output.CellData
          ((RequestData qsqrt gradedGenerator twoTrianglesInput emptyGrid).self.CellEntityIdsArrayName.getD "")
        = some ((RequestData qsqrt gradedGenerator twoTrianglesInput emptyGrid).roles.map
            (tagOf gradedGenerator)) :=
  (RequestData_region_tags qsqrt gradedGenerator twoTrianglesInput emptyGrid).2.2.2.2.2
    (RequestData_error_none qsqrt gradedGenerator twoTrianglesInput emptyGrid
      graded_not_missing twoTriangles_supported)

/-- C13, evaluated. For a QuadraticTriangle cell with vertex list `p0 .. p5` the pairs
that the sidewall loop tests are `(p0, p1)`, `(p1, p2)` and `(p2, p3)`: the third pair
holds the mid-edge node `pts[3]`, and the edge `(pts[2], pts[0])` is not tested. On two
quadratic triangles sharing the edge `2-0`, the run emits for the first cell a sidewall
at each of its three tested pairs, also at `(2, 3)`, although its edge `2-0` is shared;
5 sidewalls are emitted where 4 corner-to-corner edges belong to one cell only. -/
theorem quadraticSidewalls_tested_edges :
    (∀ (self : vtkvmtkBoundaryLayerGenerator ℚ) (input : vtkUnstructuredGrid ℚ)
        (i p0 p1 p2 p3 p4 p5 : Nat) (prismPts : List Nat) (b : CellBuffers),
      quadraticSidewalls self input i [p0, p1, p2, p3, p4, p5] prismPts b
        = b.extend
            ((if (input.GetCellNeighbors i [p0, p1]).length > 0 then []
              else [⟨Role.sidewall, ⟨VTK_QUAD, [prismPts.getD 0 0, prismPts.getD 1 0,
                prismPts.getD 4 0, prismPts.getD 3 0, prismPts.getD 6 0, prismPts.getD 13 0,
                prismPts.getD 9 0, prismPts.getD 12 0]⟩, self.SidewallCellEntityId⟩])
            ++ ((if (input.GetCellNeighbors i [p1, p2]).length > 0 then []
              else [⟨Role.sidewall, ⟨VTK_QUAD, [prismPts.getD 1 0, prismPts.getD 2 0,
                prismPts.getD 5 0, prismPts.getD 4 0, prismPts.getD 7 0, prismPts.getD 14 0,
                prismPts.getD 10 0, prismPts.getD 13 0]⟩, self.SidewallCellEntityId⟩])
            ++ (if (input.GetCellNeighbors i [p2, p3]).length > 0 then []
              else [⟨Role.sidewall, ⟨VTK_QUAD, [prismPts.getD 2 0, prismPts.getD 3 0,
                prismPts.getD 6 0, prismPts.getD 5 0, prismPts.getD 8 0, prismPts.getD 15 0,
                prismPts.getD 11 0, prismPts.getD 14 0]⟩, self.SidewallCellEntityId⟩]))))
    ∧ (RequestData qsqrt sidewallGenerator twoQuadraticInput emptyGrid).error = none
    ∧ isBoundaryEdge twoQuadraticInput.Cells 0 (2, 0) = false
    ∧ isBoundaryEdge twoQuadraticInput.Cells 0 (2, 3) = true
    ∧ ((RequestData qsqrt sidewallGenerator twoQuadraticInput emptyGrid).emitted.filter
          (fun e => decide (e.role = Role.sidewall))).map (fun e => e.cell.pts)
        = [[0, 1, 19, 18, 3, 10, 21, 9], [1, 2, 20, 19, 4, 11, 22, 10],
           [2, 18, 3, 20, 5, 0, 23, 11],
           [0, 6, 24, 18, 7, 15, 25, 9], [6, 20, 5, 24, 8, 0, 26, 15]] := by
  obtain ⟨_, _, herr, _, hem, _⟩ :=
    RequestData_ok qsqrt sidewallGenerator twoQuadraticInput emptyGrid sidewall_not_missing
      twoQuadratic_supported
  refine ⟨fun self input i p0 p1 p2 p3 p4 p5 prismPts b =>
    quadraticSidewalls_six self input i p0 p1 p2 p3 p4 p5 prismPts b, herr, by decide,
    by decide, ?_⟩
  rw [hem]
  decide

/-- C14, evaluated on quads. On a patch of 2 x 2 quads, for the interior vertex 4 no
vertex is a neighbour across a mesh-boundary edge (each of the four edges at vertex 4 is
shared by two quads), yet `UnwrapSublayers` records four on-edge neighbours for it: the
layer-1 counterparts 9, 11, 15, 17 of the diagonally opposite vertices 0, 2, 6, 8 of its
four quads; so the interior vertex is never written by the relaxation. On a single quad
`[0, 1, 2, 3]` the diagonal vertex 2 is recorded on-edge for vertex 0, and `(0, 2)` is
not an edge of the quad. -/
theorem neighborIds_quad_diagonal :
    (∀ p, ¬ IsBoundaryNeighbor quadPatch 4 p)
    ∧ (neighborIds quadPatch 1 4).2 = [0 + 1 * 9, 2 + 1 * 9, 6 + 1 * 9, 8 + 1 * 9]
    ∧ (∀ (sqrt : ℚ → ℚ) (self : vtkvmtkBoundaryLayerGenerator ℚ) (pts : List (Vec3 ℚ)),
        GetPoint (self.UnwrapSublayers sqrt quadPatch pts) (4 + 1 * 9) = GetPoint pts (4 + 1 * 9))
    ∧ (neighborIds quadInput 1 0).2 = [1 + 1 * 4, 2 + 1 * 4, 3 + 1 * 4]
    ∧ (cellAt quadInput 0).edges = [(0, 1), (1, 2), (2, 3), (3, 0)]
    ∧ ¬ IsBoundaryNeighbor quadInput 0 2 := by
  refine ⟨quadPatch_no_boundary_neighbor, by decide, ?_, by decide, by decide, ?_⟩
  · intro sqrt self pts
    exact UnwrapSublayers_frozen_vertex sqrt self quadPatch 1 4 (by decide) (by decide) pts
  · rintro ⟨_, c, hc, _, hedge, _⟩
    have h1 : quadInput.Cells.length = 1 := rfl
    rw [h1] at hc
    have hc0 : c = 0 := by omega
    subst hc0
    have e0 : (cellAt quadInput 0).edges = [(0, 1), (1, 2), (2, 3), (3, 0)] := by decide
    rw [e0] at hedge
    simp at hedge

/-- C16. Boundary rule. The on-edge neighbours that `UnwrapSublayers` records for a
vertex are distinct ids, so their number is the number of distinct on-edge neighbours.
When it is two or more, the update returns the point list as it was (no write), in
every iteration, so the vertex is where it was after the whole relaxation; when it is
fewer than two, the update overwrites the vertex with the computed new position. -/
theorem relaxPoint_boundary_rule (sqrt : K → K) (self : vtkvmtkBoundaryLayerGenerator K)
    (input : vtkUnstructuredGrid K) (i j : Nat) :
    (neighborIds input i j).2.Nodup
    ∧ (2 ≤ (neighborIds input i j).2.length →
        (∀ pts : List (Vec3 K), relaxPoint sqrt input pts i j = pts)
        ∧ (j < input.GetNumberOfPoints → ∀ pts : List (Vec3 K),
            GetPoint (self.UnwrapSublayers sqrt input pts) (j + i * input.GetNumberOfPoints)
              = GetPoint pts (j + i * input.GetNumberOfPoints)))
    ∧ ((neighborIds input i j).2.length < 2 → ∀ pts : List (Vec3 K),
        relaxPoint sqrt input pts i j
          = pts.set (j + i * input.GetNumberOfPoints)
              (relaxedPoint sqrt (GetPoint pts (j + i * input.GetNumberOfPoints))
                (GetPoint pts (j + i * input.GetNumberOfPoints - input.GetNumberOfPoints))
                (barycenter pts (neighborIds input i j).1))) :=
  ⟨(neighborIds_spec input i j 0).2.2.2,
   fun h => ⟨fun pts => relaxPoint_frozen sqrt input pts i j h,
     fun hj pts => UnwrapSublayers_frozen_vertex sqrt self input i j hj h pts⟩,
   fun h pts => relaxPoint_written sqrt input pts i j h⟩

/-- On the skew fan the rim vertex 1 of layer 1 is not written, and the centre vertex is
overwritten with the computed position. -/
theorem relaxPoint_boundary_rule_witness :
    relaxPoint qsqrt skewFan (extrudedPoints qsqrt checkedDriftGenerator skewFan) 1 1
        = extrudedPoints qsqrt checkedDriftGenerator skewFan
    ∧ relaxPoint qsqrt skewFan (extrudedPoints qsqrt checkedDriftGenerator skewFan) 1 0
        = (extrudedPoints qsqrt checkedDriftGenerator skewFan).set
            (0 + 1 * skewFan.GetNumberOfPoints)
            (relaxedPoint qsqrt
              (GetPoint (extrudedPoints qsqrt checkedDriftGenerator skewFan)
                (0 + 1 * skewFan.GetNumberOfPoints))
              (GetPoint (extrudedPoints qsqrt checkedDriftGenerator skewFan)
                (0 + 1 * skewFan.GetNumberOfPoints - skewFan.GetNumberOfPoints))
              (barycenter (extrudedPoints qsqrt checkedDriftGenerator skewFan)
                (neighborIds skewFan 1 0).1)) :=
  ⟨((relaxPoint_boundary_rule qsqrt checkedDriftGenerator skewFan 1 1).2.1 (by decide)).1 _,
   (relaxPoint_boundary_rule qsqrt checkedDriftGenerator skewFan 1 0).2.2 (by decide) _⟩

/-- C17. Relaxation fixed point. An update whose barycenter is the vertex's current
position, at a vertex distinct from its vertical neighbour (with `sqrt` the square root at
their squared distance), computes the current position; and a point list in which this
holds for every layer vertex with fewer than two on-edge neighbours is left unchanged by
every update, hence by `UnwrapSublayers` with its 1000 iterations. -/
theorem relaxation_fixed_point (sqrt : K → K) (self : vtkvmtkBoundaryLayerGenerator K)
    (input : vtkUnstructuredGrid K) :
    (∀ point verticalNeighborPoint : Vec3 K, point ≠ verticalNeighborPoint →
      IsSqrtAt sqrt (Distance2BetweenPoints point verticalNeighborPoint) →
      relaxedPoint sqrt point verticalNeighborPoint point = point)
    ∧ (∀ pts : List (Vec3 K),
        (∀ i j, 1 ≤ i → i ≤ self.NumberOfSubLayers → j < input.GetNumberOfPoints →
          (neighborIds input i j).2.length < 2 →
          barycenter pts (neighborIds input i j).1
              = GetPoint pts (j + i * input.GetNumberOfPoints)
          ∧ GetPoint pts (j + i * input.GetNumberOfPoints)
              ≠ GetPoint pts (j + i * input.GetNumberOfPoints - input.GetNumberOfPoints)
          ∧ IsSqrtAt sqrt (Distance2BetweenPoints
              (GetPoint pts (j + i * input.GetNumberOfPoints))
              (GetPoint pts (j + i * input.GetNumberOfPoints - input.GetNumberOfPoints)))) →
        (∀ m, relaxedAfter sqrt self input pts m = pts)
        ∧ self.UnwrapSublayers sqrt input pts = pts) := by
  refine ⟨fun P V hne hs => relaxedPoint_fixed sqrt P V hs hne, ?_⟩
  intro pts h
  have hfix : ∀ m, relaxedAfter sqrt self input pts m = pts :=
    relaxedAfter_fixed sqrt self input pts
      (fun i j h1 h2 hj => relaxPoint_fixed sqrt input pts i j (h i j h1 h2 hj))
  exact ⟨hfix, by rw [UnwrapSublayers_eq_relaxedAfter]; exact hfix _⟩

/-- On the symmetric fan extruded by 2, the centre vertex is at the barycenter of the rim:
its update computes its position, and the relaxation leaves the points unchanged. -/
theorem relaxation_fixed_point_witness :
    relaxedPoint qsqrt (⟨0, 0, 2⟩ : Vec3 ℚ) ⟨0, 0, 0⟩ ⟨0, 0, 2⟩ = ⟨0, 0, 2⟩
    ∧ checkedScenarioGenerator.UnwrapSublayers qsqrt symmetricFan symmetricFanPoints
        = symmetricFanPoints :=
  ⟨(relaxation_fixed_point qsqrt checkedScenarioGenerator symmetricFan).1 ⟨0, 0, 2⟩ ⟨0, 0, 0⟩
      (by intro h; have := congrArg Vec3.z h; norm_num at this)
      (isSqrtAt_qsqrt _ 2 (by norm_num) (by simp only [Distance2BetweenPoints]; norm_num)),
   ((relaxation_fixed_point qsqrt checkedScenarioGenerator symmetricFan).2 symmetricFanPoints
      symmetricFan_balanced).2⟩

/-- Counterexample to C18. The mesh `isolatedInput` is a Triangle mesh whose vertex 0
is used by no cell; the run on it succeeds, and the first update of its relaxation is the
one of the layer-1 vertex of vertex 0. That vertex has no horizontal and no on-edge
neighbour, so the update divides the sum of no points by zero and computes no position
(the code goes on with what the division gives and writes it to the vertex). -/
theorem relaxPointChecked_isolated_vertex :
    Linear isolatedInput
    ∧ (RequestData qsqrt scenarioGenerator isolatedInput emptyGrid).error = none
    ∧ checkArrays scenarioGenerator isolatedInput = (checkedScenarioGenerator, none)
    ∧ (updateSites checkedScenarioGenerator isolatedInput)[0]? = some (1, 0)
    ∧ neighborIds isolatedInput 1 0 = ([], [])
    ∧ relaxPointChecked qsqrt isolatedInput
        (extrudedPoints qsqrt checkedScenarioGenerator isolatedInput) 1 0 = none :=
  ⟨isolatedInput_linear,
    (RequestData_points_relaxedAfter qsqrt scenarioGenerator checkedScenarioGenerator
      isolatedInput emptyGrid isolatedInput_linear checkArrays_isolatedInput).1,
    checkArrays_isolatedInput,
    updateSites_head checkedScenarioGenerator isolatedInput (by decide) (by decide),
    by decide,
    relaxPointChecked_none qsqrt isolatedInput _ 1 0 isolatedInput_no_neighbor⟩

/-- C18, amended to vertices with a horizontal neighbour. Whatever the point, its
vertical neighbour and the barycenter are, the vector from the vertical neighbour to the
new position that `relaxedPoint` computes has a non-negative dot product with the vector
from the vertical neighbour to the old position. For a vertex with a horizontal neighbour
the update of `UnwrapSublayers` divides by no zero, and the vector to the position that it
leaves the vertex at has a non-negative dot product with the vector to the old position.
For a vertex without a horizontal neighbour the update divides by zero. -/
theorem relaxPointChecked_no_inversion (sqrt : K → K) (input : vtkUnstructuredGrid K) :
    (∀ point verticalNeighborPoint barycenter : Vec3 K,
      0 ≤ Dot (relaxedPoint sqrt point verticalNeighborPoint barycenter - verticalNeighborPoint)
        (point - verticalNeighborPoint))
    ∧ (∀ (pts : List (Vec3 K)) (i j : Nat), HasHorizontalNeighbor input j →
      ∃ pts', relaxPointChecked sqrt input pts i j = some pts'
        ∧ 0 ≤ Dot (GetPoint pts' (j + i * input.GetNumberOfPoints)
              - GetPoint pts (j + i * input.GetNumberOfPoints - input.GetNumberOfPoints))
            (GetPoint pts (j + i * input.GetNumberOfPoints)
              - GetPoint pts (j + i * input.GetNumberOfPoints - input.GetNumberOfPoints)))
    ∧ (∀ (pts : List (Vec3 K)) (i j : Nat), ¬ HasHorizontalNeighbor input j →
      relaxPointChecked sqrt input pts i j = none) :=
  ⟨relaxedPoint_dot_nonneg sqrt,
    fun pts i j h => ⟨_, relaxPointChecked_some sqrt input pts i j h,
      relaxPoint_dot_nonneg sqrt input pts i j⟩,
    fun pts i j h => relaxPointChecked_none sqrt input pts i j h⟩

/-- On the skew fan the centre vertex has a horizontal neighbour, and the first update of
its layer-1 vertex leaves it on the side of its base vertex where it was. -/
theorem relaxPointChecked_no_inversion_witness :
    HasHorizontalNeighbor skewFan 0
    ∧ ∃ pts', relaxPointChecked qsqrt skewFan
        (extrudedPoints qsqrt checkedDriftGenerator skewFan) 1 0 = some pts'
      ∧ 0 ≤ Dot (GetPoint pts' (0 + 1 * skewFan.GetNumberOfPoints)
            - GetPoint (extrudedPoints qsqrt checkedDriftGenerator skewFan)
                (0 + 1 * skewFan.GetNumberOfPoints - skewFan.GetNumberOfPoints))
          (GetPoint (extrudedPoints qsqrt checkedDriftGenerator skewFan)
              (0 + 1 * skewFan.GetNumberOfPoints)
            - GetPoint (extrudedPoints qsqrt checkedDriftGenerator skewFan)
                (0 + 1 * skewFan.GetNumberOfPoints - skewFan.GetNumberOfPoints)) :=
  ⟨skewFan_hasNeighbor,
    (relaxPointChecked_no_inversion qsqrt skewFan).2.1
      (extrudedPoints qsqrt checkedDriftGenerator skewFan) 1 0 skewFan_hasNeighbor⟩

/-- C19. On a Triangle/Quad input with sidewall cells included and `N ≥ 1`, the cells
that a run without error emits are: the layer-0 surface cells (if included); then, for
every transition `k` and every input cell in order, the cell's volume cell immediately
followed by one sidewall per edge `(pts[j], pts[jnext])` of the cell that no other cell
shares, each the 4-node Quad `[pts[j]+k*L, pts[jnext]+k*L, pts[jnext]+(k+1)*L,
pts[j]+(k+1)*L]` tagged with the sidewall id; then the layer-`N` surface cells (if
included). -/
theorem RequestData_linear_sidewalls (sqrt : K → K) (self : vtkvmtkBoundaryLayerGenerator K)
    (input output : vtkUnstructuredGrid K) (hl : Linear input)
    (hside : self.IncludeSidewallCells = true) (hN : 1 ≤ self.NumberOfSubLayers)
    (hok : (RequestData sqrt self input output).error = none) :
    (RequestData sqrt self input output).emitted
      = (if self.IncludeSurfaceCells = true then
            (List.range input.Cells.length).flatMap
              (surfaceEmission input 0 self.InnerSurfaceCellEntityId Role.innerSurface)
          else [])
        ++ ((List.range self.NumberOfSubLayers).flatMap (fun k =>
              (List.range input.Cells.length).flatMap (fun i =>
                specCellBlock self input.Cells (layerBlockSize input) k i (cellAt input i)))
        ++ (if self.IncludeSurfaceCells = true then
              (List.range input.Cells.length).flatMap
                (surfaceEmission input (self.NumberOfSubLayers * layerBlockSize input)
                  self.OuterSurfaceCellEntityId Role.outerSurface)
            else [])) := by
  obtain ⟨hconf, hs⟩ := RequestData_success sqrt self input output hN hok
  obtain ⟨_, _, _, _, hem, _⟩ := RequestData_ok sqrt self input output hconf hs
  rw [hem]
  unfold allEmissions vtkUnstructuredGrid.GetNumberOfCells
  rw [flatMap_layerEmissions self input hN, middleEmissions_spec self input hl hside]

/-- On two triangles sharing an edge, with two sub-layers, the emitted cells are the
layer-0 triangles, the blocks of volume cell and sidewalls, then the layer-2 triangles. -/
theorem RequestData_linear_sidewalls_witness :
    (RequestData qsqrt gradedGenerator twoTrianglesInput emptyGrid).emitted
      = (if gradedGenerator.IncludeSurfaceCells = true then
            (List.range twoTrianglesInput.Cells.length).flatMap
              (surfaceEmission twoTrianglesInput 0 gradedGenerator.InnerSurfaceCellEntityId
                Role.innerSurface)
          else [])
        ++ ((List.range gradedGenerator.NumberOfSubLayers).flatMap (fun k =>
              (List.range twoTrianglesInput.Cells.length).flatMap (fun i =>
                specCellBlock gradedGenerator twoTrianglesInput.Cells
                  (layerBlockSize twoTrianglesInput) k i (cellAt twoTrianglesInput i)))
        ++ (if gradedGenerator.IncludeSurfaceCells = true then
              (List.range twoTrianglesInput.Cells.length).flatMap
                (surfaceEmission twoTrianglesInput
                  (gradedGenerator.NumberOfSubLayers * layerBlockSize twoTrianglesInput)
                  gradedGenerator.OuterSurfaceCellEntityId Role.outerSurface)
            else [])) :=
  RequestData_linear_sidewalls qsqrt gradedGenerator twoTrianglesInput emptyGrid
    twoTriangles_linear rfl (by decide)
    (RequestData_error_none qsqrt gradedGenerator twoTrianglesInput emptyGrid
      graded_not_missing twoTriangles_supported)

end LaterClaims

/-! ## The claims on index ranges, node counts and the quadratic mid ring -/

section SafetyClaims

variable {K : Type} [LinearOrderedField K]

/-- C21, evaluated. The wedge connectivity of a QuadraticTriangle cell has 15 entries
(indices 0..14). For `j = 0` and `j = 1` the eight reads of the sidewall loop are within
it, but for `j = 2`, where `jnext = (2+1) mod 6 = 3`, the reads are
`2, 3, 6, 5, 8, 15, 11, 14`: `jnext + 12 = 15` is outside, and with Option-returning
indexing the lookup fails. On one quadratic triangle with sidewalls the run emits that
sidewall, `[2, 12, 3, 14, 5, 0, 17, 8]`, whose entry of index 5 stands for the read
outside the array. -/
theorem quadraticSidewalls_read_outside :
    (∀ p0 p1 p2 p3 p4 p5 k L : Nat,
      (quadraticPrismPts [p0, p1, p2, p3, p4, p5] k L).length = 15
      ∧ (quadPtsChecked (quadraticPrismPts [p0, p1, p2, p3, p4, p5] k L) 6 0).isSome = true
      ∧ (quadPtsChecked (quadraticPrismPts [p0, p1, p2, p3, p4, p5] k L) 6 1).isSome = true
      ∧ quadPtsChecked (quadraticPrismPts [p0, p1, p2, p3, p4, p5] k L) 6 2 = none)
    ∧ quadraticSidewallReads 6 0 = [0, 1, 4, 3, 6, 13, 9, 12]
    ∧ quadraticSidewallReads 6 1 = [1, 2, 5, 4, 7, 14, 10, 13]
    ∧ quadraticSidewallReads 6 2 = [2, 3, 6, 5, 8, 15, 11, 14]
    ∧ (∀ (self : vtkvmtkBoundaryLayerGenerator ℚ) (input : vtkUnstructuredGrid ℚ) (i : Nat)
        (pts prismPts : List Nat),
        quadraticSidewallEmissions self input i pts prismPts
          = (List.range (pts.length / 2)).flatMap (fun j =>
              if (input.GetCellNeighbors i
                  [pts.getD j 0, pts.getD ((j + 1) % pts.length) 0]).length > 0 then []
              else [⟨Role.sidewall,
                ⟨VTK_QUAD,
                  (quadraticSidewallReads pts.length j).map (fun idx => prismPts.getD idx 0)⟩,
                self.SidewallCellEntityId⟩]))
    ∧ (RequestData qsqrt sidewallGenerator quadraticInput emptyGrid).error = none
    ∧ ((RequestData qsqrt sidewallGenerator quadraticInput emptyGrid).emitted.filter
          (fun e => decide (e.role = Role.sidewall))).map (fun e => e.cell.pts)
        = [[0, 1, 13, 12, 3, 7, 15, 6], [1, 2, 14, 13, 4, 8, 16, 7],
           [2, 12, 3, 14, 5, 0, 17, 8]] := by
  obtain ⟨_, _, herr, _, hem, _⟩ :=
    RequestData_ok qsqrt sidewallGenerator quadraticInput emptyGrid
      quadratic_sidewall_not_missing quadraticInput_supported
  refine ⟨?_, by decide, by decide, by decide,
    fun self input i pts prismPts => quadraticSidewallEmissions_reads self input i pts prismPts,
    herr, ?_⟩
  · intro p0 p1 p2 p3 p4 p5 k L
    have hlen : (quadraticPrismPts [p0, p1, p2, p3, p4, p5] k L).length = 15 := by
      simp [quadraticPrismPts, newIdArray]
    have hr0 : quadraticSidewallReads 6 0 = [0, 1, 4, 3, 6, 13, 9, 12] := by decide
    have hr1 : quadraticSidewallReads 6 1 = [1, 2, 5, 4, 7, 14, 10, 13] := by decide
    have hr2 : quadraticSidewallReads 6 2 = [2, 3, 6, 5, 8, 15, 11, 14] := by decide
    have hp : quadraticPrismPts [p0, p1, p2, p3, p4, p5] k L
        = [p0 + k * L, p1 + k * L, p2 + k * L, p0 + k * L + L, p1 + k * L + L, p2 + k * L + L,
           p3 + k * L, p4 + k * L, p5 + k * L, p3 + k * L + L, p4 + k * L + L, p5 + k * L + L,
           p0 + k * L + L / 2, p1 + k * L + L / 2, p2 + k * L + L / 2] := by
      simp [quadraticPrismPts, newIdArray, List.replicate]
    refine ⟨hlen, ?_, ?_, ?_⟩
    · rw [quadPtsChecked, hr0, hp]; rfl
    · rw [quadPtsChecked, hr1, hp]; rfl
    · rw [quadPtsChecked, hr2, hp]; rfl
  · rw [hem]
    decide

/-- C22. For every input of supported cells with the node count of their type (Triangle
3, Quad 4, QuadraticTriangle 6) whose cell vertex indices are all below the number `n`
of input points, and every `N ≥ 1`, a run without error has `n + L * N` output points,
and every vertex index of every emitted surface cell, volume cell and 4-node sidewall is
below that number, whichever kind the first input cell has. (The sidewalls of
QuadraticTriangle cells, with 8 entries, are left out.) -/
theorem RequestData_indices_in_range (sqrt : K → K) (self : vtkvmtkBoundaryLayerGenerator K)
    (input output : vtkUnstructuredGrid K) (hw : WellFormed input)
    (hidx : ∀ c ∈ input.Cells, ∀ p ∈ c.pts, p < input.Points.length)
    (hN : 1 ≤ self.NumberOfSubLayers)
    (hok : (RequestData sqrt self input output).error = none) :
    (RequestData sqrt self input output).output.Points.length
        = input.Points.length + layerBlockSize input * self.NumberOfSubLayers
    ∧ ∀ e ∈ (RequestData sqrt self input output).emitted,
        (e.role = Role.sidewall → e.cell.pts.length = 4) →
        ∀ p ∈ e.cell.pts, p < (RequestData sqrt self input output).output.Points.length := by
  obtain ⟨hconf, hs⟩ := RequestData_success sqrt self input output hN hok
  have hlen := RequestData_points_length sqrt self input output hconf hs
  obtain ⟨_, _, _, _, hem, _⟩ := RequestData_ok sqrt self input output hconf hs
  refine ⟨hlen, ?_⟩
  intro e he hq p hp
  rw [hlen]
  rw [hem] at he
  exact allEmissions_index_bound self input hs hw hidx e he hq p hp

/-- On two triangles with two sub-layers, vertex 11 of the last sidewall `[7, 6, 10, 11]`
is below the number of output points. -/
theorem RequestData_indices_in_range_witness :
    11 < (RequestData qsqrt gradedGenerator twoTrianglesInput emptyGrid).output.Points.length :=
  (RequestData_indices_in_range qsqrt gradedGenerator twoTrianglesInput emptyGrid
    twoTriangles_wellFormed twoTriangles_indices (by decide)
    (RequestData_error_none qsqrt gradedGenerator twoTrianglesInput emptyGrid
      graded_not_missing twoTriangles_supported)).2
    ⟨Role.sidewall, ⟨VTK_QUAD, [7, 6, 10, 11]⟩, 3⟩
    (by rw [graded_emitted]; decide) (fun _ => rfl) 11 (by decide)

/-- C23, evaluated. On one quadratic triangle with sidewall cells included the run
succeeds and records each of its three sidewalls with the type `VTK_QUAD`, whose node
count is 4, and a connectivity of 8 entries; the other cells have the node count of
their type. -/
theorem RequestData_quadratic_sidewall_type :
    (RequestData qsqrt sidewallGenerator quadraticInput emptyGrid).error = none
    ∧ (RequestData qsqrt sidewallGenerator quadraticInput emptyGrid).output.Cells
        = [⟨VTK_QUADRATIC_TRIANGLE, [0, 1, 2, 3, 4, 5]⟩,
           ⟨VTK_QUADRATIC_WEDGE, [0, 1, 2, 12, 13, 14, 3, 4, 5, 15, 16, 17, 6, 7, 8]⟩,
           ⟨VTK_QUAD, [0, 1, 13, 12, 3, 7, 15, 6]⟩,
           ⟨VTK_QUAD, [1, 2, 14, 13, 4, 8, 16, 7]⟩,
           ⟨VTK_QUAD, [2, 12, 3, 14, 5, 0, 17, 8]⟩,
           ⟨VTK_QUADRATIC_TRIANGLE, [12, 13, 14, 15, 16, 17]⟩]
    ∧ (RequestData qsqrt sidewallGenerator quadraticInput emptyGrid).output.Cells.map
          (fun c => (nodeCount c.cellType, c.pts.length))
        = [(some 6, 6), (some 15, 15), (some 4, 8), (some 4, 8), (some 4, 8), (some 6, 6)] := by
  obtain ⟨_, _, herr, _, _, _, hcells, _⟩ :=
    RequestData_ok qsqrt sidewallGenerator quadraticInput emptyGrid
      quadratic_sidewall_not_missing quadraticInput_supported
  refine ⟨herr, ?_, ?_⟩
  · rw [hcells, allEmissions_quadratic_sidewalls]
  · rw [hcells, allEmissions_quadratic_sidewalls]
    decide

/-- C24, evaluated. On one quadratic triangle with two sub-layers at heights 1 and 2
(`n = 6`, `L = 12`), the wedge of transition `k = 1` has the connectivity
`[12, 13, 14, 24, 25, 26, 15, 16, 17, 27, 28, 29, 18, 19, 20]`; before the relaxation its
bottom corner 12 is at `(0, 0, 1)`, its top corner 24 at `(0, 0, 2)`, and its vertical
mid-edge node 18 at `(0, 0, 1)`, on the bottom corner, while the midpoint of the two
corners is `(0, 0, 3/2)`. -/
theorem quadratic_mid_node_off_midpoint :
    (RequestData qsqrt twoLayerGenerator quadraticInput emptyGrid).error = none
    ∧ checkArrays twoLayerGenerator quadraticInput = (checkedTwoLayerGenerator, none)
    ∧ layerBlockSize quadraticInput = 12
    ∧ (RequestData qsqrt twoLayerGenerator quadraticInput emptyGrid).output.Cells
        = [⟨VTK_QUADRATIC_TRIANGLE, [0, 1, 2, 3, 4, 5]⟩,
           ⟨VTK_QUADRATIC_WEDGE, [0, 1, 2, 12, 13, 14, 3, 4, 5, 15, 16, 17, 6, 7, 8]⟩,
           ⟨VTK_QUADRATIC_WEDGE, [12, 13, 14, 24, 25, 26, 15, 16, 17, 27, 28, 29, 18, 19, 20]⟩,
           ⟨VTK_QUADRATIC_TRIANGLE, [24, 25, 26, 27, 28, 29]⟩]
    ∧ GetPoint (extrudedPoints qsqrt checkedTwoLayerGenerator quadraticInput) 12 = ⟨0, 0, 1⟩
    ∧ GetPoint (extrudedPoints qsqrt checkedTwoLayerGenerator quadraticInput) 24 = ⟨0, 0, 2⟩
    ∧ GetPoint (extrudedPoints qsqrt checkedTwoLayerGenerator quadraticInput) 18 = ⟨0, 0, 1⟩
    ∧ Vec3.smul (1 / 2)
        (GetPoint (extrudedPoints qsqrt checkedTwoLayerGenerator quadraticInput) 12
          + GetPoint (extrudedPoints qsqrt checkedTwoLayerGenerator quadraticInput) 24)
        = ⟨0, 0, 3 / 2⟩ := by
  obtain ⟨_, _, herr, _, _, _, hcells, _⟩ :=
    RequestData_ok qsqrt twoLayerGenerator quadraticInput emptyGrid twoLayer_not_missing
      quadraticInput_supported
  have hL : layerBlockSize quadraticInput = 12 := by decide
  obtain ⟨hm, ht, hb⟩ := extrudedPoints_quadratic_nodes qsqrt checkedTwoLayerGenerator
    quadraticInput (by decide) 1 0 (by decide) (by decide)
  rw [hL] at hm ht hb
  simp only [] at hb
  rw [warpedPoint_twoLayer 1 _ 0 (by decide)] at hm ht
  rw [warpedPoint_twoLayer 0 _ 0 (by decide)] at hb
  have hP : GetPoint quadraticInput.Points 0 = ⟨0, 0, 0⟩ := rfl
  rw [hP] at hm ht hb
  have e12 : GetPoint (extrudedPoints qsqrt checkedTwoLayerGenerator quadraticInput) 12
      = ⟨0, 0, 1⟩ := by
    have : (0 + 1 * 12 : Nat) = 12 := by norm_num
    rw [this] at hb
    rw [hb, Vec3.ext_iff']
    norm_num
  have e24 : GetPoint (extrudedPoints qsqrt checkedTwoLayerGenerator quadraticInput) 24
      = ⟨0, 0, 2⟩ := by
    have : (0 + 1 * 12 + 12 : Nat) = 24 := by norm_num
    rw [this] at ht
    rw [ht, Vec3.ext_iff']
    norm_num
  have e18 : GetPoint (extrudedPoints qsqrt checkedTwoLayerGenerator quadraticInput) 18
      = ⟨0, 0, 1⟩ := by
    have : (0 + 1 * 12 + 12 / 2 : Nat) = 18 := by norm_num
    rw [this] at hm
    rw [hm, Vec3.ext_iff']
    norm_num
  refine ⟨herr, rfl, hL, ?_, e12, e24, e18, ?_⟩
  · rw [hcells]
    decide
  · rw [e12, e24, Vec3.ext_iff']
    simp only [Vec3.smul, Vec3.add_mk]
    norm_num

end SafetyClaims

end Vmtk
